import Mathlib

/-!
IGR Maharashtra automation engine: selection resolver, session start, CAPTCHA
submission, record extraction, artifact log and the server's session and cache state.

A shallow embedding of `src/backend/automate.js` and `src/backend/server.js`.

Conventions of the embedding.

* A JavaScript string is a Lean `String`; `===` on strings is Lean equality.
* `String.prototype.trim` is `jsTrim`, which strips the ECMAScript white space and
  line terminator code points from both ends.
* `String.prototype.toLowerCase` belongs to the JavaScript runtime, not to the
  repository; every definition that calls it takes it as the argument `lower`, and
  every theorem holds for every such function.  `asciiLower` is the instance used
  when a definition is evaluated on concrete data.
* A `<select>` control is its option list together with the index of the selected
  option (`none` is the DOM's `-1`).  The portal's own page scripts are not part of
  the repository: within one run the option list of a control is the one the page
  shows, and the selection changes only through the assignments the code makes.
* What the browser and the portal decide (whether a wait resolves, what a control
  holds) is a field of `Portal`; a puppeteer call for which `Portal` has no field,
  such as `page.select` or a repeated `browser.close()`, resolves.
* A run is recorded as the list of `Step`s it takes, so that "this step is never
  taken" and "this step comes before that one" are statements about lists.
-/

namespace IGR

/-! ## JavaScript strings -/

/-- ECMAScript `WhiteSpace` and `LineTerminator` code points, the ones `trim` strips. -/
def isJsSpace (c : Char) : Bool :=
  let n := c.toNat
  n == 0x09 || n == 0x0A || n == 0x0B || n == 0x0C || n == 0x0D || n == 0x20 ||
  n == 0xA0 || n == 0x1680 || (0x2000 ≤ n && n ≤ 0x200A) || n == 0x2028 ||
  n == 0x2029 || n == 0x202F || n == 0x205F || n == 0x3000 || n == 0xFEFF

/-- Strip leading white space. -/
def trimStart (l : List Char) : List Char := l.dropWhile isJsSpace

/-- Strip trailing white space. -/
def trimEnd (l : List Char) : List Char := l.rdropWhile isJsSpace

/-- The method `String.prototype.trim`. -/
def jsTrim (s : String) : String := ⟨trimEnd (trimStart s.data)⟩

/-- Does the character list `hay` contain `needle` as a contiguous run? -/
def includesChars (needle : List Char) : List Char → Bool
  | [] => needle.isEmpty
  | c :: cs => needle.isPrefixOf (c :: cs) || includesChars needle cs

/-- The method `String.prototype.includes`: `jsIncludes s t` is `s.includes(t)`. -/
def jsIncludes (s t : String) : Bool := includesChars t.data s.data

/-- Lower-casing of the ASCII letters; stands in for `toLowerCase` on concrete data. -/
def asciiLower (s : String) : String := ⟨s.data.map Char.toLower⟩

/-! ## Dropdown controls -/

/-- One `<option>` of a dropdown: its `value` and its label `text`. -/
structure DomOption where
  value : String
  text : String
  deriving DecidableEq, Repr

/-- A `<select>` element: the options in document order and `selectedIndex`. -/
structure Select where
  options : List DomOption
  selectedIndex : Option Nat
  deriving DecidableEq, Repr

/-- The method `Array.prototype.findIndex` (`none` for `-1`); `Array.prototype.find`
returns the option at that index. -/
def findIndex (p : DomOption → Bool) : List DomOption → Option Nat
  | [] => none
  | o :: os => if p o then some 0 else (findIndex p os).map (· + 1)

/-- The expression `select.options[select.selectedIndex]` (`none` for `undefined`). -/
def Select.selectedOption (s : Select) : Option DomOption :=
  match s.selectedIndex with
  | none => none
  | some i => s.options[i]?

/-- Getter of `select.value`: the value of the selected option, `""` when there is none. -/
def Select.value (s : Select) : String :=
  match s.selectedOption with
  | none => ""
  | some o => o.value

/-- Setter of `select.value`: the first option whose value equals `v` becomes the
selected one; with no such option nothing is selected. -/
def Select.setValue (s : Select) (v : String) : Select :=
  { s with selectedIndex := findIndex (fun o => o.value == v) s.options }

/-- Setter of `select.selectedIndex`; an index outside the list selects nothing. -/
def Select.setSelectedIndex (s : Select) (i : Nat) : Select :=
  { s with selectedIndex := if i < s.options.length then some i else none }

/-- Placeholder value of the taluka dropdown `#ddltahsil`. -/
def tahsilPlaceholder : String := "---Select Tahsil----"

/-- Placeholder value of the village dropdown `#ddlvillage`. -/
def villagePlaceholder : String := "---Select Village----"

/-! ## Option enumeration -/

/-- The `tahsilOptions` of `automateForm` (automate.js 402-410) and of `getTalukas`
(server.js 160-168): drop the placeholder by raw value, then trim every value. -/
def tahsilOptions (options : List DomOption) : List DomOption :=
  (options.filter (fun o => o.value != tahsilPlaceholder)).map
    (fun o => { value := jsTrim o.value, text := o.text })

/-- The `villageOptions` of `automateForm` (automate.js 620-626): every value trimmed. -/
def villageOptions (options : List DomOption) : List DomOption :=
  options.map (fun o => { value := jsTrim o.value, text := o.text })

/-- The list stored in `result.villages` (automate.js 631): the trimmed options whose
trimmed value is not the placeholder. -/
def resultVillages (options : List DomOption) : List DomOption :=
  (villageOptions options).filter (fun v => v.value != villagePlaceholder)

/-- The `villageOptions` of `getVillages` (server.js 236-244): drop the placeholder by
raw value, then trim every value. -/
def getVillagesOptions (options : List DomOption) : List DomOption :=
  (options.filter (fun o => o.value != villagePlaceholder)).map
    (fun o => { value := jsTrim o.value, text := o.text })

/-! ## Matching predicates -/

/-- The test `o.value === candidate`. -/
def exactPred (candidate : String) (o : DomOption) : Bool := o.value == candidate

/-- The test `o.value === candidate + ' '`. -/
def spacePred (candidate : String) (o : DomOption) : Bool := o.value == candidate ++ " "

/-- The test `o.value.trim() === candidate` of the taluka matcher. -/
def trimPred (candidate : String) (o : DomOption) : Bool := jsTrim o.value == candidate

/-- The test `o.value.trim() === candidate.trim()` of the village selection. -/
def valuePred (candidate : String) (o : DomOption) : Bool :=
  jsTrim o.value == jsTrim candidate

/-- The test `o.text.trim() === candidate.trim()` of the village selection. -/
def textPred (candidate : String) (o : DomOption) : Bool :=
  jsTrim o.text == jsTrim candidate

/-- The predicate of the partial match (automate.js 719-722): the lower-cased trimmed
label contains the lower-cased trimmed candidate, or the other way round. -/
def partialPred (lower : String → String) (candidate : String) (o : DomOption) : Bool :=
  jsIncludes (lower (jsTrim o.text)) (lower (jsTrim candidate)) ||
  jsIncludes (lower (jsTrim candidate)) (lower (jsTrim o.text))

/-- The filter `o.value !== "---Select Village----"` of the last resort. -/
def nonPlaceholder (o : DomOption) : Bool := o.value != villagePlaceholder

/-- `o` is the first option of `l` that satisfies `p`, at index `i`. -/
def IsFirst (p : DomOption → Bool) (l : List DomOption) (i : Nat) (o : DomOption) : Prop :=
  l[i]? = some o ∧ p o = true ∧ ∀ j o', j < i → l[j]? = some o' → p o' = false

/-! ## Taluka matcher -/

/-- What the taluka matcher hands back: the selection info, or "Option not found". -/
inductive TalukaResult where
  | found (selectedValue selectedText : String) (selectedIndex : Nat)
  | notFound
  deriving DecidableEq, Repr

/-- Is the result `success: true`? -/
def TalukaResult.success : TalukaResult → Bool
  | .found _ _ _ => true
  | .notFound => false

/-- The `targetOption` of the taluka matcher (automate.js 451-462, server.js 199-210),
as its index: exact value, else value equal to the candidate plus one space, else
option value equal to the candidate after trimming the option value. -/
def talukaTarget (options : List DomOption) (talukaValue : String) : Option Nat :=
  match findIndex (exactPred talukaValue) options with
  | some i => some i
  | none =>
    match findIndex (spacePred talukaValue) options with
    | some i => some i
    | none => findIndex (trimPred talukaValue) options

/-- The taluka matcher (automate.js 447-491, server.js 195-224): the control after the
call and the returned object.  A found option is assigned by index and then by value. -/
def talukaMatcher (select : Select) (talukaValue : String) : Select × TalukaResult :=
  match talukaTarget select.options talukaValue with
  | none => (select, .notFound)
  | some i =>
    match select.options[i]? with
    | none => (select, .notFound)
    | some o => (((select.setSelectedIndex 0).setSelectedIndex i).setValue o.value,
                 .found o.value o.text i)

/-! ## Village selection -/

/-- The `method` field of the village selection result. -/
inductive Method where
  | direct | value | text | partialMatch | fallback
  deriving DecidableEq, Repr

/-- The string the source puts in the `method` field. -/
def Method.name : Method → String
  | .direct => "direct"
  | .value => "value"
  | .text => "text"
  | .partialMatch => "partial"
  | .fallback => "fallback"

/-- What the village selection returns: `success: true` with method, value and text,
or `success: false` with the trimmed option list. -/
inductive VillageResult where
  | selected (method : Method) (value text : String)
  | notFound (availableOptions : List DomOption)
  deriving DecidableEq, Repr

/-- Is the result `success: true`? -/
def VillageResult.success : VillageResult → Bool
  | .selected _ _ _ => true
  | .notFound _ => false

/-- The tail `{ success: true, method, value: select.value,
text: select.options[select.selectedIndex].text }` of a branch; reading the text with
nothing selected is the `TypeError` of the source (`none`). -/
def villageReport (select : Select) (m : Method) : Option VillageResult :=
  match select.selectedOption with
  | none => none
  | some o => some (.selected m select.value o.text)

/-- Assign `options[i].value` to the control and report with method `m`. -/
def villagePick (select : Select) (i : Nat) (m : Method) : Select × Option VillageResult :=
  match select.options[i]? with
  | none => (select, none)
  | some o => (select.setValue o.value, villageReport (select.setValue o.value) m)

/-- The village selection (automate.js 651-759): the control after the call and the
returned object (`none` when the page function throws). -/
def villageSelected (lower : String → String) (select : Select) (villageValue : String) :
    Select × Option VillageResult :=
  let direct := select.setValue villageValue
  if direct.value == villageValue then (direct, villageReport direct .direct)
  else
    match findIndex (valuePred villageValue) direct.options with
    | some i => villagePick direct i .value
    | none =>
      match findIndex (textPred villageValue) direct.options with
      | some i => villagePick direct i .text
      | none =>
        match findIndex (partialPred lower villageValue) direct.options with
        | some i => villagePick direct i .partialMatch
        | none =>
          match findIndex nonPlaceholder direct.options with
          | some i => villagePick direct i .fallback
          | none => (direct, some (.notFound (villageOptions direct.options)))

/-! ## The strategy lists -/

/-- The test that decides the branch of the village selection reporting method `m`. -/
def Method.pred (lower : String → String) (candidate : String) : Method → DomOption → Bool
  | .direct => exactPred candidate
  | .value => valuePred candidate
  | .text => textPred candidate
  | .partialMatch => partialPred lower candidate
  | .fallback => nonPlaceholder

/-- Position of the branch reporting method `m` in the village selection. -/
def Method.rank : Method → Nat
  | .direct => 0
  | .value => 1
  | .text => 2
  | .partialMatch => 3
  | .fallback => 4

/-- The three lookups of the taluka matcher. -/
inductive TalukaStrategy where
  | exact | spacePadded | trimmed
  deriving DecidableEq, Repr

/-- The test of each lookup of the taluka matcher. -/
def TalukaStrategy.pred (candidate : String) : TalukaStrategy → DomOption → Bool
  | .exact => exactPred candidate
  | .spacePadded => spacePred candidate
  | .trimmed => trimPred candidate

/-- Position of each lookup in the taluka matcher. -/
def TalukaStrategy.rank : TalukaStrategy → Nat
  | .exact => 0
  | .spacePadded => 1
  | .trimmed => 2

/-- The strategies of the specification, section 4.1, in its order: exact value, value
with one trailing space appended, trimmed value, case-insensitive label, label
substring in either direction, first non-placeholder option. -/
inductive SpecStrategy where
  | exact | spacePadded | trimmed | labelIgnoringCase | labelSubstring | firstOption
  deriving DecidableEq, Repr

/-- The test of each strategy of the specification. -/
def SpecStrategy.pred (lower : String → String) (placeholder candidate : String) :
    SpecStrategy → DomOption → Bool
  | .exact => fun o => o.value == candidate
  | .spacePadded => fun o => o.value == candidate ++ " "
  | .trimmed => fun o => jsTrim o.value == jsTrim candidate
  | .labelIgnoringCase => fun o => lower (jsTrim o.text) == lower (jsTrim candidate)
  | .labelSubstring => fun o =>
      jsIncludes (lower (jsTrim o.text)) (lower (jsTrim candidate)) ||
      jsIncludes (lower (jsTrim candidate)) (lower (jsTrim o.text))
  | .firstOption => fun o => o.value != placeholder

/-- First strategy of `strategies` that has a matching option, with the index of the
first option it matches. -/
def firstStrategy (lower : String → String) (placeholder candidate : String)
    (options : List DomOption) : List SpecStrategy → Option (SpecStrategy × Nat)
  | [] => none
  | st :: rest =>
    match findIndex (st.pred lower placeholder candidate) options with
    | some i => some (st, i)
    | none => firstStrategy lower placeholder candidate options rest

/-- The selection step as the specification words it: the six strategies tried in the
stated order, the first one with a matching option decides. -/
def specResolve (lower : String → String) (placeholder candidate : String)
    (options : List DomOption) : Option (SpecStrategy × Nat) :=
  firstStrategy lower placeholder candidate options
    [.exact, .spacePadded, .trimmed, .labelIgnoringCase, .labelSubstring, .firstOption]

/-! ## Sample dropdown contents -/

/-- A village dropdown with the placeholder and one village. -/
def sampleVillages : Select :=
  ⟨[⟨"---Select Village----", "---Select Village----"⟩, ⟨"5", "Alpha"⟩], some 0⟩

/-- A taluka dropdown whose raw values carry surrounding white space. -/
def samplePadded : Select :=
  ⟨[⟨"---Select Tahsil----", "---Select Tahsil----"⟩, ⟨"12 ", "Haveli"⟩, ⟨" 7", "Mulshi"⟩],
    some 0⟩

/-- A dropdown in which two raw values differ only in surrounding white space. -/
def sampleColliding : Select := ⟨[⟨" A", "x"⟩, ⟨"A ", "y"⟩], some 0⟩

/-- A taluka dropdown with the placeholder and one taluka. -/
def sampleTalukas : Select :=
  ⟨[⟨"---Select Tahsil----", "---Select Tahsil----"⟩, ⟨"1", "Pune"⟩], some 0⟩

/-! ## The session start `automateForm` -/

/-- The request body of `automateForm`; an absent field is the empty string, which
`formData.x || ""` yields as well. -/
structure FormData where
  year : String
  district : String
  taluka : String
  village : String
  propertyNo : String
  captcha : String
  keepBrowserOpen : Bool
  deriving DecidableEq, Repr

/-- A dropdown as the waits of the source see it: the control, whether
`waitForSelector(..., { visible: true })` resolves on it, and its `disabled` flag. -/
structure Dropdown where
  select : Select
  visible : Bool
  disabled : Bool
  deriving DecidableEq, Repr

/-- The condition `select && select.options.length > 1 && !select.disabled` together
with the visibility wait (automate.js 349-355 and 393-399, server.js 151-157). -/
def Dropdown.populated (d : Dropdown) : Bool :=
  d.visible && decide (1 < d.select.options.length) && !d.disabled

/-- What the portal and the browser do during one run of `automateForm`: everything the
repository's code only observes. -/
structure Portal where
  /-- `puppeteer.launch` and `browser.newPage` resolve (automate.js 74-80). -/
  launches : Bool
  /-- Navigation, the "Rest of Maharashtra" button and the appearance of the form
  succeed (automate.js 257-316). -/
  formLoads : Bool
  /-- The control `#ddlFromYear1`. -/
  year : Select
  /-- The control `#ddlDistrict1` after the year was selected. -/
  district : Dropdown
  /-- The control `#ddltahsil` after the district was selected. -/
  tahsil : Dropdown
  /-- The control `#ddlvillage` after the taluka step. -/
  village : Select
  /-- The call `page.click('#ddlvillage')` resolves (automate.js 779). -/
  villageClickable : Bool
  /-- The calls `page.type('#txtAttributeValue1', ...)` resolve (automate.js 785, 790). -/
  propertyFieldTypable : Bool
  /-- The wait for `#imgCaptcha_new` to be visible resolves (automate.js 793). -/
  captchaVisible : Bool
  /-- The calls `page.screenshot` of the `catch` blocks resolve. -/
  screenshots : Bool
  /-- Message of whatever exception the browser raises in this run. -/
  errorText : String
  deriving Repr

/-- The cascade levels. -/
inductive Level where
  | year | district | taluka | village
  deriving DecidableEq, Repr

/-- The observable steps of a run, in the order they are taken. -/
inductive Step where
  /-- The browser was launched. -/
  | launch
  /-- The search form was opened (automate.js 257-316). -/
  | openForm
  /-- The option list of the level's control was read. -/
  | enumerate (l : Level)
  /-- A selection was made or attempted on the level's control. -/
  | choose (l : Level)
  /-- The taluka matcher returned, with its `success` flag. -/
  | talukaOutcome (found : Bool)
  /-- The forced index assignment of the taluka was run (automate.js 514-576). -/
  | forceIndex
  /-- The taluka read-back verification, with its `success` flag (automate.js 597-613). -/
  | verifyTaluka (ok : Bool)
  /-- The village selection returned, with its `success` flag. -/
  | villageOutcome (ok : Bool)
  /-- The property number was typed into `#txtAttributeValue1`. -/
  | typeProperty
  /-- The acquisition of a CAPTCHA challenge image was run. -/
  | acquireChallenge
  /-- A CAPTCHA value was written to `#txtImg1` and the search was triggered. -/
  | submitChallenge
  /-- The IndexII record actions were looked up and processed (record extraction). -/
  | extractRecords
  /-- The call `browser.close()`. -/
  | closeBrowser
  deriving DecidableEq, Repr

/-- An entry of `propertyData.indexButtons`. -/
structure IndexButton where
  index : Nat
  rowText : String
  found : Bool
  deriving DecidableEq, Repr

/-- An entry of `propertyData.screenshots`: `path` and `type`. -/
structure Screenshot where
  path : String
  kind : String
  deriving DecidableEq, Repr

/-- The object `scrapePropertyData` returns: the scraped data, or the error object of
its `catch` blocks. -/
inductive PropertyData where
  | scraped (indexButtons : List IndexButton) (details : List String)
      (screenshots : List Screenshot)
  | failed (message screenshot : String)
  deriving DecidableEq, Repr

/-- The `result` object of `automateForm` (automate.js 57-67) with the two properties
added later: `browserKeptOpen` and `session` (`false` when the property is absent). -/
structure Result where
  years : List DomOption
  districts : List DomOption
  talukas : List DomOption
  villages : List DomOption
  propertyData : Option PropertyData
  success : Bool
  message : String
  captchaRequired : Bool
  browserKeptOpen : Bool
  session : Bool
  deriving DecidableEq, Repr

/-- The initial `result` (automate.js 58-67). -/
def Result.initial : Result :=
  { years := [], districts := [], talukas := [], villages := [], propertyData := none,
    success := false, message := "", captchaRequired := false, browserKeptOpen := false,
    session := false }

/-- State of a run: the `result` object, the two controls the code writes to, and the
steps taken so far. -/
structure St where
  result : Result
  tahsil : Select
  village : Select
  trace : List Step
  deriving DecidableEq, Repr

/-- Append a step to the trace. -/
def St.log (s : St) (e : Step) : St := { s with trace := s.trace ++ [e] }

/-- The block `if (!keepBrowserOpen) await browser.close(); else
result.browserKeptOpen = true` (automate.js 375-381, 421-427, 638-644, 1277-1283). -/
def closeOrKeep (keepBrowserOpen : Bool) (s : St) : St :=
  if keepBrowserOpen then { s with result := { s.result with browserKeptOpen := true } }
  else s.log .closeBrowser

/-- An early `return result` with `success = true` and the given message, preceded by
the close-or-keep block. -/
def returnOptions (keepBrowserOpen : Bool) (message : String) (s : St) : St :=
  closeOrKeep keepBrowserOpen
    { s with result := { s.result with success := true, message := message } }

/-- The forced index assignment (automate.js 514-576): exact value, value plus one
space, trimmed value, then trimmed value starting with the candidate; an index above
zero is assigned to `selectedIndex`. -/
def forceTaluka (select : Select) (talukaValue : String) : Select :=
  let target :=
    match talukaTarget select.options talukaValue with
    | some i => some i
    | none =>
      findIndex (fun o => talukaValue.data.isPrefixOf (jsTrim o.value).data) select.options
  match target with
  | some i => if 0 < i then select.setSelectedIndex i else select
  | none => select

/-- The `success` field of `talukaSelectedVerification` (automate.js 597-607). -/
def talukaSelectedVerification (lower : String → String) (select : Select)
    (expectedTaluka : String) : Bool :=
  match select.selectedOption with
  | none => false
  | some o =>
    jsTrim o.value == jsTrim expectedTaluka ||
    lower (jsTrim o.text) == lower (jsTrim expectedTaluka)

/-- The inner `catch` (automate.js 1259-1267) for an exception with message `msg`; when
its own screenshot fails the outer `catch` (1268-1275) takes over. -/
def innerCatch (p : Portal) (msg : String) (s : St) : St :=
  let s₁ := { s with result := { s.result with success := false, message := "Error: " ++ msg } }
  if p.screenshots then s₁
  else { s₁ with result :=
          { s₁.result with success := false, message := "Automation error: " ++ p.errorText } }

/-- The outer `catch` (automate.js 1268-1275). -/
def outerCatch (p : Portal) (s : St) : St :=
  { s with result :=
      { s.result with success := false, message := "Automation error: " ++ p.errorText } }

/-- Message of the `TypeError` raised by `select.options[select.selectedIndex].text`
when nothing is selected. -/
def noSelectionError : String := "Cannot read properties of undefined (reading 'text')"

/-- The `handleCaptcha` declared inside the `try` block of `automateForm`
(automate.js 805-926), with its return value.  Being declared in that block, it is the
function the calls at lines 796 and 930 resolve to, not the module-level
`handleCaptcha(page, browser)`.  It acquires the challenge image (806-897) and then
calls `askForCaptchaInTerminal` (900), a name declared nowhere: the `ReferenceError`
is caught at 922 and the function returns `false` before anything is written to
`#txtImg1`. -/
def handleCaptchaInner (s : St) : St × Bool :=
  (s.log .acquireChallenge, false)

/-- The statements after the CAPTCHA hand-off (automate.js 928-1257): when the inner
`handleCaptcha` returns `true` the IndexII buttons are processed (932-1249) and line
1257 then reads the undeclared name `resultsData`, which raises a `ReferenceError`;
otherwise line 1251 throws. -/
def terminalPath (p : Portal) (s : St) : St :=
  let h := handleCaptchaInner s
  if h.2 then
    let s₂ := h.1.log .extractRecords
    innerCatch p "resultsData is not defined"
      { s₂ with result :=
          { s₂.result with success := true, message := "Property search completed" } }
  else innerCatch p "Failed to verify CAPTCHA after maximum attempts" h.1

/-- From the read-back of the selected village to the CAPTCHA hand-off
(automate.js 761-803), followed by the terminal path when `propertyNo` is empty. -/
def captchaHandOff (formData : FormData) (p : Portal) (s : St) : St :=
  match s.village.selectedOption with
  | none => innerCatch p noSelectionError s
  | some _ =>
    if !p.villageClickable then innerCatch p p.errorText s
    else if !p.propertyFieldTypable then innerCatch p p.errorText s
    else if formData.propertyNo ≠ "" then
      let s₁ := s.log .typeProperty
      if !p.captchaVisible then innerCatch p p.errorText s₁
      else
        let s₂ := (handleCaptchaInner s₁).1
        { s₂ with result :=
            { s₂.result with captchaRequired := true, session := true,
                             message := "Please enter the CAPTCHA to continue" } }
    else terminalPath p s

/-- The village selection and what follows it (automate.js 649-803). -/
def villageChoice (lower : String → String) (formData : FormData) (p : Portal) (s : St) : St :=
  match villageSelected lower s.village formData.village with
  | (sel, none) => innerCatch p noSelectionError ({ s with village := sel }.log (.choose .village))
  | (sel, some r) =>
    captchaHandOff formData p
      (({ s with village := sel }.log (.choose .village)).log (.villageOutcome r.success))

/-- The village level (automate.js 615-759): enumerate, return the options when the
village or the property number is withheld, otherwise select. -/
def villageLevel (lower : String → String) (formData : FormData) (p : Portal) (s : St) : St :=
  let s₁ := ({ s with result := { s.result with villages := resultVillages p.village.options } }
              ).log (.enumerate .village)
  if formData.village = "" ∨ formData.propertyNo = "" then
    returnOptions formData.keepBrowserOpen "Retrieved available villages" s₁
  else villageChoice lower formData p s₁

/-- The final taluka verification (automate.js 596-613), whose failure is only logged,
followed by the village level. -/
def talukaVerified (lower : String → String) (formData : FormData) (p : Portal) (s : St) : St :=
  villageLevel lower formData p
    (s.log (.verifyTaluka (talukaSelectedVerification lower s.tahsil formData.taluka)))

/-- The taluka level after enumeration (automate.js 432-613): the matcher, the read-back
`verifySelection`, and, when the control still shows index 0 or the placeholder, the
forced index assignment with its own read-back. -/
def talukaLevel (lower : String → String) (formData : FormData) (p : Portal) (s : St) : St :=
  let m := talukaMatcher s.tahsil formData.taluka
  let s₁ := ({ s with tahsil := m.1 }.log (.choose .taluka)).log (.talukaOutcome m.2.success)
  match s₁.tahsil.selectedOption with
  | none => innerCatch p noSelectionError s₁
  | some _ =>
    if s₁.tahsil.selectedIndex = some 0 ∨ s₁.tahsil.value = tahsilPlaceholder then
      let s₂ := { s₁ with tahsil := forceTaluka s₁.tahsil formData.taluka }.log .forceIndex
      match s₂.tahsil.selectedOption with
      | none => innerCatch p noSelectionError s₂
      | some _ => talukaVerified lower formData p s₂
    else talukaVerified lower formData p s₁

/-- The inner `try` block (automate.js 320-1258). -/
def innerTry (lower : String → String) (formData : FormData) (p : Portal) (s : St) : St :=
  if p.year.options.length = 0 then innerCatch p p.errorText s
  else
    let s₁ := (({ s with result := { s.result with years := p.year.options } }
                ).log (.enumerate .year)).log (.choose .year)
    if !p.district.populated then innerCatch p p.errorText s₁
    else
      let s₂ := ({ s₁ with result := { s₁.result with districts := p.district.select.options } }
                  ).log (.enumerate .district)
      if formData.district = "" then
        returnOptions formData.keepBrowserOpen "Retrieved available districts" s₂
      else
        let s₃ := s₂.log (.choose .district)
        if !p.tahsil.populated then innerCatch p p.errorText s₃
        else
          let s₄ := ({ s₃ with result :=
                        { s₃.result with talukas := tahsilOptions p.tahsil.select.options } }
                      ).log (.enumerate .taluka)
          if formData.taluka = "" ∨ formData.taluka = tahsilPlaceholder then
            returnOptions formData.keepBrowserOpen "Retrieved available talukas" s₄
          else talukaLevel lower formData p s₄

/-- The function `automateForm` (automate.js 47-1286): the state when it returns
`result`, or `none` when launching the browser fails and the call rejects.  The
`finally` block runs the close-or-keep block once more and returns `result`. -/
def automateForm (lower : String → String) (formData : FormData) (p : Portal) : Option St :=
  if !p.launches then none
  else
    let s₀ : St :=
      { result := Result.initial, tahsil := p.tahsil.select, village := p.village,
        trace := [.launch] }
    let s₁ := if !p.formLoads then outerCatch p s₀ else innerTry lower formData p (s₀.log .openForm)
    some (closeOrKeep formData.keepBrowserOpen s₁)

/-! ## The server's dropdown helpers -/

/-- The function `getTalukas` (server.js 144-176): the returned list, or `none` when the
wait for the taluka dropdown times out and the call throws. -/
def getTalukas (tahsil : Dropdown) : Option (List DomOption) :=
  if tahsil.populated then some (tahsilOptions tahsil.select.options) else none

/-- The function `getVillages` (server.js 179-252): the returned list, the taluka
control afterwards and the steps taken. -/
def getVillages (tahsil village : Select) (taluka : String) :
    List DomOption × Select × List Step :=
  let m := talukaMatcher tahsil taluka
  (getVillagesOptions village.options, m.1,
    [.choose .taluka, .talukaOutcome m.2.success, .enumerate .village])

/-! ## The session's `submitCaptcha` -/

/-- What the results page shows to one `submitCaptcha` call. -/
structure CaptchaPage where
  /-- The input `#txtImg1` exists. -/
  inputPresent : Bool
  /-- One of the search buttons exists. -/
  searchButton : Bool
  /-- Text of the first `.error-message, #lblError` element, if there is one. -/
  errorIndicator : Option String
  /-- What `scrapePropertyData` returns, `none` when it throws. -/
  scraped : Option PropertyData
  /-- Message of whatever exception is raised. -/
  errorText : String
  deriving Repr

/-- The object `submitCaptcha` resolves to. -/
structure CaptchaReply where
  success : Bool
  captchaRequired : Bool
  propertyData : Option PropertyData
  message : String
  browserKeptOpen : Bool
  deriving DecidableEq, Repr

/-- The test `errorElement && (text.includes('invalid') || text.includes('CAPTCHA'))`
(automate.js 206-211). -/
def invalidCaptcha (pg : CaptchaPage) : Bool :=
  match pg.errorIndicator with
  | none => false
  | some t => jsIncludes t "invalid" || jsIncludes t "CAPTCHA"

/-- The method `session.submitCaptcha` (automate.js 153-242): the reply and the steps
taken. -/
def submitCaptcha (pg : CaptchaPage) : CaptchaReply × List Step :=
  let failure : CaptchaReply :=
    { success := false, captchaRequired := true, propertyData := none,
      message := "Error processing CAPTCHA: " ++ pg.errorText, browserKeptOpen := true }
  if !pg.inputPresent then (failure, [])
  else if !pg.searchButton then (failure, [])
  else if invalidCaptcha pg then
    ({ success := false, captchaRequired := true, propertyData := none,
       message := "Invalid CAPTCHA. Please try again.", browserKeptOpen := true },
     [.submitChallenge, .acquireChallenge])
  else
    match pg.scraped with
    | none => (failure, [.submitChallenge, .extractRecords])
    | some d =>
      ({ success := true, captchaRequired := false, propertyData := some d,
         message := "Search completed successfully", browserKeptOpen := true },
       [.submitChallenge, .extractRecords])

/-! ## Sample runs -/

/-- A portal on which every wait succeeds, showing the given taluka and village
dropdowns. -/
def samplePortal (tahsil village : Select) : Portal :=
  { launches := true, formLoads := true,
    year := ⟨[⟨"2025", "2025"⟩, ⟨"2024", "2024"⟩], some 0⟩,
    district := ⟨⟨[⟨"---Select District----", "---Select District----"⟩, ⟨"1", "Pune"⟩],
      some 0⟩, true, false⟩,
    tahsil := ⟨tahsil, true, false⟩, village := village,
    villageClickable := true, propertyFieldTypable := true, captchaVisible := true,
    screenshots := true, errorText := "timeout" }

/-- The scenario of the specification: year and district given, nothing below. -/
def districtOnly : FormData :=
  { year := "2025", district := "1", taluka := "", village := "", propertyNo := "",
    captcha := "", keepBrowserOpen := true }

/-- A full search for property 3 with the given taluka and village. -/
def fullSearch (taluka village : String) : FormData :=
  { year := "2025", district := "1", taluka := taluka, village := village, propertyNo := "3",
    captcha := "", keepBrowserOpen := true }

/-! ## The shape of a run -/

/-- The steps of a run that goes all the way to the CAPTCHA hand-off, with the
outcome flags set to `true` and without the optional forced index assignment. -/
def fullPath : List Step :=
  [.launch, .openForm, .enumerate .year, .choose .year, .enumerate .district,
   .choose .district, .enumerate .taluka, .choose .taluka, .talukaOutcome true,
   .verifyTaluka true, .enumerate .village, .choose .village, .villageOutcome true,
   .typeProperty, .acquireChallenge]

/-- Forget the outcome flag of a step; the forced index assignment and the closing of
the browser are left out. -/
def Step.erase : Step → Option Step
  | .talukaOutcome _ => some (.talukaOutcome true)
  | .verifyTaluka _ => some (.verifyTaluka true)
  | .villageOutcome _ => some (.villageOutcome true)
  | .forceIndex => none
  | .closeBrowser => none
  | e => some e

/-- The trace with the outcome flags forgotten. -/
def skeleton (t : List Step) : List Step := t.filterMap Step.erase

/-- Is the step an enumeration or a selection at some cascade level? -/
def Step.isLevelStep : Step → Bool
  | .enumerate _ => true
  | .choose _ => true
  | _ => false

/-- The level steps in dependency order. -/
def levelOrder : List Step :=
  [.enumerate .year, .choose .year, .enumerate .district, .choose .district,
   .enumerate .taluka, .choose .taluka, .enumerate .village, .choose .village]

/-- The run has taken the first `n` steps of `fullPath`, and `result` carries the
CAPTCHA hand-off exactly when all of them were taken. -/
def Reached (n : Nat) (s : St) : Prop :=
  skeleton s.trace = fullPath.take n ∧ (s.result.captchaRequired = true ↔ 15 ≤ n) ∧
    s.result.session = s.result.captchaRequired ∧ s.result.propertyData = none

/-- The waits and browser calls that a run which has taken `n` steps of `fullPath` has
seen succeed: the form loaded, the year, district and taluka dropdowns were populated,
the village control could be clicked and the property field typed into, and the CAPTCHA
image became visible. -/
def Waits (p : Portal) (n : Nat) : Prop :=
  (1 < n → p.formLoads = true) ∧
  (2 < n → p.year.options ≠ []) ∧
  (4 < n → p.district.populated = true) ∧
  (6 < n → p.tahsil.populated = true) ∧
  (13 < n → p.villageClickable = true ∧ p.propertyFieldTypable = true) ∧
  (14 < n → p.captchaVisible = true)

/-- What a run that has taken `n` steps of `fullPath` tells about the request and the
portal: a level is selected only when its value was supplied, the hand-off is reached
only after a successful village selection, a run that stops right after typing the
property number never saw the CAPTCHA image, a run that stops right after enumerating
the villages returns them with `success = true`, every wait on the way succeeded, and
the property number is typed only with a village option selected. -/
def Facts (fd : FormData) (p : Portal) (n : Nat) (st : St) : Prop :=
  (5 < n → fd.district ≠ "") ∧
  (7 < n → fd.taluka ≠ "" ∧ fd.taluka ≠ tahsilPlaceholder) ∧
  (11 < n → fd.village ≠ "" ∧ fd.propertyNo ≠ "") ∧
  (13 < n → Step.villageOutcome true ∈ st.trace) ∧
  (n = 14 → p.captchaVisible = false) ∧
  (n = 11 → st.result.success = true ∧
    st.result.villages = resultVillages p.village.options) ∧
  Waits p n ∧
  (13 < n → st.village.selectedOption ≠ none)

/-- The run of `fullSearch "1" "5"` on the sample portal when it returns. -/
def sampleHandOff : St :=
  { result :=
      { years := [⟨"2025", "2025"⟩, ⟨"2024", "2024"⟩],
        districts := [⟨"---Select District----", "---Select District----"⟩, ⟨"1", "Pune"⟩],
        talukas := [⟨"1", "Pune"⟩], villages := [⟨"5", "Alpha"⟩], propertyData := none,
        success := false, message := "Please enter the CAPTCHA to continue",
        captchaRequired := true, browserKeptOpen := true, session := true },
    tahsil := ⟨sampleTalukas.options, some 1⟩, village := ⟨sampleVillages.options, some 1⟩,
    trace := [.launch, .openForm, .enumerate .year, .choose .year, .enumerate .district,
      .choose .district, .enumerate .taluka, .choose .taluka, .talukaOutcome true,
      .verifyTaluka true, .enumerate .village, .choose .village, .villageOutcome true,
      .typeProperty, .acquireChallenge] }

/-! ## Document folders and file names -/

/-- The character class `[\/\\?%*:|"<>]` of the village sanitiser. -/
def isForbiddenChar (c : Char) : Bool :=
  c == '/' || c == Char.ofNat 92 || c == '?' || c == '%' || c == '*' || c == ':' ||
  c == '|' || c == Char.ofNat 34 || c == '<' || c == '>'

/-- The expression `village.replace(/[\/\\?%*:|"<>]/g, '-').trim() || 'unknown-village'`
(automate.js 111, 1113, 1567, 1622). -/
def villageFolderName (village : String) : String :=
  let replaced : String := ⟨village.data.map (fun c => if isForbiddenChar c then '-' else c)⟩
  if jsTrim replaced = "" then "unknown-village" else jsTrim replaced

/-- Split a path at every `/`. -/
def splitSlash : List Char → List (List Char)
  | [] => [[]]
  | c :: cs =>
    match splitSlash cs with
    | [] => [[]]
    | seg :: rest => if c == '/' then [] :: seg :: rest else (c :: seg) :: rest

/-- One step of path normalisation on the segments kept so far (innermost first): an
empty segment and `.` are dropped, `..` removes the segment before it. -/
def pushSegment (stack : List (List Char)) (seg : List Char) : List (List Char) :=
  if seg = [] ∨ seg = ['.'] then stack
  else if seg = ['.', '.'] then
    match stack with
    | [] => [seg]
    | top :: rest => if top = ['.', '.'] then seg :: stack else rest
  else seg :: stack

/-- Node's `path.normalize` on POSIX, for a relative path without a trailing
separator, which is what the repository passes. -/
def posixNormalize (p : String) : String :=
  let segs := ((splitSlash p.data).foldl pushSegment []).reverse
  if segs = [] then "." else ⟨List.intercalate ['/'] segs⟩

/-- Node's `path.join(a, b)` on POSIX for non-empty relative `a` and `b`. -/
def posixJoin (a b : String) : String := posixNormalize (a ++ "/" ++ b)

/-- The folder `path.join('documents', villageFolderName)` (automate.js 112, 1568). -/
def villageFolder (village : String) : String :=
  posixJoin "documents" (villageFolderName village)

/-- The expression `new Date().toISOString().replace(/[:.]/g, '-')` applied to the ISO
string `iso` of the capture instant. -/
def timestampSuffix (iso : String) : String :=
  ⟨iso.data.map (fun c => if c == ':' || c == '.' then '-' else c)⟩

/-- The `pdfPath` of the IndexII loop (automate.js 1580-1581, 1127-1128) for the record
index `i`, counted from zero. -/
def recordPdfPath (village : String) (i : Nat) (iso : String) : String :=
  posixJoin (villageFolder village)
    ("document-" ++ toString (i + 1) ++ "-" ++ timestampSuffix iso ++ ".pdf")

/-- The `pdfPath` of the `targetcreated` listener (automate.js 123-124). -/
def autoPdfPath (village : String) (iso : String) : String :=
  posixJoin (villageFolder village) ("document-auto-" ++ timestampSuffix iso ++ ".pdf")

/-! ## The artifact log `data.json` -/

/-- A JSON value. -/
inductive Json where
  | null
  | bool (b : Bool)
  | num (n : Int)
  | str (s : String)
  | arr (items : List Json)
  | obj (fields : List (String × Json))
  deriving Repr

/-- The test `Array.isArray`. -/
def Json.isArray : Json → Bool
  | .arr _ => true
  | _ => false

/-- What `saveUrlToJson` finds on disk and in the clock. -/
structure LogEnv where
  /-- The file `data.json`: `none` when `existsSync` is false, `some none` when
  `readFileSync` throws, `some (some text)` when it returns `text`. -/
  file : Option (Option String)
  /-- The value of `new Date().toISOString()`. -/
  now : String
  /-- The call `fs.writeFileSync` resolves. -/
  writable : Bool

/-- The object `{ url: url, timestamp: new Date().toISOString() }`. -/
def logEntry (url now : String) : Json :=
  .obj [("url", .str url), ("timestamp", .str now)]

/-- The value of `data` before the push (automate.js 9-29).  `parse` is `JSON.parse`,
`none` when it throws. -/
def existingData (parse : String → Option Json) (file : Option (Option String)) :
    List Json :=
  match file with
  | none => []
  | some none => []
  | some (some fileContent) =>
    if fileContent ≠ "" ∧ jsTrim fileContent ≠ "" then
      match parse fileContent with
      | none => []
      | some (.arr items) => items
      | some _ => []
    else []

/-- The function `saveUrlToJson` (automate.js 7-45): the value handed to
`JSON.stringify` and written to `data.json` (`none` when nothing is written), and the
return value. -/
def saveUrlToJson (parse : String → Option Json) (env : LogEnv) (url : String) :
    Option Json × Bool :=
  let data := existingData parse env.file ++ [logEntry url env.now]
  if env.writable then (some (.arr data), true) else (none, false)

/-! ## The results page: record extraction -/

/-- What the extraction does to the results page and to the file system. -/
inductive Action where
  /-- The IndexII buttons were looked up (automate.js 1438, 957). -/
  | readButtons
  /-- The call `page.goBack()`. -/
  | goBack
  /-- The click on the IndexII button with this index through `page.evaluate`
  (automate.js 1508). -/
  | clickRecord (i : Nat)
  /-- The second click attempt through `page.$$` (automate.js 1525-1535). -/
  | clickDirect (i : Nat)
  /-- The call `page.click('#indexII')`. -/
  | clickIndexInput
  /-- The result table was read (automate.js 1702). -/
  | readTable
  /-- A call of `page.screenshot` wrote this file. -/
  | snapshot (path : String)
  /-- A call of `pdf` wrote this document. -/
  | writeDocument (path : String)
  deriving DecidableEq, Repr

/-- The `targetcreated` listener of `automateForm` (automate.js 86-147) for a new tab
whose page loads with address `url` at the instant `iso`, in a search for `village`. -/
def documentListener (village url iso : String) : List Action :=
  if jsIncludes url ".aspx" then [.writeDocument (autoPdfPath village iso)] else []

/-- Outcome of a `page.evaluate` that tests the page: the value of the test, or a
rejection of the call. -/
inductive Probe where
  | yes | no | throws
  deriving DecidableEq, Repr

/-- What one call of `backToResultsPage` observes. -/
structure BackEnv where
  /-- The test `isOnResultsPage` (automate.js 1479). -/
  onResults : Probe
  /-- The first `page.goBack()` resolves. -/
  firstBack : Bool
  /-- The test `backOnResults` (automate.js 1489). -/
  backOnResults : Probe
  deriving DecidableEq, Repr

/-- The helper `backToResultsPage` (automate.js 1476-1502).  It returns nothing; every
rejection inside it is caught and logged. -/
def backToResultsPage (e : BackEnv) : List Action :=
  match e.onResults with
  | .yes => []
  | .throws => []
  | .no =>
    if !e.firstBack then [.goBack]
    else
      match e.backOnResults with
      | .no => [.goBack, .goBack]
      | _ => [.goBack]

/-- Outcome of the click by index (automate.js 1508-1520): the value the page script
returns, or a rejection of the `page.evaluate` call. -/
inductive ClickOutcome where
  | clicked | missed | rejects
  deriving DecidableEq, Repr

/-- What one iteration of the IndexII loop observes. -/
structure RecordEnv where
  /-- The call of `backToResultsPage` before the click. -/
  before : BackEnv
  /-- The click by index. -/
  click : ClickOutcome
  /-- The call of `backToResultsPage` in the recovery. -/
  after : BackEnv
  deriving DecidableEq, Repr

/-- One iteration of the loop of `scrapePropertyData` (automate.js 1472-1668): the
actions, and `false` when the iteration is left by an exception.  The click by index is
awaited outside any `try`.  After the click, line 1545 reads `browser` (and line 1567
`village`), names that are bound inside `automateForm` only: in this module-level
function the read raises a `ReferenceError`, which the `catch` at 1660 answers with
`backToResultsPage`.  The statements between 1546 and 1657, which would write
`document-<i+1>-<stamp>.pdf`, are never reached. -/
def processRecord (i : Nat) (e : RecordEnv) : List Action × Bool :=
  let pre := backToResultsPage e.before ++ [.clickRecord i]
  match e.click with
  | .rejects => (pre, false)
  | .clicked => (pre ++ backToResultsPage e.after, true)
  | .missed => (pre ++ [.clickDirect i] ++ backToResultsPage e.after, true)

/-- The loop `for (let i = 0; i < indexButtons.length; i++)`, from index `i` with
`remaining` iterations to go. -/
def processRecords (records : Nat → RecordEnv) : Nat → Nat → List Action × Bool
  | 0, _ => ([], true)
  | remaining + 1, i =>
    let r := processRecord i (records i)
    if r.2 then
      let rest := processRecords records remaining (i + 1)
      (r.1 ++ rest.1, rest.2)
    else (r.1, false)

/-- The objects `{ index, rowText, found: true }` for the row texts, numbered from `i`. -/
def indexButtonsFrom : Nat → List String → List IndexButton
  | _, [] => []
  | i, rowText :: rest => ⟨i, rowText, true⟩ :: indexButtonsFrom (i + 1) rest

/-- What the results page shows to one call of `scrapePropertyData`. -/
structure ResultsPage where
  /-- The row texts of the IndexII buttons that the evaluation at automate.js 1438
  finds, `none` when the call rejects. -/
  buttons : Option (List String)
  /-- What the iteration for each index observes. -/
  records : Nat → RecordEnv
  /-- The test for `#indexII` (automate.js 1675). -/
  indexInput : Probe
  /-- The call `page.click('#indexII')` resolves. -/
  indexInputClick : Bool
  /-- The `success` field of `resultsData` (automate.js 1702-1739). -/
  table : Probe
  /-- The screenshot of the results (automate.js 1748, 1758) resolves. -/
  resultShot : Bool
  /-- The screenshot of the inner `catch` (automate.js 1771) resolves. -/
  errorShot : Bool
  /-- The screenshot of the outer `catch` (automate.js 1784) resolves. -/
  retryShot : Bool
  /-- Message of whatever exception is raised. -/
  errorText : String

/-- The two `catch` blocks of `scrapePropertyData` (automate.js 1766-1791) after the
actions `acts`: the error object, or `none` when both screenshots fail and the
exception leaves the function. -/
def scrapeCatch (rp : ResultsPage) (acts : List Action) : Option PropertyData × List Action :=
  if rp.errorShot || rp.retryShot then
    (some (.failed rp.errorText "property-data-error.png"),
      acts ++ [.snapshot "property-data-error.png"])
  else (none, acts)

/-- The branch taken when `indexButtons` is empty or not (automate.js 1465-1687). -/
def scrapeRecords (rp : ResultsPage) (rows : List String) : List Action × Bool :=
  if 0 < rows.length then processRecords rp.records rows.length 0
  else
    match rp.indexInput with
    | .throws => ([], false)
    | .no => ([], true)
    | .yes => ([.clickIndexInput], rp.indexInputClick)

/-- The function `scrapePropertyData` (automate.js 1418-1792): what it returns (`none`
when it throws) and the actions it takes. -/
def scrapePropertyData (rp : ResultsPage) : Option PropertyData × List Action :=
  match rp.buttons with
  | none => scrapeCatch rp [.readButtons]
  | some rows =>
    let loop := scrapeRecords rp rows
    let acts := Action.readButtons :: loop.1
    if !loop.2 then scrapeCatch rp acts
    else
      match rp.table with
      | .throws => scrapeCatch rp (acts ++ [.readTable])
      | .yes =>
        if rp.resultShot then
          (some (.scraped (indexButtonsFrom 0 rows) []
                  [⟨"search-results-table.png", "results_table"⟩]),
            acts ++ [.readTable, .snapshot "search-results-table.png"])
        else scrapeCatch rp (acts ++ [.readTable])
      | .no =>
        if rp.resultShot then
          (some (.scraped (indexButtonsFrom 0 rows) []
                  [⟨"search-results-error.png", "error"⟩]),
            acts ++ [.readTable, .snapshot "search-results-error.png"])
        else scrapeCatch rp (acts ++ [.readTable])

/-- The method `session.submitCaptcha` on a page whose results view is `rp`: the call
`scrapePropertyData(page)` at automate.js 225 returns what `scrapePropertyData rp`
does. -/
def submitCaptchaOn (pg : CaptchaPage) (rp : ResultsPage) : CaptchaReply × List Step :=
  submitCaptcha { pg with scraped := (scrapePropertyData rp).1 }

/-- The retry loop of `automateForm` (automate.js 950-1010) with `remaining` rounds to
go at `retryCount`; `found k` is what the evaluation finds when `retryCount` is `k`.
The value left in `indexButtons` and the actions. -/
def pollLoop (found : Nat → List String) : Nat → Nat → List String × List Action
  | 0, _ => ([], [])
  | remaining + 1, retryCount =>
    if 0 < (found retryCount).length then (found retryCount, [.readButtons])
    else
      let shot : List Action :=
        if retryCount + 1 = 3 - 1 then [.snapshot "before-final-indexii-check.png"] else []
      let rest := pollLoop found remaining (retryCount + 1)
      (rest.1, [Action.readButtons] ++ shot ++ rest.2)

/-- The loop `while (retryCount < maxRetries)` with `maxRetries = 3`, from
`retryCount = 0`. -/
def pollIndexButtons (found : Nat → List String) : List String × List Action :=
  pollLoop found 3 0

/-- The click index of an action, if it is a click by index. -/
def Action.clickIndex : Action → Option Nat
  | .clickRecord i => some i
  | _ => none

/-- A record environment in which the results view is shown with the given outcome of
the click. -/
def plainRecord (c : ClickOutcome) : RecordEnv :=
  { before := ⟨.yes, true, .yes⟩, click := c, after := ⟨.yes, true, .yes⟩ }

/-- A record environment in which the results view is never shown again. -/
def lostRecord : RecordEnv :=
  { before := ⟨.no, true, .no⟩, click := .clicked, after := ⟨.no, true, .no⟩ }

/-- A results page with the given rows on which every call resolves. -/
def sampleResults (rows : List String) (records : Nat → RecordEnv) : ResultsPage :=
  { buttons := some rows, records := records, indexInput := .no, indexInputClick := true,
    table := .yes, resultShot := true, errorShot := true, retryShot := true,
    errorText := "Execution context was destroyed" }

/-- A page after a submission without an error indicator. -/
def acceptedPage : CaptchaPage :=
  { inputPresent := true, searchButton := true, errorIndicator := none, scraped := none,
    errorText := "Target closed" }

/-! ## Acquisition of the challenge image -/

/-- Where the bytes written to `current-captcha.png` come from. -/
inductive ChallengeWrite where
  /-- The response of `Handler.ashx?txt=...`. -/
  | fetched
  /-- A clipped screenshot of `#imgCaptcha_new`. -/
  | screenshot
  deriving DecidableEq, Repr

/-- What one acquisition of the challenge image observes. -/
structure ChallengeEnv where
  /-- The call `page.$('#imgCaptcha_new')` resolves to the element (`false` when it
  resolves to null or rejects). -/
  element : Bool
  /-- The `src` of the image. -/
  src : String
  /-- The calls `boundingBox`, `page.screenshot` and `writeFileSync` of the screenshot
  approach resolve. -/
  screenshotOk : Bool
  /-- The calls `browser.newPage` and `setRequestInterception` resolve. -/
  tempPage : Bool
  /-- The call `tempPage.goto` resolves. -/
  gotoOk : Bool
  /-- A response of `Handler.ashx?txt=` arrived and its `buffer()` resolved, so that
  `imageBuffer` is set when `goto` returns. -/
  imageBuffer : Bool
  /-- The call `tempPage.close()` resolves. -/
  closeOk : Bool
  deriving DecidableEq, Repr

/-- The function `downloadCaptchaImage` (automate.js 1289-1319): its return value and
the writes to `current-captcha.png`. -/
def downloadCaptchaImage (c : ChallengeEnv) : Bool × List ChallengeWrite :=
  if !c.element then (false, [])
  else if c.screenshotOk then (true, [.screenshot])
  else (false, [])

/-- The module-level function `handleCaptcha(page, browser)` (automate.js 1322-1415):
its return value and the writes to `current-captcha.png`.  The write of fetched bytes
resolves. -/
def handleCaptcha (c : ChallengeEnv) : Bool × List ChallengeWrite :=
  if !c.element then (false, [])
  else if !jsIncludes c.src "txt=" then
    if c.screenshotOk then (true, [.screenshot]) else (false, [])
  else
    let fallback (written : List ChallengeWrite) : Bool × List ChallengeWrite :=
      if c.screenshotOk then (true, written ++ [.screenshot]) else (false, written)
    if !c.tempPage then fallback []
    else if !c.gotoOk then fallback []
    else
      let written : List ChallengeWrite := if c.imageBuffer then [.fetched] else []
      if c.closeOk then (true, written) else fallback written

/-- The `handleCaptcha` declared inside the `try` block of `automateForm`
(automate.js 805-926), to which the call `handleCaptcha(page, browser)` at line 796
binds: its return value and its writes to `current-captcha.png`.  The acquisition
(806-897) is the one of the module-level function; it is followed by the call of
`askForCaptchaInTerminal` (900), a name declared nowhere, whose `ReferenceError` is
caught at 922, so that every path returns `false`. -/
def handleCaptchaBlock (c : ChallengeEnv) : Bool × List ChallengeWrite :=
  if !c.element then (false, [])
  else if !jsIncludes c.src "txt=" then
    if c.screenshotOk then (false, [.screenshot]) else (false, [])
  else
    let fallback (written : List ChallengeWrite) : Bool × List ChallengeWrite :=
      if c.screenshotOk then (false, written ++ [.screenshot]) else (false, written)
    if !c.tempPage then fallback []
    else if !c.gotoOk then fallback []
    else
      let written : List ChallengeWrite := if c.imageBuffer then [.fetched] else []
      if c.closeOk then (false, written) else fallback written

/-- An image whose source carries the `txt=` parameter, fetched in a temporary page
that loads; `delivered` says whether the image bytes arrived. -/
def sampleChallenge (delivered : Bool) : ChallengeEnv :=
  { element := true,
    src := "https://freesearchigrservice.maharashtra.gov.in/Handler.ashx?txt=abc",
    screenshotOk := true, tempPage := true, gotoOk := true, imageBuffer := delivered,
    closeOk := true }

/-- The writes to `current-captcha.png` during one call of `session.submitCaptcha`:
those of the call `downloadCaptchaImage(page)` at automate.js 215, the only statement
of the method that touches the file. -/
def challengeWrites (pg : CaptchaPage) (c : ChallengeEnv) : List ChallengeWrite :=
  if Step.acquireChallenge ∈ (submitCaptcha pg).2 then (downloadCaptchaImage c).2 else []

/-- A request for the villages of taluka 1: district and taluka given, no village and
no property number. -/
def talukaOnly : FormData :=
  { year := "2025", district := "1", taluka := "1", village := "", propertyNo := "",
    captcha := "", keepBrowserOpen := true }

/-- A village dropdown that holds the placeholder only. -/
def emptyVillages : Select := ⟨[⟨"---Select Village----", "---Select Village----"⟩], some 0⟩

/-- A taluka dropdown that holds the placeholder only. -/
def emptyTalukas : Select := ⟨[⟨"---Select Tahsil----", "---Select Tahsil----"⟩], some 0⟩

/-- The run of `talukaOnly` on the sample portal with `emptyVillages` when it returns. -/
def sampleVillageListing : St :=
  { result :=
      { years := [⟨"2025", "2025"⟩, ⟨"2024", "2024"⟩],
        districts := [⟨"---Select District----", "---Select District----"⟩, ⟨"1", "Pune"⟩],
        talukas := [⟨"1", "Pune"⟩], villages := [], propertyData := none,
        success := true, message := "Retrieved available villages",
        captchaRequired := false, browserKeptOpen := true, session := false },
    tahsil := ⟨sampleTalukas.options, some 1⟩, village := emptyVillages,
    trace := [.launch, .openForm, .enumerate .year, .choose .year, .enumerate .district,
      .choose .district, .enumerate .taluka, .choose .taluka, .talukaOutcome true,
      .verifyTaluka true, .enumerate .village] }

/-! ## The session endpoints of the server -/

/-- The session state of server.js.  Browsers are numbered in the order in which
`automateForm` launches them, and a session is named by the number of its browser. -/
structure Server where
  /-- The variable `activeSession`; `none` is `null`. -/
  activeSession : Option Nat
  /-- How many browsers `automateForm` has launched so far. -/
  launched : Nat
  /-- The browsers that are open. -/
  live : List Nat
  /-- The browsers of the runs that returned a session; bookkeeping, not a variable of
  the server. -/
  sessions : List Nat
  deriving DecidableEq, Repr

/-- The server after start-up. -/
def Server.initial : Server :=
  { activeSession := none, launched := 0, live := [], sessions := [] }

/-- The JSON body of a response, as far as the session endpoints fill it. -/
structure Response where
  success : Bool
  captchaRequired : Bool
  message : String
  propertyData : Option PropertyData
  deriving DecidableEq, Repr

/-- What the handling of one request did. -/
structure Handled where
  /-- The session whose `cancel()` was called. -/
  cancelled : Option Nat
  /-- The browser that `automateForm` launched. -/
  launchedBrowser : Option Nat
  /-- The session whose `submitCaptcha` was called. -/
  dispatchedTo : Option Nat
  /-- The steps that call took on the session's page. -/
  drive : List Step
  /-- The response sent. -/
  response : Response
  deriving DecidableEq, Repr

/-- The server after a call of `automateForm` that returned the state `st`: the browser
it launched is open unless the run closed it. -/
def Server.afterRun (srv : Server) (st : St) : Server :=
  { srv with
    launched := srv.launched + 1
    live := if Step.closeBrowser ∈ st.trace then srv.live else srv.live ++ [srv.launched] }

/-- The block `if (activeSession && activeSession.cancel) await activeSession.cancel()`
(server.js 348-350); `cancel` closes the session's browser (automate.js 243-252). -/
def Server.cancelActive (srv : Server) : Server :=
  match srv.activeSession with
  | none => srv
  | some a => { srv with live := srv.live.filter (fun b => b != a) }

/-- The handler of `POST /search` (server.js 341-377). -/
def handleSearch (lower : String → String) (srv : Server) (formData : FormData) (p : Portal) :
    Server × Handled :=
  let srv₁ := srv.cancelActive
  match automateForm lower { formData with keepBrowserOpen := true } p with
  | none =>
    (srv₁, { cancelled := srv.activeSession, launchedBrowser := none, dispatchedTo := none,
             drive := [],
             response := ⟨false, false, "Error during search: " ++ p.errorText, none⟩ })
  | some st =>
    let srv₂ := srv₁.afterRun st
    if st.result.captchaRequired then
      ({ srv₂ with activeSession := some srv.launched
                   sessions := srv.sessions ++ [srv.launched] },
       { cancelled := srv.activeSession, launchedBrowser := some srv.launched,
         dispatchedTo := none, drive := [],
         response := ⟨false, true, "Please enter the CAPTCHA to continue", none⟩ })
    else
      (srv₂,
       { cancelled := srv.activeSession, launchedBrowser := some srv.launched,
         dispatchedTo := none, drive := [],
         response := ⟨st.result.success, false, st.result.message, st.result.propertyData⟩ })

/-- The handler of `POST /submit-captcha` (server.js 302-338) when the page of the
active session shows `pg`.  On a session whose browser is closed the first
`page.evaluate` of `submitCaptcha` rejects and its `catch` answers. -/
def handleSubmit (srv : Server) (captcha : String) (pg : CaptchaPage) : Server × Handled :=
  if captcha = "" ∨ jsTrim captcha = "" then
    (srv, { cancelled := none, launchedBrowser := none, dispatchedTo := none, drive := [],
            response := ⟨false, true, "Please enter the CAPTCHA value", none⟩ })
  else
    match srv.activeSession with
    | none =>
      (srv, { cancelled := none, launchedBrowser := none, dispatchedTo := none, drive := [],
              response :=
                ⟨false, false, "No active session found, please start a new search", none⟩ })
    | some a =>
      if a ∈ srv.live then
        (srv, { cancelled := none, launchedBrowser := none, dispatchedTo := some a,
                drive := (submitCaptcha pg).2,
                response := ⟨(submitCaptcha pg).1.success, (submitCaptcha pg).1.captchaRequired,
                  (submitCaptcha pg).1.message, (submitCaptcha pg).1.propertyData⟩ })
      else
        (srv, { cancelled := none, launchedBrowser := none, dispatchedTo := some a,
                drive := [],
                response :=
                  ⟨false, true, "Error processing CAPTCHA: " ++ pg.errorText, none⟩ })

/-- The handler of `POST /automate` (server.js 568-580): it cancels nothing and stores
nothing. -/
def handleAutomate (lower : String → String) (srv : Server) (formData : FormData)
    (p : Portal) : Server × Handled :=
  match automateForm lower formData p with
  | none =>
    (srv, { cancelled := none, launchedBrowser := none, dispatchedTo := none, drive := [],
            response := ⟨false, false, "Server error: " ++ p.errorText, none⟩ })
  | some st =>
    (srv.afterRun st,
     { cancelled := none, launchedBrowser := some srv.launched, dispatchedTo := none,
       drive := [],
       response := ⟨st.result.success, st.result.captchaRequired, st.result.message,
         st.result.propertyData⟩ })

/-- A request to one of the two session endpoints, with what the portal shows while it
is handled. -/
inductive Request where
  | search (formData : FormData) (p : Portal)
  | submitCaptcha (captcha : String) (pg : CaptchaPage)

/-- Handle one request. -/
def handle (lower : String → String) (srv : Server) : Request → Server × Handled
  | .search formData p => handleSearch lower srv formData p
  | .submitCaptcha captcha pg => handleSubmit srv captcha pg

/-- Handle a sequence of requests one after the other. -/
def serve (lower : String → String) (srv : Server) : List Request → Server × List Handled
  | [] => (srv, [])
  | r :: rest =>
    let h := handle lower srv r
    let t := serve lower h.1 rest
    (t.1, h.2 :: t.2)

/-- A page on which the CAPTCHA was accepted and the results were scraped. -/
def scrapedPage : CaptchaPage :=
  { acceptedPage with
    scraped := some (.scraped [] [] [⟨"search-results-table.png", "results_table"⟩]) }

/-- The bookkeeping of the server is sound, and an open browser of a run that returned a
session is the active session's. -/
def ServerInv (srv : Server) : Prop :=
  (∀ b ∈ srv.live, b < srv.launched) ∧ (∀ b ∈ srv.sessions, b < srv.launched) ∧
  (∀ a, srv.activeSession = some a → a < srv.launched) ∧
  (∀ b ∈ srv.live, b ∈ srv.sessions → srv.activeSession = some b)

/-! ## The dropdown cache of the server -/

/-- What the portal shows on the persistent page, by the value that the page's district
control holds (`""` on a page on which no district was selected). -/
structure Site where
  /-- The control `#ddltahsil`. -/
  tahsil : String → Dropdown
  /-- The control `#ddlvillage` after the taluka step. -/
  village : String → Select

/-- The variables `globalPage` and `formState` of server.js. -/
structure Cache where
  /-- The variable `globalPage`: `none` is `null`, `some d` a page whose district control
  holds `d`. -/
  page : Option String
  /-- The field `formState.district`. -/
  district : String
  /-- The field `formState.taluka`. -/
  taluka : String
  /-- The field `formState.talukas`. -/
  talukas : List DomOption
  /-- The field `formState.villages`. -/
  villages : List DomOption
  /-- The field `formState.initialized`. -/
  initialized : Bool
  deriving DecidableEq, Repr

/-- The cache after start-up (server.js 13-26). -/
def Cache.initial : Cache :=
  { page := none, district := "", taluka := "", talukas := [], villages := [],
    initialized := false }

/-- What a cache request did. -/
structure CacheHandled where
  /-- The answer came from `formState`. -/
  cached : Bool
  /-- The value held by the district control of the page on which `getVillages` ran. -/
  villagesReadOn : Option String
  /-- The handler fell back to `automateForm`. -/
  fellBack : Bool
  deriving DecidableEq, Repr

/-- The page that `initializeBrowser` returns (server.js 29-104): the existing one, or a
fresh page on which nothing is selected. -/
def Cache.shown (c : Cache) : String := c.page.getD ""

/-- The handler of `GET /talukas/:district` (server.js 441-491). -/
def handleTalukas (site : Site) (c : Cache) (district : String) : Cache × CacheHandled :=
  if c.district = district ∧ 0 < c.talukas.length then (c, ⟨true, none, false⟩)
  else
    match getTalukas (site.tahsil district) with
    | none => ({ c with page := some district }, ⟨false, none, true⟩)
    | some talukas =>
      ({ c with page := some district, district := district, talukas := talukas,
                villages := [] }, ⟨false, none, false⟩)

/-- The handler of `GET /villages/:district/:taluka` (server.js 494-565). -/
def handleVillages (site : Site) (c : Cache) (district taluka : String) :
    Cache × CacheHandled :=
  if c.district = district ∧ c.taluka = taluka ∧ 0 < c.villages.length then
    (c, ⟨true, none, false⟩)
  else if c.district ≠ district then
    match getTalukas (site.tahsil district) with
    | none => ({ c with page := some district }, ⟨false, none, true⟩)
    | some _ =>
      ({ c with page := some district, district := district, taluka := taluka,
                villages :=
                  (getVillages (site.tahsil district).select (site.village district) taluka).1 },
       ⟨false, some district, false⟩)
  else
    ({ c with page := some c.shown, taluka := taluka,
              villages :=
                (getVillages (site.tahsil c.shown).select (site.village c.shown) taluka).1 },
     ⟨false, some c.shown, false⟩)

/-- The handler of `POST /close-browser` (server.js 583-609) and the `disconnected`
listener (server.js 92-97): both clear `globalBrowser` and `globalPage` and reset
`formState.initialized`, nothing else. -/
def closePersistent (c : Cache) : Cache :=
  match c.page with
  | none => c
  | some _ => { c with page := none, initialized := false }

/-- A request that touches the cache. -/
inductive CacheRequest where
  | talukas (district : String)
  | villages (district taluka : String)
  | closeBrowser
  | disconnected
  deriving DecidableEq, Repr

/-- Handle one cache request. -/
def handleCache (site : Site) (c : Cache) : CacheRequest → Cache × CacheHandled
  | .talukas district => handleTalukas site c district
  | .villages district taluka => handleVillages site c district taluka
  | .closeBrowser => (closePersistent c, ⟨false, none, false⟩)
  | .disconnected => (closePersistent c, ⟨false, none, false⟩)

/-- Handle a sequence of cache requests one after the other. -/
def serveCache (site : Site) (c : Cache) : List CacheRequest → Cache × List CacheHandled
  | [] => (c, [])
  | r :: rest =>
    let h := handleCache site c r
    let t := serveCache site h.1 rest
    (t.1, h.2 :: t.2)

/-- A portal that shows taluka 1 and village 5 once district 1 is selected, and empty
dropdowns on a page without a district. -/
def sampleSite : Site :=
  { tahsil := fun d => if d = "1" then ⟨sampleTalukas, true, false⟩ else ⟨emptyTalukas, true, false⟩
    village := fun d => if d = "1" then sampleVillages else emptyVillages }

/-- The stored session is one of the sessions that a run returned. -/
def ActiveIsSession (srv : Server) : Prop :=
  ∀ a, srv.activeSession = some a → a ∈ srv.sessions

/-- The results page with other findings of `backToResultsPage`: iteration `i` sees
`before i` in the call before its click and `after i` in the call of its recovery. -/
def ResultsPage.withBack (rp : ResultsPage) (before after : Nat → BackEnv) : ResultsPage :=
  { rp with
    records := fun i => { rp.records i with before := before i, after := after i } }

/-! ## Lemmas on the array and control primitives -/

theorem findIndex_eq_none_iff {p : DomOption → Bool} {l : List DomOption} :
    findIndex p l = none ↔ ∀ o ∈ l, p o = false := by
  induction l with
  | nil => simp [findIndex]
  | cons a l ih =>
    by_cases h : p a = true
    · simp [findIndex, h]
    · simp only [Bool.not_eq_true] at h
      simp [findIndex, h, ih]

theorem findIndex_eq_some_iff {p : DomOption → Bool} {l : List DomOption} {i : Nat} :
    findIndex p l = some i ↔
      ∃ o, l[i]? = some o ∧ p o = true ∧
        ∀ j o', j < i → l[j]? = some o' → p o' = false := by
  induction l generalizing i with
  | nil => simp [findIndex]
  | cons a l ih =>
    by_cases h : p a = true
    · simp only [findIndex, h, if_true, Option.some.injEq]
      constructor
      · intro hi
        subst hi
        exact ⟨a, by simp, h, fun j o' hj => absurd hj (Nat.not_lt_zero j)⟩
      · rintro ⟨o, _, _, hmin⟩
        cases i with
        | zero => rfl
        | succ k =>
          have := hmin 0 a (Nat.succ_pos k) (by simp)
          simp [h] at this
    · simp only [Bool.not_eq_true] at h
      simp only [findIndex, h, Bool.false_eq_true, if_false, Option.map_eq_some']
      constructor
      · rintro ⟨k, hk, rfl⟩
        obtain ⟨o, ho, hp, hmin⟩ := ih.mp hk
        refine ⟨o, by simpa using ho, hp, ?_⟩
        intro j o' hj hjo
        cases j with
        | zero =>
          simp at hjo
          subst hjo
          exact h
        | succ m => exact hmin m o' (Nat.lt_of_succ_lt_succ hj) (by simpa using hjo)
      · rintro ⟨o, ho, hp, hmin⟩
        cases i with
        | zero =>
          simp at ho
          subst ho
          simp [h] at hp
        | succ k =>
          refine ⟨k, ih.mpr ⟨o, by simpa using ho, hp, ?_⟩, rfl⟩
          intro j o' hj hjo
          exact hmin (j + 1) o' (Nat.succ_lt_succ hj) (by simpa using hjo)

theorem findIndex_isSome_of_mem {p : DomOption → Bool} {l : List DomOption} {o : DomOption}
    (hmem : o ∈ l) (hp : p o = true) : ∃ i, findIndex p l = some i := by
  cases hfi : findIndex p l with
  | some i => exact ⟨i, rfl⟩
  | none =>
    have := findIndex_eq_none_iff.mp hfi o hmem
    simp [hp] at this

theorem mem_of_getElem?_eq_some {l : List DomOption} {i : Nat} {o : DomOption}
    (h : l[i]? = some o) : o ∈ l := by
  obtain ⟨hi, rfl⟩ := List.getElem?_eq_some.mp h
  exact List.getElem_mem hi

@[simp] theorem setValue_options (s : Select) (v : String) :
    (s.setValue v).options = s.options := rfl

theorem isFirst_of_findIndex {p : DomOption → Bool} {l : List DomOption} {i : Nat}
    (h : findIndex p l = some i) : ∃ o, IsFirst p l i o :=
  findIndex_eq_some_iff.mp h

theorem findIndex_of_isFirst {p : DomOption → Bool} {l : List DomOption} {i : Nat}
    {o : DomOption} (h : IsFirst p l i o) : findIndex p l = some i :=
  findIndex_eq_some_iff.mpr ⟨o, h⟩

theorem IsFirst.mem {p : DomOption → Bool} {l : List DomOption} {i : Nat} {o : DomOption}
    (h : IsFirst p l i o) : o ∈ l := mem_of_getElem?_eq_some h.1

theorem setValue_selected {s : Select} {v : String} {i : Nat} {o : DomOption}
    (h : IsFirst (exactPred v) s.options i o) :
    (s.setValue v).selectedIndex = some i ∧ (s.setValue v).selectedOption = some o ∧
      (s.setValue v).value = v := by
  have hi : (s.setValue v).selectedIndex = some i := findIndex_of_isFirst h
  have ho : (s.setValue v).selectedOption = some o := by
    simp only [Select.selectedOption, hi]
    exact h.1
  refine ⟨hi, ho, ?_⟩
  simp only [Select.value, ho]
  simpa [exactPred] using h.2.1

theorem setValue_none {s : Select} {v : String} (h : ∀ o ∈ s.options, o.value ≠ v) :
    (s.setValue v).selectedIndex = none ∧ (s.setValue v).selectedOption = none ∧
      (s.setValue v).value = "" := by
  have hi : (s.setValue v).selectedIndex = none :=
    findIndex_eq_none_iff.mpr (fun o ho => by simpa using h o ho)
  have ho : (s.setValue v).selectedOption = none := by
    simp only [Select.selectedOption, hi]
  exact ⟨hi, ho, by simp only [Select.value, ho]⟩

theorem exists_isFirst_of_mem {p : DomOption → Bool} {l : List DomOption} {o : DomOption}
    (hmem : o ∈ l) (hp : p o = true) : ∃ i o', IsFirst p l i o' := by
  obtain ⟨i, hi⟩ := findIndex_isSome_of_mem hmem hp
  obtain ⟨o', ho'⟩ := isFirst_of_findIndex hi
  exact ⟨i, o', ho'⟩

/-- A branch that found option `i` assigns its raw value; the control then shows the
first option carrying that raw value. -/
theorem villagePick_eq {s : Select} {i : Nat} {o : DomOption} (m : Method)
    (ho : s.options[i]? = some o) :
    ∃ k o₁, IsFirst (exactPred o.value) s.options k o₁ ∧ k ≤ i ∧
      villagePick s i m = (s.setValue o.value, some (.selected m o.value o₁.text)) ∧
      (s.setValue o.value).selectedIndex = some k := by
  obtain ⟨k, o₁, hk⟩ :=
    exists_isFirst_of_mem (p := exactPred o.value) (mem_of_getElem?_eq_some ho)
      (by simp [exactPred])
  obtain ⟨hidx, hsel, hval⟩ := setValue_selected hk
  refine ⟨k, o₁, hk, ?_, ?_, hidx⟩
  · by_contra hlt
    have := hk.2.2 i o (Nat.lt_of_not_le hlt) ho
    simp [exactPred] at this
  · simp [villagePick, ho, villageReport, hsel, hval]

/-! ## The branches of the village selection -/

theorem villageSelected_direct (lower : String → String) {s : Select} {c : String} {i : Nat}
    {o : DomOption} (h : IsFirst (exactPred c) s.options i o) :
    villageSelected lower s c = (s.setValue c, some (.selected .direct c o.text)) := by
  obtain ⟨_, hsel, hval⟩ := setValue_selected h
  simp [villageSelected, hval, villageReport, hsel]

/-- With no option carrying the candidate as its raw value, the direct assignment
leaves nothing selected and the later branches decide. -/
theorem villageSelected_rest (lower : String → String) {s : Select} {c : String}
    (hc : c ≠ "") (h : ∀ o ∈ s.options, exactPred c o = false) :
    villageSelected lower s c =
      match findIndex (valuePred c) s.options with
      | some i => villagePick (s.setValue c) i .value
      | none =>
        match findIndex (textPred c) s.options with
        | some i => villagePick (s.setValue c) i .text
        | none =>
          match findIndex (partialPred lower c) s.options with
          | some i => villagePick (s.setValue c) i .partialMatch
          | none =>
            match findIndex nonPlaceholder s.options with
            | some i => villagePick (s.setValue c) i .fallback
            | none => (s.setValue c, some (.notFound (villageOptions s.options))) := by
  have hne : ∀ o ∈ s.options, o.value ≠ c := fun o ho => by
    simpa [exactPred] using h o ho
  obtain ⟨_, _, hval⟩ := setValue_none hne
  have hc' : ("" == c) = false := by
    simpa using fun hh : "" = c => hc hh.symm
  simp only [villageSelected, hval, hc', Bool.false_eq_true, if_false, setValue_options]

/-- A later branch that stops at option `i` reports that option's raw value and the
label of the first option carrying that raw value. -/
theorem villagePick_setValue {s : Select} {c : String} {i : Nat} {o : DomOption} (m : Method)
    (ho : s.options[i]? = some o) :
    ∃ k o₁, IsFirst (exactPred o.value) s.options k o₁ ∧ k ≤ i ∧
      villagePick (s.setValue c) i m =
        (s.setValue o.value, some (.selected m o.value o₁.text)) ∧
      (s.setValue o.value).selectedIndex = some k := by
  obtain ⟨k, o₁, hk, hle, hpick, hidx⟩ :=
    villagePick_eq (s := s.setValue c) m (i := i) (o := o) (by simpa using ho)
  exact ⟨k, o₁, by simpa using hk, hle, by simpa [Select.setValue] using hpick,
    by simpa [Select.setValue] using hidx⟩

/-- When equal raw values imply `p`, the first option satisfying `p` is also the first
option carrying its own raw value. -/
theorem isFirst_exact_of_isFirst {p : DomOption → Bool} {l : List DomOption} {i : Nat}
    {o : DomOption} (h : IsFirst p l i o)
    (hp : ∀ o', o'.value = o.value → p o' = true) : IsFirst (exactPred o.value) l i o := by
  refine ⟨h.1, by simp [exactPred], ?_⟩
  intro j o' hj hjo
  have hfalse := h.2.2 j o' hj hjo
  by_contra hcon
  have hv : o'.value = o.value := by simpa [exactPred] using hcon
  rw [hp o' hv] at hfalse
  exact Bool.noConfusion hfalse

theorem isFirst_unique {p : DomOption → Bool} {l : List DomOption} {i k : Nat}
    {o o₁ : DomOption} (h : IsFirst p l i o) (h₁ : IsFirst p l k o₁) : k = i ∧ o₁ = o := by
  have hi := findIndex_of_isFirst h
  have hk := findIndex_of_isFirst h₁
  have hik : k = i := by
    rw [hi] at hk
    exact (Option.some.inj hk).symm
  subst hik
  have := h.1.symm.trans h₁.1
  exact ⟨rfl, (Option.some.inj this).symm⟩

/-! ## The taluka matcher -/

theorem talukaMatcher_of_target {s : Select} {c : String} {i : Nat} {o : DomOption}
    (ht : talukaTarget s.options c = some i) (ho : s.options[i]? = some o) :
    talukaMatcher s c =
      (((s.setSelectedIndex 0).setSelectedIndex i).setValue o.value, .found o.value o.text i) := by
  simp [talukaMatcher, ht, ho]

theorem talukaMatcher_of_none {s : Select} {c : String}
    (ht : talukaTarget s.options c = none) : talukaMatcher s c = (s, .notFound) := by
  simp [talukaMatcher, ht]

theorem talukaTarget_eq_none_iff {l : List DomOption} {c : String} :
    talukaTarget l c = none ↔
      ∀ o ∈ l, exactPred c o = false ∧ spacePred c o = false ∧ trimPred c o = false := by
  unfold talukaTarget
  cases h₁ : findIndex (exactPred c) l with
  | some i =>
    obtain ⟨o, ho⟩ := isFirst_of_findIndex h₁
    refine ⟨fun h => Option.noConfusion h, fun hall => ?_⟩
    have := (hall o ho.mem).1
    rw [ho.2.1] at this
    exact Bool.noConfusion this
  | none =>
    cases h₂ : findIndex (spacePred c) l with
    | some i =>
      obtain ⟨o, ho⟩ := isFirst_of_findIndex h₂
      refine ⟨fun h => Option.noConfusion h, fun hall => ?_⟩
      have := (hall o ho.mem).2.1
      rw [ho.2.1] at this
      exact Bool.noConfusion this
    | none =>
      simp only [findIndex_eq_none_iff] at h₁ h₂ ⊢
      exact ⟨fun h o ho => ⟨h₁ o ho, h₂ o ho, h o ho⟩, fun h o ho => (h o ho).2.2⟩

/-- The control after a successful taluka match shows the raw value of the target. -/
theorem talukaMatcher_control_value {s : Select} {c : String} {i : Nat} {o : DomOption}
    (ht : talukaTarget s.options c = some i) (ho : s.options[i]? = some o) :
    (talukaMatcher s c).1.value = o.value := by
  rw [talukaMatcher_of_target ht ho]
  obtain ⟨k, o₁, hk⟩ :=
    exists_isFirst_of_mem (p := exactPred o.value) (mem_of_getElem?_eq_some ho)
      (by simp [exactPred])
  have hk' : IsFirst (exactPred o.value)
      ((s.setSelectedIndex 0).setSelectedIndex i).options k o₁ := hk
  exact (setValue_selected hk').2.2

/-! ## Claims on the selection strategies -/

/-- C1. When some option's raw value equals the candidate verbatim, the village
selection reports the exact-match method `direct` with the candidate as value and the
label of the first such option, and the taluka matcher returns that same first option
(its raw value is the candidate); both leave the control on it. -/
theorem exact_candidate_uses_exact_strategy (lower : String → String) (s : Select)
    (c : String) (hex : ∃ o ∈ s.options, o.value = c) :
    ∃ i o, IsFirst (exactPred c) s.options i o ∧
      (villageSelected lower s c).2 = some (.selected .direct c o.text) ∧
      (villageSelected lower s c).1.selectedIndex = some i ∧
      (talukaMatcher s c).2 = .found c o.text i ∧
      (talukaMatcher s c).1.selectedIndex = some i := by
  obtain ⟨o₀, hmem, hval⟩ := hex
  obtain ⟨i, o, hfirst⟩ :=
    exists_isFirst_of_mem (p := exactPred c) hmem (by simp [exactPred, hval])
  have hov : o.value = c := by simpa [exactPred] using hfirst.2.1
  have ht : talukaTarget s.options c = some i := by
    simp [talukaTarget, findIndex_of_isFirst hfirst]
  have hfirst' : IsFirst (exactPred o.value)
      ((s.setSelectedIndex 0).setSelectedIndex i).options i o := by
    rw [hov]
    exact hfirst
  refine ⟨i, o, hfirst, ?_, ?_, ?_, ?_⟩
  · rw [villageSelected_direct lower hfirst]
  · rw [villageSelected_direct lower hfirst]
    exact (setValue_selected hfirst).1
  · rw [talukaMatcher_of_target ht hfirst.1, hov]
  · rw [talukaMatcher_of_target ht hfirst.1]
    exact (setValue_selected hfirst').1

theorem exact_candidate_uses_exact_strategy_witness :
    (∃ o ∈ [DomOption.mk "---Select Village----" "Select", ⟨"12 ", "Haveli"⟩,
        ⟨"12", "Mulshi"⟩], o.value = "12") ∧
    ∃ i o, IsFirst (exactPred "12")
        (Select.mk [⟨"---Select Village----", "Select"⟩, ⟨"12 ", "Haveli"⟩,
          ⟨"12", "Mulshi"⟩] (some 0)).options i o ∧
      (villageSelected asciiLower (Select.mk [⟨"---Select Village----", "Select"⟩,
          ⟨"12 ", "Haveli"⟩, ⟨"12", "Mulshi"⟩] (some 0)) "12").2 =
        some (.selected .direct "12" o.text) ∧
      (villageSelected asciiLower (Select.mk [⟨"---Select Village----", "Select"⟩,
          ⟨"12 ", "Haveli"⟩, ⟨"12", "Mulshi"⟩] (some 0)) "12").1.selectedIndex = some i ∧
      (talukaMatcher (Select.mk [⟨"---Select Village----", "Select"⟩, ⟨"12 ", "Haveli"⟩,
          ⟨"12", "Mulshi"⟩] (some 0)) "12").2 = .found "12" o.text i ∧
      (talukaMatcher (Select.mk [⟨"---Select Village----", "Select"⟩, ⟨"12 ", "Haveli"⟩,
          ⟨"12", "Mulshi"⟩] (some 0)) "12").1.selectedIndex = some i :=
  ⟨by decide, exact_candidate_uses_exact_strategy asciiLower _ "12" (by decide)⟩

/-- C2. A non-empty candidate that matches no option (not by raw value, not by trimmed
value, not by case-insensitive label, not by case-insensitive substring in either
direction), on a list with a non-placeholder option: the village selection succeeds
with method `fallback` on the first option whose value is not the placeholder. -/
theorem unmatched_candidate_falls_back (lower : String → String) (s : Select) (c : String)
    (hc : c ≠ "")
    (hnon : ∃ o ∈ s.options, o.value ≠ villagePlaceholder)
    (hexact : ∀ o ∈ s.options, o.value ≠ c)
    (htrim : ∀ o ∈ s.options, jsTrim o.value ≠ jsTrim c)
    (hlabel : ∀ o ∈ s.options, lower (jsTrim o.text) ≠ lower (jsTrim c))
    (hsub : ∀ o ∈ s.options,
      jsIncludes (lower (jsTrim o.text)) (lower (jsTrim c)) = false ∧
      jsIncludes (lower (jsTrim c)) (lower (jsTrim o.text)) = false) :
    ∃ i o, IsFirst nonPlaceholder s.options i o ∧
      (villageSelected lower s c).2 = some (.selected .fallback o.value o.text) ∧
      (villageSelected lower s c).1.selectedIndex = some i := by
  obtain ⟨o₀, hmem, hval⟩ := hnon
  obtain ⟨i, o, hfirst⟩ :=
    exists_isFirst_of_mem (p := nonPlaceholder) hmem (by simp [nonPlaceholder, hval])
  have h1 : ∀ o ∈ s.options, exactPred c o = false := fun o ho => by
    simpa [exactPred] using hexact o ho
  have h2 : findIndex (valuePred c) s.options = none :=
    findIndex_eq_none_iff.mpr fun o ho => by simpa [valuePred] using htrim o ho
  have h3 : findIndex (textPred c) s.options = none :=
    findIndex_eq_none_iff.mpr fun o ho => by
      have hne : jsTrim o.text ≠ jsTrim c := fun heq => hlabel o ho (by rw [heq])
      simpa [textPred] using hne
  have h4 : findIndex (partialPred lower c) s.options = none :=
    findIndex_eq_none_iff.mpr fun o ho => by
      simp [partialPred, (hsub o ho).1, (hsub o ho).2]
  have hexf : IsFirst (exactPred o.value) s.options i o :=
    isFirst_exact_of_isFirst hfirst fun o' hv => by
      have := hfirst.2.1
      simp only [nonPlaceholder] at this ⊢
      rw [hv]
      exact this
  obtain ⟨k, o₁, hk, _, hpick, hidx⟩ :=
    villagePick_setValue (s := s) (c := c) .fallback hfirst.1
  obtain ⟨hki, hoo⟩ := isFirst_unique hexf hk
  subst hki
  subst hoo
  refine ⟨k, o₁, hfirst, ?_, ?_⟩
  · rw [villageSelected_rest lower hc h1]
    simp only [h2, h3, h4, findIndex_of_isFirst hfirst, hpick]
  · rw [villageSelected_rest lower hc h1]
    simp only [h2, h3, h4, findIndex_of_isFirst hfirst, hpick, hidx]

/-! ## Case analysis of the village selection -/

/-- The village selection either stops at the first branch, in source order, whose test
some option passes, and assigns the raw value of the first such option, or no test
passes for any option and it reports not found. -/
theorem villageSelected_cases (lower : String → String) (s : Select) (c : String)
    (hc : c ≠ "") :
    (∃ m i o k o₁, IsFirst (Method.pred lower c m) s.options i o ∧
        (∀ m' : Method, m'.rank < m.rank →
          ∀ o' ∈ s.options, Method.pred lower c m' o' = false) ∧
        IsFirst (exactPred o.value) s.options k o₁ ∧ k ≤ i ∧
        villageSelected lower s c =
          (s.setValue o.value, some (.selected m o.value o₁.text)) ∧
        (s.setValue o.value).selectedIndex = some k) ∨
    ((∀ m : Method, ∀ o ∈ s.options, Method.pred lower c m o = false) ∧
        villageSelected lower s c =
          (s.setValue c, some (.notFound (villageOptions s.options)))) := by
  cases h1 : findIndex (exactPred c) s.options with
  | some i =>
    obtain ⟨o, ho⟩ := isFirst_of_findIndex h1
    have hov : o.value = c := by simpa [exactPred] using ho.2.1
    refine Or.inl ⟨.direct, i, o, i, o, ho, ?_, by rw [hov]; exact ho, Nat.le_refl i, ?_, ?_⟩
    · intro m' hm'
      cases m' <;> simp [Method.rank] at hm'
    · rw [villageSelected_direct lower ho, hov]
    · rw [hov]
      exact (setValue_selected ho).1
  | none =>
    have h1' := findIndex_eq_none_iff.mp h1
    rw [villageSelected_rest lower hc h1']
    cases h2 : findIndex (valuePred c) s.options with
    | some i =>
      obtain ⟨o, ho⟩ := isFirst_of_findIndex h2
      obtain ⟨k, o₁, hk, hle, hpick, hidx⟩ :=
        villagePick_setValue (s := s) (c := c) .value ho.1
      refine Or.inl ⟨.value, i, o, k, o₁, ho, ?_, hk, hle, hpick, hidx⟩
      intro m' hm'
      cases m' <;> first | exact h1' | simp [Method.rank] at hm'
    | none =>
      have h2' := findIndex_eq_none_iff.mp h2
      cases h3 : findIndex (textPred c) s.options with
      | some i =>
        obtain ⟨o, ho⟩ := isFirst_of_findIndex h3
        obtain ⟨k, o₁, hk, hle, hpick, hidx⟩ :=
          villagePick_setValue (s := s) (c := c) .text ho.1
        refine Or.inl ⟨.text, i, o, k, o₁, ho, ?_, hk, hle, hpick, hidx⟩
        intro m' hm'
        cases m' <;> first | exact h1' | exact h2' | simp [Method.rank] at hm'
      | none =>
        have h3' := findIndex_eq_none_iff.mp h3
        cases h4 : findIndex (partialPred lower c) s.options with
        | some i =>
          obtain ⟨o, ho⟩ := isFirst_of_findIndex h4
          obtain ⟨k, o₁, hk, hle, hpick, hidx⟩ :=
            villagePick_setValue (s := s) (c := c) .partialMatch ho.1
          refine Or.inl ⟨.partialMatch, i, o, k, o₁, ho, ?_, hk, hle, hpick, hidx⟩
          intro m' hm'
          cases m' <;> first | exact h1' | exact h2' | exact h3' | simp [Method.rank] at hm'
        | none =>
          have h4' := findIndex_eq_none_iff.mp h4
          cases h5 : findIndex nonPlaceholder s.options with
          | some i =>
            obtain ⟨o, ho⟩ := isFirst_of_findIndex h5
            obtain ⟨k, o₁, hk, hle, hpick, hidx⟩ :=
              villagePick_setValue (s := s) (c := c) .fallback ho.1
            refine Or.inl ⟨.fallback, i, o, k, o₁, ho, ?_, hk, hle, hpick, hidx⟩
            intro m' hm'
            cases m' <;>
              first | exact h1' | exact h2' | exact h3' | exact h4' | simp [Method.rank] at hm'
          | none =>
            have h5' := findIndex_eq_none_iff.mp h5
            refine Or.inr ⟨?_, rfl⟩
            intro m
            cases m <;> first | exact h1' | exact h2' | exact h3' | exact h4' | exact h5'

/-! ## Trimming -/

theorem trimStart_trimEnd_of_fixed {m : List Char} (h : trimStart m = m) :
    trimStart (trimEnd m) = trimEnd m := by
  cases m with
  | nil => simp [trimEnd, trimStart]
  | cons a t =>
    have ha : isJsSpace a = false := by
      by_contra hcon
      simp only [Bool.not_eq_false] at hcon
      have hlen : (trimStart (a :: t)).length ≤ t.length := by
        simp only [trimStart, List.dropWhile_cons, hcon, if_true]
        exact (List.dropWhile_sublist _).length_le
      rw [h] at hlen
      simp at hlen
    obtain ⟨r, hr⟩ : trimEnd (a :: t) <+: a :: t := List.rdropWhile_prefix _ _
    cases hp : trimEnd (a :: t) with
    | nil => simp [trimStart]
    | cons b u =>
      rw [hp] at hr
      have hb : b = a := by
        simp only [List.cons_append, List.cons.injEq] at hr
        exact hr.1
      subst hb
      simp [trimStart, ha]

theorem jsTrim_idem (s : String) : jsTrim (jsTrim s) = jsTrim s := by
  have h1 : trimStart (trimStart s.data) = trimStart s.data := List.dropWhile_idempotent _ _
  have h2 := trimStart_trimEnd_of_fixed h1
  have h3 : trimEnd (trimEnd (trimStart s.data)) = trimEnd (trimStart s.data) :=
    List.rdropWhile_idempotent _ _
  simp only [jsTrim, h2, h3]

/-- The taluka matcher either stops at the first of its three lookups that some option
passes, on the first such option, or no option passes any of them. -/
theorem talukaTarget_cases (l : List DomOption) (c : String) :
    (∃ st i o, talukaTarget l c = some i ∧ IsFirst (TalukaStrategy.pred c st) l i o ∧
        ∀ st' : TalukaStrategy, st'.rank < st.rank →
          ∀ o' ∈ l, TalukaStrategy.pred c st' o' = false) ∨
    (talukaTarget l c = none ∧
        ∀ st : TalukaStrategy, ∀ o ∈ l, TalukaStrategy.pred c st o = false) := by
  cases h1 : findIndex (exactPred c) l with
  | some i =>
    obtain ⟨o, ho⟩ := isFirst_of_findIndex h1
    refine Or.inl ⟨.exact, i, o, by simp [talukaTarget, h1], ho, ?_⟩
    intro st' hst'
    cases st' <;> simp [TalukaStrategy.rank] at hst'
  | none =>
    have h1' := findIndex_eq_none_iff.mp h1
    cases h2 : findIndex (spacePred c) l with
    | some i =>
      obtain ⟨o, ho⟩ := isFirst_of_findIndex h2
      refine Or.inl ⟨.spacePadded, i, o, by simp [talukaTarget, h1, h2], ho, ?_⟩
      intro st' hst'
      cases st' <;> first | exact h1' | simp [TalukaStrategy.rank] at hst'
    | none =>
      have h2' := findIndex_eq_none_iff.mp h2
      cases h3 : findIndex (trimPred c) l with
      | some i =>
        obtain ⟨o, ho⟩ := isFirst_of_findIndex h3
        refine Or.inl ⟨.trimmed, i, o, by simp [talukaTarget, h1, h2, h3], ho, ?_⟩
        intro st' hst'
        cases st' <;> first | exact h1' | exact h2' | simp [TalukaStrategy.rank] at hst'
      | none =>
        have h3' := findIndex_eq_none_iff.mp h3
        refine Or.inr ⟨by simp [talukaTarget, h1, h2, h3], ?_⟩
        intro st
        cases st <;> first | exact h1' | exact h2' | exact h3'

/-! ## Claims on the strategy order, the not-found result and the raw value -/

theorem unmatched_candidate_falls_back_witness :
    ("zzz" ≠ "") ∧
    (∃ o ∈ sampleVillages.options, o.value ≠ villagePlaceholder) ∧
    ∃ i o, IsFirst nonPlaceholder sampleVillages.options i o ∧
      (villageSelected asciiLower sampleVillages "zzz").2 =
        some (.selected .fallback o.value o.text) ∧
      (villageSelected asciiLower sampleVillages "zzz").1.selectedIndex = some i :=
  ⟨by decide, by decide,
    unmatched_candidate_falls_back asciiLower sampleVillages "zzz" (by decide) (by decide)
      (by decide) (by decide) (by decide) (by decide)⟩

/-- C3, as stated, fails.  On a list whose raw values are `" A"` and `"A "` the ordered
strategy list of the specification selects the second option for the candidate `"A"`
(space-padded match), while the village selection takes the first one by its
trimmed-value branch; and for a candidate equal to a label up to case the specification
selects by label, while the taluka matcher reports not found. -/
theorem strategy_order_counterexample :
    specResolve asciiLower villagePlaceholder "A" sampleColliding.options =
        some (.spacePadded, 1) ∧
      villageSelected asciiLower sampleColliding "A" =
        (⟨sampleColliding.options, some 0⟩, some (.selected .value " A" "x")) ∧
      specResolve asciiLower tahsilPlaceholder "pune" sampleTalukas.options =
        some (.labelIgnoringCase, 1) ∧
      (talukaMatcher sampleTalukas "pune").2 = .notFound := by
  decide

/-- C3, amended.  For a non-empty candidate the village selection tries, in this order,
raw value equality (`direct`), equality of trimmed values (`value`), equality of the
trimmed label (`text`), case-insensitive label substring in either direction
(`partial`) and the first non-placeholder option (`fallback`): the reported method is
the first of these that some option passes, the value assigned is the raw value of the
first option passing it, and a method is reported as soon as any test passes.  The
taluka matcher tries raw value equality, raw value equal to the candidate plus one
space, and trimmed option value equal to the candidate, and returns the first option
passing the first lookup that succeeds.  Distinct methods have distinct names. -/
theorem selection_strategy_order (lower : String → String) (s : Select) (c : String)
    (hc : c ≠ "") :
    (∀ m v t, (villageSelected lower s c).2 = some (.selected m v t) →
      (∃ i o, IsFirst (Method.pred lower c m) s.options i o ∧ v = o.value) ∧
      ∀ m' : Method, m'.rank < m.rank →
        ∀ o' ∈ s.options, Method.pred lower c m' o' = false) ∧
    ((∃ m : Method, ∃ o ∈ s.options, Method.pred lower c m o = true) →
      ∃ m v t, (villageSelected lower s c).2 = some (.selected m v t)) ∧
    (∀ v t i, (talukaMatcher s c).2 = .found v t i →
      ∃ st o, IsFirst (TalukaStrategy.pred c st) s.options i o ∧ v = o.value ∧
        t = o.text ∧
        ∀ st' : TalukaStrategy, st'.rank < st.rank →
          ∀ o' ∈ s.options, TalukaStrategy.pred c st' o' = false) ∧
    ((∃ st : TalukaStrategy, ∃ o ∈ s.options, TalukaStrategy.pred c st o = true) →
      ∃ v t i, (talukaMatcher s c).2 = .found v t i) ∧
    Function.Injective Method.name := by
  refine ⟨?_, ?_, ?_, ?_, ?_⟩
  · intro m v t hres
    rcases villageSelected_cases lower s c hc with
      ⟨m₀, i, o, k, o₁, hfirst, hrank, _, _, heq, _⟩ | ⟨_, heq⟩
    · rw [heq] at hres
      simp only [Option.some.injEq, VillageResult.selected.injEq] at hres
      obtain ⟨hm, hv, _⟩ := hres
      subst hm
      exact ⟨⟨i, o, hfirst, hv.symm⟩, hrank⟩
    · rw [heq] at hres
      simp at hres
  · rintro ⟨m, o, ho, hp⟩
    rcases villageSelected_cases lower s c hc with
      ⟨m₀, i, o₀, k, o₁, _, _, _, _, heq, _⟩ | ⟨hnone, _⟩
    · exact ⟨m₀, o₀.value, o₁.text, by rw [heq]⟩
    · rw [hnone m o ho] at hp
      exact Bool.noConfusion hp
  · intro v t i hres
    rcases talukaTarget_cases s.options c with ⟨st, j, o, ht, hfirst, hrank⟩ | ⟨ht, _⟩
    · rw [talukaMatcher_of_target ht hfirst.1] at hres
      simp only [TalukaResult.found.injEq] at hres
      obtain ⟨hv, htx, hj⟩ := hres
      subst hj
      exact ⟨st, o, hfirst, hv.symm, htx.symm, hrank⟩
    · rw [talukaMatcher_of_none ht] at hres
      exact TalukaResult.noConfusion hres
  · rintro ⟨st, o, ho, hp⟩
    rcases talukaTarget_cases s.options c with ⟨_, j, o₀, ht, hfirst, _⟩ | ⟨_, hnone⟩
    · exact ⟨o₀.value, o₀.text, j, by rw [talukaMatcher_of_target ht hfirst.1]⟩
    · rw [hnone st o ho] at hp
      exact Bool.noConfusion hp
  · intro a b hab
    cases a <;> cases b <;> first | rfl | exact absurd hab (by decide)

theorem selection_strategy_order_witness :
    ("A" ≠ "") ∧
    ((∀ m v t, (villageSelected asciiLower sampleColliding "A").2 = some (.selected m v t) →
      (∃ i o, IsFirst (Method.pred asciiLower "A" m) sampleColliding.options i o ∧
        v = o.value) ∧
      ∀ m' : Method, m'.rank < m.rank →
        ∀ o' ∈ sampleColliding.options, Method.pred asciiLower "A" m' o' = false) ∧
    ((∃ m : Method, ∃ o ∈ sampleColliding.options, Method.pred asciiLower "A" m o = true) →
      ∃ m v t, (villageSelected asciiLower sampleColliding "A").2 = some (.selected m v t)) ∧
    (∀ v t i, (talukaMatcher sampleColliding "A").2 = .found v t i →
      ∃ st o, IsFirst (TalukaStrategy.pred "A" st) sampleColliding.options i o ∧
        v = o.value ∧ t = o.text ∧
        ∀ st' : TalukaStrategy, st'.rank < st.rank →
          ∀ o' ∈ sampleColliding.options, TalukaStrategy.pred "A" st' o' = false) ∧
    ((∃ st : TalukaStrategy, ∃ o ∈ sampleColliding.options,
        TalukaStrategy.pred "A" st o = true) →
      ∃ v t i, (talukaMatcher sampleColliding "A").2 = .found v t i) ∧
    Function.Injective Method.name) :=
  ⟨by decide, selection_strategy_order asciiLower sampleColliding "A" (by decide)⟩

/-- C4, as stated, fails for the taluka matcher: on a list that holds a non-placeholder
option it reports not found for a candidate that matches nothing, because it has no
fallback to the first non-placeholder option. -/
theorem not_found_counterexample :
    ¬((talukaMatcher sampleTalukas "zzz").2 = .notFound ↔
      ((∀ o ∈ sampleTalukas.options, exactPred "zzz" o = false ∧
          spacePred "zzz" o = false ∧ trimPred "zzz" o = false) ∧
        ∀ o ∈ sampleTalukas.options, o.value = tahsilPlaceholder)) := by
  decide

/-- C4, amended.  For a non-empty candidate the village selection returns the explicit
not-found result, and never throws, exactly when no option passes any of its four
tests and every option carries the placeholder value; the taluka matcher returns its
not-found result exactly when no option passes any of its three lookups, whether or
not a non-placeholder option exists. -/
theorem not_found_iff_nothing_matches (lower : String → String) (s : Select) (c : String)
    (hc : c ≠ "") :
    ((villageSelected lower s c).2 = some (.notFound (villageOptions s.options)) ↔
      ((∀ o ∈ s.options, exactPred c o = false ∧ valuePred c o = false ∧
          textPred c o = false ∧ partialPred lower c o = false) ∧
        ∀ o ∈ s.options, o.value = villagePlaceholder)) ∧
    (∀ r, (villageSelected lower s c).2 = some r → r.success = false →
      r = .notFound (villageOptions s.options)) ∧
    (villageSelected lower s c).2 ≠ none ∧
    ((talukaMatcher s c).2 = .notFound ↔
      ∀ o ∈ s.options, exactPred c o = false ∧ spacePred c o = false ∧
        trimPred c o = false) := by
  refine ⟨?_, ?_, ?_, ?_⟩
  · constructor
    · intro hres
      rcases villageSelected_cases lower s c hc with
        ⟨m₀, i, o, k, o₁, _, _, _, _, heq, _⟩ | ⟨hnone, _⟩
      · rw [heq] at hres
        simp at hres
      · refine ⟨fun o ho => ⟨hnone .direct o ho, hnone .value o ho, hnone .text o ho,
          hnone .partialMatch o ho⟩, fun o ho => ?_⟩
        simpa [Method.pred, nonPlaceholder] using hnone .fallback o ho
    · rintro ⟨hmatch, hplace⟩
      rcases villageSelected_cases lower s c hc with
        ⟨m₀, i, o, k, o₁, hfirst, _, _, _, _, _⟩ | ⟨_, heq⟩
      · have hm := hmatch o hfirst.mem
        have hp := hfirst.2.1
        cases m₀
        · rw [show Method.pred lower c .direct o = exactPred c o from rfl, hm.1] at hp
          exact Bool.noConfusion hp
        · rw [show Method.pred lower c .value o = valuePred c o from rfl, hm.2.1] at hp
          exact Bool.noConfusion hp
        · rw [show Method.pred lower c .text o = textPred c o from rfl, hm.2.2.1] at hp
          exact Bool.noConfusion hp
        · rw [show Method.pred lower c .partialMatch o = partialPred lower c o from rfl,
            hm.2.2.2] at hp
          exact Bool.noConfusion hp
        · simp [Method.pred, nonPlaceholder, hplace o hfirst.mem] at hp
      · rw [heq]
  · intro r hr hsucc
    rcases villageSelected_cases lower s c hc with
      ⟨m₀, i, o, k, o₁, _, _, _, _, heq, _⟩ | ⟨_, heq⟩
    · rw [heq] at hr
      simp only [Option.some.injEq] at hr
      subst hr
      simp [VillageResult.success] at hsucc
    · rw [heq] at hr
      simp only [Option.some.injEq] at hr
      exact hr.symm
  · rcases villageSelected_cases lower s c hc with
      ⟨m₀, i, o, k, o₁, _, _, _, _, heq, _⟩ | ⟨_, heq⟩ <;> rw [heq] <;> simp
  · constructor
    · intro hres
      cases ht : talukaTarget s.options c with
      | none => exact talukaTarget_eq_none_iff.mp ht
      | some i =>
        obtain ⟨st, j, o, ht', hfirst, _⟩ | ⟨ht', _⟩ := talukaTarget_cases s.options c
        · rw [talukaMatcher_of_target ht' hfirst.1] at hres
          exact TalukaResult.noConfusion hres
        · rw [ht'] at ht
          exact Option.noConfusion ht
    · intro hall
      rw [talukaMatcher_of_none (talukaTarget_eq_none_iff.mpr hall)]

theorem not_found_iff_nothing_matches_witness :
    ("zzz" ≠ "") ∧
    (((villageSelected asciiLower sampleVillages "zzz").2 =
        some (.notFound (villageOptions sampleVillages.options)) ↔
      ((∀ o ∈ sampleVillages.options, exactPred "zzz" o = false ∧
          valuePred "zzz" o = false ∧ textPred "zzz" o = false ∧
          partialPred asciiLower "zzz" o = false) ∧
        ∀ o ∈ sampleVillages.options, o.value = villagePlaceholder)) ∧
    (∀ r, (villageSelected asciiLower sampleVillages "zzz").2 = some r →
      r.success = false → r = .notFound (villageOptions sampleVillages.options)) ∧
    (villageSelected asciiLower sampleVillages "zzz").2 ≠ none ∧
    ((talukaMatcher sampleVillages "zzz").2 = .notFound ↔
      ∀ o ∈ sampleVillages.options, exactPred "zzz" o = false ∧
        spacePred "zzz" o = false ∧ trimPred "zzz" o = false)) :=
  ⟨by decide, not_found_iff_nothing_matches asciiLower sampleVillages "zzz" (by decide)⟩

/-- C5. When no option carries the candidate as its raw value and the taluka matcher
finds its option through the space-padded or the trimmed lookup, the value it reports
as `selectedValue`, and the value the control shows afterwards, is that option's raw
value, which differs from the candidate. -/
theorem taluka_match_keeps_raw_value (s : Select) (c : String)
    (hno : ∀ o ∈ s.options, o.value ≠ c)
    (hnorm : ∃ o ∈ s.options, o.value = c ++ " " ∨ jsTrim o.value = c) :
    ∃ i o, s.options[i]? = some o ∧ (o.value = c ++ " " ∨ jsTrim o.value = c) ∧
      o.value ≠ c ∧ (talukaMatcher s c).2 = .found o.value o.text i ∧
      (talukaMatcher s c).1.value = o.value := by
  rcases talukaTarget_cases s.options c with ⟨st, i, o, ht, hfirst, _⟩ | ⟨_, hnone⟩
  · refine ⟨i, o, hfirst.1, ?_, hno o hfirst.mem, talukaMatcher_of_target ht hfirst.1 ▸ rfl,
      talukaMatcher_control_value ht hfirst.1⟩
    have hp := hfirst.2.1
    cases st
    · exact absurd (by simpa [TalukaStrategy.pred, exactPred] using hp) (hno o hfirst.mem)
    · exact Or.inl (by simpa [TalukaStrategy.pred, spacePred] using hp)
    · exact Or.inr (by simpa [TalukaStrategy.pred, trimPred] using hp)
  · obtain ⟨o, ho, hor⟩ := hnorm
    rcases hor with h | h
    · have := hnone .spacePadded o ho
      simp [TalukaStrategy.pred, spacePred, h] at this
    · have := hnone .trimmed o ho
      simp [TalukaStrategy.pred, trimPred, h] at this

theorem taluka_match_keeps_raw_value_witness :
    (∀ o ∈ samplePadded.options, o.value ≠ "12") ∧
    (∃ o ∈ samplePadded.options, o.value = "12" ++ " " ∨ jsTrim o.value = "12") ∧
    ∃ i o, samplePadded.options[i]? = some o ∧
      (o.value = "12" ++ " " ∨ jsTrim o.value = "12") ∧
      o.value ≠ "12" ∧ (talukaMatcher samplePadded "12").2 = .found o.value o.text i ∧
      (talukaMatcher samplePadded "12").1.value = o.value :=
  ⟨by decide, by decide, taluka_match_keeps_raw_value samplePadded "12" (by decide) (by decide)⟩

/-! ## Claims on the returned option lists -/

/-- C6, as stated, fails: two raw values that differ only in surrounding white space
yield two entries with the same value in each of the returned lists, because the code
trims the values and removes no duplicate. -/
theorem trimmed_unique_counterexample :
    ¬((tahsilOptions sampleColliding.options).map (fun o => jsTrim o.value)).Nodup ∧
    ¬((resultVillages sampleColliding.options).map (fun o => jsTrim o.value)).Nodup ∧
    ¬((getVillagesOptions sampleColliding.options).map (fun o => jsTrim o.value)).Nodup := by
  decide

/-- C6, amended.  Every value in the taluka and village lists returned by `automateForm`,
`getTalukas` and `getVillages` is trimmed, and when the raw values of the dropdown are
pairwise distinct after trimming, so are the values of each returned list. -/
theorem trimmed_unique_of_distinct (options : List DomOption)
    (h : (options.map (fun o => jsTrim o.value)).Nodup) :
    (∀ l ∈ [tahsilOptions options, resultVillages options, getVillagesOptions options],
      (∀ e ∈ l, jsTrim e.value = e.value) ∧ (l.map (fun o => jsTrim o.value)).Nodup) := by
  have hid : ∀ l : List DomOption,
      (l.map (fun o => DomOption.mk (jsTrim o.value) o.text)).map (fun o => jsTrim o.value) =
        l.map (fun o => jsTrim o.value) := by
    intro l
    simp [List.map_map, Function.comp_def, jsTrim_idem]
  have htrim : ∀ l : List DomOption,
      ∀ e ∈ l.map (fun o => DomOption.mk (jsTrim o.value) o.text), jsTrim e.value = e.value := by
    intro l e he
    obtain ⟨o, _, rfl⟩ := List.mem_map.mp he
    exact jsTrim_idem o.value
  intro l hl
  simp only [List.mem_cons, List.mem_singleton, List.not_mem_nil, or_false] at hl
  rcases hl with rfl | rfl | rfl
  · refine ⟨htrim _, ?_⟩
    unfold tahsilOptions
    rw [hid]
    exact h.sublist ((List.filter_sublist _).map _)
  · refine ⟨fun e he => htrim options e (List.mem_of_mem_filter he), ?_⟩
    unfold resultVillages villageOptions
    refine List.Nodup.sublist ((List.filter_sublist _).map _) ?_
    rw [hid]
    exact h
  · refine ⟨htrim _, ?_⟩
    unfold getVillagesOptions
    rw [hid]
    exact h.sublist ((List.filter_sublist _).map _)

theorem trimmed_unique_of_distinct_witness :
    ((samplePadded.options.map (fun o => jsTrim o.value)).Nodup) ∧
    (∀ l ∈ [tahsilOptions samplePadded.options, resultVillages samplePadded.options,
        getVillagesOptions samplePadded.options],
      (∀ e ∈ l, jsTrim e.value = e.value) ∧ (l.map (fun o => jsTrim o.value)).Nodup) :=
  ⟨by decide, trimmed_unique_of_distinct samplePadded.options (by decide)⟩

/-! ## Stage lemmas for `automateForm` -/

@[simp] theorem log_trace (s : St) (e : Step) : (s.log e).trace = s.trace ++ [e] := rfl

@[simp] theorem log_result (s : St) (e : Step) : (s.log e).result = s.result := rfl

@[simp] theorem log_village (s : St) (e : Step) : (s.log e).village = s.village := rfl

@[simp] theorem log_tahsil (s : St) (e : Step) : (s.log e).tahsil = s.tahsil := rfl

@[simp] theorem innerCatch_trace (p : Portal) (m : String) (s : St) :
    (innerCatch p m s).trace = s.trace := by
  unfold innerCatch
  split <;> rfl

theorem closeOrKeep_trace (k : Bool) (s : St) :
    (closeOrKeep k s).trace = if k then s.trace else s.trace ++ [.closeBrowser] := by
  unfold closeOrKeep
  split <;> simp_all

theorem mem_closeOrKeep_trace {k : Bool} {s : St} {e : Step} (h : e ∈ s.trace) :
    e ∈ (closeOrKeep k s).trace := by
  rw [closeOrKeep_trace]
  split
  · exact h
  · exact List.mem_append_left _ h

theorem Reached.log {n m : Nat} {s : St} (h : Reached n s) (e : Step) (hm : m = n + 1)
    (hn : n + 1 < 15) (he : e.erase = fullPath[n]?) : Reached m (s.log e) := by
  subst hm
  obtain ⟨h1, h2, h3, h4⟩ := h
  refine ⟨?_, ?_, h3, h4⟩
  · have hlt : n < fullPath.length := by
      have : fullPath.length = 15 := rfl
      omega
    rw [List.getElem?_eq_getElem hlt] at he
    simp only [skeleton, log_trace, List.filterMap_append, List.filterMap_cons, he,
      List.filterMap_nil]
    have h1' : List.filterMap Step.erase s.trace = List.take n fullPath := h1
    rw [h1', List.take_succ, List.getElem?_eq_getElem hlt]
    rfl
  · simp only [log_result]
    constructor
    · intro hc
      have := h2.mp hc
      omega
    · intro hc
      omega

theorem Reached.logErased {n : Nat} {s : St} (h : Reached n s) (e : Step)
    (he : e.erase = none) : Reached n (s.log e) := by
  obtain ⟨h1, h2, h3, h4⟩ := h
  refine ⟨?_, h2, h3, h4⟩
  have h1' : List.filterMap Step.erase s.trace = List.take n fullPath := h1
  simp [skeleton, List.filterMap_append, he, h1']

theorem Reached.congr {n : Nat} {s s' : St} (h : Reached n s) (ht : s'.trace = s.trace)
    (hc : s'.result.captchaRequired = s.result.captchaRequired)
    (hs : s'.result.session = s.result.session)
    (hd : s'.result.propertyData = s.result.propertyData) : Reached n s' := by
  obtain ⟨h1, h2, h3, h4⟩ := h
  exact ⟨by rw [ht]; exact h1, by rw [hc]; exact h2, by rw [hs, hc]; exact h3,
    by rw [hd]; exact h4⟩

theorem Reached.innerCatch {n : Nat} {s : St} (h : Reached n s) (p : Portal) (m : String) :
    Reached n (innerCatch p m s) := by
  obtain ⟨h1, h2, h3, h4⟩ := h
  unfold IGR.innerCatch
  split <;> exact ⟨h1, h2, h3, h4⟩

theorem Reached.closeOrKeep {n : Nat} {s : St} (h : Reached n s) (k : Bool) :
    Reached n (closeOrKeep k s) := by
  unfold IGR.closeOrKeep
  split
  · exact h
  · exact h.logErased _ rfl

theorem Reached.returnOptions {n : Nat} {s : St} (h : Reached n s) (k : Bool) (m : String) :
    Reached n (returnOptions k m s) := by
  unfold IGR.returnOptions
  exact Reached.closeOrKeep (s := { s with result := { s.result with success := true, message := m } })
    h k

/-- The waits passed up to the taluka level are all the waits of a run that stops at
or before the village selection. -/
theorem Waits.of_le {p : Portal} {m n : Nat} (h : Waits p m) (hm : 6 < m) (hn : n ≤ 13) :
    Waits p n :=
  ⟨fun _ => h.1 (by omega), fun _ => h.2.1 (by omega), fun _ => h.2.2.1 (by omega),
    fun _ => h.2.2.2.1 (by omega), fun hh => absurd hh (by omega),
    fun hh => absurd hh (by omega)⟩

/-- The facts of a run that stopped before the hand-off follow from the guards passed. -/
theorem Facts.early {fd : FormData} {p : Portal} {n : Nat} (st : St) (hn : n ≤ 13)
    (hne : n ≠ 11) (h5 : 5 < n → fd.district ≠ "")
    (h7 : 7 < n → fd.taluka ≠ "" ∧ fd.taluka ≠ tahsilPlaceholder)
    (h11 : 11 < n → fd.village ≠ "" ∧ fd.propertyNo ≠ "") (hw : Waits p n) :
    Facts fd p n st :=
  ⟨h5, h7, h11, fun h => absurd h (by omega), fun h => absurd h (by omega),
    fun h => absurd h hne, hw, fun h => absurd h (by omega)⟩

theorem closeOrKeep_result (k : Bool) (s : St) :
    (closeOrKeep k s).result.success = s.result.success ∧
      (closeOrKeep k s).result.villages = s.result.villages ∧
      (closeOrKeep k s).result.talukas = s.result.talukas ∧
      (closeOrKeep k s).result.captchaRequired = s.result.captchaRequired ∧
      (closeOrKeep k s).result.session = s.result.session := by
  unfold closeOrKeep
  split <;> exact ⟨rfl, rfl, rfl, rfl, rfl⟩

theorem closeOrKeep_village (k : Bool) (s : St) : (closeOrKeep k s).village = s.village := by
  unfold closeOrKeep
  split <;> rfl

theorem innerCatch_village (p : Portal) (m : String) (s : St) :
    (innerCatch p m s).village = s.village := by
  unfold innerCatch
  split <;> rfl

theorem Facts.closed {fd : FormData} {p : Portal} {n : Nat} {s : St}
    (h : Facts fd p n s) (k : Bool) : Facts fd p n (closeOrKeep k s) :=
  ⟨h.1, h.2.1, h.2.2.1, fun hn => mem_closeOrKeep_trace (h.2.2.2.1 hn), h.2.2.2.2.1,
    fun hn => by
      rw [(closeOrKeep_result k s).1, (closeOrKeep_result k s).2.1]
      exact h.2.2.2.2.2.1 hn,
    h.2.2.2.2.2.2.1,
    fun hn => by
      rw [closeOrKeep_village]
      exact h.2.2.2.2.2.2.2 hn⟩

/-- A village selection that reports failure leaves nothing selected. -/
theorem villageSelected_failure_unselected (lower : String → String) {s sel : Select}
    {c : String} {r : VillageResult} (hc : c ≠ "")
    (h : villageSelected lower s c = (sel, some r)) (hr : r.success = false) :
    sel.selectedOption = none := by
  rcases villageSelected_cases lower s c hc with
    ⟨m, i, o, k, o₁, _, _, _, _, heq, _⟩ | ⟨hnone, heq⟩
  · rw [heq] at h
    simp only [Prod.mk.injEq, Option.some.injEq] at h
    obtain ⟨_, hr'⟩ := h
    subst hr'
    simp [VillageResult.success] at hr
  · rw [heq] at h
    simp only [Prod.mk.injEq, Option.some.injEq] at h
    obtain ⟨hsel, _⟩ := h
    subst hsel
    have hne : ∀ o ∈ s.options, o.value ≠ c := fun o ho => by
      simpa [Method.pred, exactPred] using hnone .direct o ho
    exact (setValue_none hne).2.1

theorem captchaHandOff_reached (fd : FormData) (p : Portal) (s : St)
    (hd : fd.district ≠ "") (ht : fd.taluka ≠ "" ∧ fd.taluka ≠ tahsilPlaceholder)
    (hv : fd.village ≠ "" ∧ fd.propertyNo ≠ "") (hw : Waits p 13)
    (hvo : s.village.selectedOption ≠ none → Step.villageOutcome true ∈ s.trace)
    (h : Reached 13 s) :
    ∃ n, Reached n (captchaHandOff fd p s) ∧ Facts fd p n (captchaHandOff fd p s) := by
  have early : ∀ st : St, Facts fd p 13 st := fun st =>
    Facts.early st (by decide) (by decide) (fun _ => hd) (fun _ => ht) (fun _ => hv) hw
  unfold captchaHandOff
  split
  · exact ⟨13, h.innerCatch p _, early _⟩
  · rename_i o hsel
    have hselne : s.village.selectedOption ≠ none := by
      rw [hsel]
      exact Option.some_ne_none o
    have hmem : Step.villageOutcome true ∈ s.trace := hvo hselne
    split
    · exact ⟨13, h.innerCatch p _, early _⟩
    · rename_i hclick
      split
      · exact ⟨13, h.innerCatch p _, early _⟩
      · rename_i htype
        have hct : p.villageClickable = true ∧ p.propertyFieldTypable = true :=
          ⟨by simpa using hclick, by simpa using htype⟩
        simp only [hv.2, ne_eq, not_false_eq_true, if_true]
        have h14 : Reached 14 (s.log .typeProperty) := h.log _ rfl (by decide) rfl
        split
        · rename_i hcap
          refine ⟨14, h14.innerCatch p _, fun _ => hd, fun _ => ht, fun _ => hv, fun _ => ?_,
            fun _ => by simpa using hcap, fun hn => absurd hn (by decide),
            ⟨fun _ => hw.1 (by decide), fun _ => hw.2.1 (by decide),
              fun _ => hw.2.2.1 (by decide), fun _ => hw.2.2.2.1 (by decide), fun _ => hct,
              fun hn => absurd hn (by decide)⟩,
            fun _ => ?_⟩
          · simp [hmem]
          · rw [innerCatch_village]
            exact hselne
        · rename_i hcap
          refine ⟨15, ?_, fun _ => hd, fun _ => ht, fun _ => hv, fun _ => ?_,
            fun hn => absurd hn (by decide), fun hn => absurd hn (by decide),
            ⟨fun _ => hw.1 (by decide), fun _ => hw.2.1 (by decide),
              fun _ => hw.2.2.1 (by decide), fun _ => hw.2.2.2.1 (by decide), fun _ => hct,
              fun _ => by simpa using hcap⟩,
            fun _ => hselne⟩
          · obtain ⟨h1, _, _, h4⟩ := h14
            refine ⟨?_, by simp, by simp, h4⟩
            have h1' : List.filterMap Step.erase (s.trace ++ [Step.typeProperty]) =
                List.take 14 fullPath := h1
            simp only [skeleton, handleCaptchaInner, log_trace, List.filterMap_append, h1']
            rfl
          · simp [handleCaptchaInner, hmem]

theorem villageChoice_reached (lower : String → String) (fd : FormData) (p : Portal) (s : St)
    (hd : fd.district ≠ "") (ht : fd.taluka ≠ "" ∧ fd.taluka ≠ tahsilPlaceholder)
    (hv : fd.village ≠ "" ∧ fd.propertyNo ≠ "") (hw : Waits p 11) (h : Reached 11 s) :
    ∃ n, Reached n (villageChoice lower fd p s) ∧ Facts fd p n (villageChoice lower fd p s) := by
  unfold villageChoice
  split
  · refine ⟨12, Reached.innerCatch ?_ p _, Facts.early _ (by decide) (by decide) (fun _ => hd)
      (fun _ => ht) (fun _ => hv) (hw.of_le (by decide) (by decide))⟩
    exact Reached.log (h.congr rfl rfl rfl rfl) _ rfl (by decide) rfl
  · rename_i sel r hsel
    refine captchaHandOff_reached fd p _ hd ht hv (hw.of_le (by decide) (by decide)) ?_ ?_
    · intro hne
      cases hr : r.success with
      | true => simp
      | false => exact absurd (villageSelected_failure_unselected lower hv.1 hsel hr) hne
    · refine Reached.log ?_ _ rfl (by decide) rfl
      exact Reached.log (h.congr rfl rfl rfl rfl) _ rfl (by decide) rfl

theorem villageLevel_reached (lower : String → String) (fd : FormData) (p : Portal) (s : St)
    (hd : fd.district ≠ "") (ht : fd.taluka ≠ "" ∧ fd.taluka ≠ tahsilPlaceholder)
    (hw : Waits p 10) (h : Reached 10 s) :
    ∃ n, Reached n (villageLevel lower fd p s) ∧ Facts fd p n (villageLevel lower fd p s) := by
  have h11 : Reached 11 (St.log
      { s with result := { s.result with villages := resultVillages p.village.options } }
      (.enumerate .village)) :=
    Reached.log (h.congr rfl rfl rfl rfl) _ rfl (by decide) rfl
  unfold villageLevel
  dsimp only
  split
  · refine ⟨11, h11.returnOptions _ _, fun _ => hd, fun _ => ht,
      fun hn => absurd hn (by decide), fun hn => absurd hn (by decide),
      fun hn => absurd hn (by decide), fun _ => ?_, hw.of_le (by decide) (by decide),
      fun hn => absurd hn (by decide)⟩
    unfold returnOptions
    rw [(closeOrKeep_result _ _).1, (closeOrKeep_result _ _).2.1]
    exact ⟨rfl, rfl⟩
  · rename_i hguard
    exact villageChoice_reached lower fd p _ hd ht
      ⟨fun hcon => hguard (Or.inl hcon), fun hcon => hguard (Or.inr hcon)⟩
      (hw.of_le (by decide) (by decide)) h11

theorem talukaVerified_reached (lower : String → String) (fd : FormData) (p : Portal) (s : St)
    (hd : fd.district ≠ "") (ht : fd.taluka ≠ "" ∧ fd.taluka ≠ tahsilPlaceholder)
    (hw : Waits p 9) (h : Reached 9 s) :
    ∃ n, Reached n (talukaVerified lower fd p s) ∧
      Facts fd p n (talukaVerified lower fd p s) := by
  unfold talukaVerified
  exact villageLevel_reached lower fd p _ hd ht (hw.of_le (by decide) (by decide))
    (h.log _ rfl (by decide) rfl)

theorem talukaLevel_reached (lower : String → String) (fd : FormData) (p : Portal) (s : St)
    (hd : fd.district ≠ "") (ht : fd.taluka ≠ "" ∧ fd.taluka ≠ tahsilPlaceholder)
    (hw : Waits p 7) (h : Reached 7 s) :
    ∃ n, Reached n (talukaLevel lower fd p s) ∧ Facts fd p n (talukaLevel lower fd p s) := by
  have h9 : Reached 9 (St.log (St.log { s with tahsil := (talukaMatcher s.tahsil fd.taluka).1 }
      (.choose .taluka)) (.talukaOutcome (talukaMatcher s.tahsil fd.taluka).2.success)) :=
    Reached.log (Reached.log (h.congr rfl rfl rfl rfl) (.choose .taluka) rfl (by decide) rfl)
      (.talukaOutcome _) rfl (by decide) rfl
  have early : ∀ st : St, Facts fd p 9 st := fun st =>
    Facts.early st (by decide) (by decide) (fun _ => hd) (fun _ => ht)
      (fun hn => absurd hn (by decide)) (hw.of_le (by decide) (by decide))
  unfold talukaLevel
  dsimp only
  split
  · exact ⟨9, h9.innerCatch p _, early _⟩
  · split
    · split
      · refine ⟨9, Reached.innerCatch ?_ p _, early _⟩
        exact Reached.logErased (h9.congr rfl rfl rfl rfl) _ rfl
      · refine talukaVerified_reached lower fd p _ hd ht (hw.of_le (by decide) (by decide)) ?_
        exact Reached.logErased (h9.congr rfl rfl rfl rfl) _ rfl
    · exact talukaVerified_reached lower fd p _ hd ht (hw.of_le (by decide) (by decide)) h9

theorem innerTry_reached (lower : String → String) (fd : FormData) (p : Portal) (s : St)
    (hf : p.formLoads = true) (h : Reached 2 s) :
    ∃ n, Reached n (innerTry lower fd p s) ∧ Facts fd p n (innerTry lower fd p s) := by
  have h4 : Reached 4 (St.log (St.log
      { s with result := { s.result with years := p.year.options } }
      (.enumerate .year)) (.choose .year)) :=
    Reached.log (Reached.log (h.congr rfl rfl rfl rfl) (.enumerate .year) rfl (by decide) rfl)
      (.choose .year) rfl (by decide) rfl
  have waits : ∀ n : Nat, n ≤ 13 → (2 < n → p.year.options ≠ []) →
      (4 < n → p.district.populated = true) → (6 < n → p.tahsil.populated = true) →
      Waits p n := fun n hn hy hdp htp =>
    ⟨fun _ => hf, hy, hdp, htp, fun hh => absurd hh (by omega), fun hh => absurd hh (by omega)⟩
  unfold innerTry
  dsimp only
  split
  · exact ⟨2, h.innerCatch p _, Facts.early _ (by decide) (by decide)
      (fun hn => absurd hn (by decide)) (fun hn => absurd hn (by decide))
      (fun hn => absurd hn (by decide))
      (waits 2 (by decide) (fun hn => absurd hn (by decide)) (fun hn => absurd hn (by decide))
        (fun hn => absurd hn (by decide)))⟩
  · rename_i hyear
    have hy : p.year.options ≠ [] := fun h0 => hyear (by rw [h0]; rfl)
    split
    · exact ⟨4, h4.innerCatch p _, Facts.early _ (by decide) (by decide)
        (fun hn => absurd hn (by decide)) (fun hn => absurd hn (by decide))
        (fun hn => absurd hn (by decide))
        (waits 4 (by decide) (fun _ => hy) (fun hn => absurd hn (by decide))
          (fun hn => absurd hn (by decide)))⟩
    · rename_i hdist
      have hdp : p.district.populated = true := by simpa using hdist
      have h5 : Reached 5 (St.log { (St.log (St.log
          { s with result := { s.result with years := p.year.options } }
          (.enumerate .year)) (.choose .year)) with result :=
            { (St.log (St.log { s with result := { s.result with years := p.year.options } }
                (.enumerate .year)) (.choose .year)).result with
              districts := p.district.select.options } } (.enumerate .district)) :=
        Reached.log (h4.congr rfl rfl rfl rfl) _ rfl (by decide) rfl
      split
      · exact ⟨5, h5.returnOptions _ _, Facts.early _ (by decide) (by decide)
          (fun hn => absurd hn (by decide)) (fun hn => absurd hn (by decide))
          (fun hn => absurd hn (by decide))
          (waits 5 (by decide) (fun _ => hy) (fun _ => hdp) (fun hn => absurd hn (by decide)))⟩
      · rename_i hd
        have h6 := h5.log (.choose .district) rfl (by decide) rfl
        split
        · exact ⟨6, h6.innerCatch p _, Facts.early _ (by decide) (by decide) (fun _ => hd)
            (fun hn => absurd hn (by decide)) (fun hn => absurd hn (by decide))
            (waits 6 (by decide) (fun _ => hy) (fun _ => hdp)
              (fun hn => absurd hn (by decide)))⟩
        · rename_i htah
          have htp : p.tahsil.populated = true := by simpa using htah
          have hw7 : Waits p 7 := waits 7 (by decide) (fun _ => hy) (fun _ => hdp) (fun _ => htp)
          split
          · refine ⟨7, Reached.returnOptions ?_ _ _, Facts.early _ (by decide) (by decide)
              (fun _ => hd) (fun hn => absurd hn (by decide)) (fun hn => absurd hn (by decide))
              hw7⟩
            exact Reached.log (h6.congr rfl rfl rfl rfl) _ rfl (by decide) rfl
          · rename_i hguard
            refine talukaLevel_reached lower fd p _ hd
              ⟨fun hcon => hguard (Or.inl hcon), fun hcon => hguard (Or.inr hcon)⟩ hw7 ?_
            exact Reached.log (h6.congr rfl rfl rfl rfl) _ rfl (by decide) rfl

/-- Every run of `automateForm` that returns has taken a prefix of `fullPath`, up to
outcome flags, the forced index assignment and the closing of the browser. -/
theorem automateForm_reached (lower : String → String) (fd : FormData) (p : Portal) (st : St)
    (h : automateForm lower fd p = some st) : ∃ n, Reached n st ∧ Facts fd p n st := by
  unfold automateForm at h
  split at h
  · exact Option.noConfusion h
  · simp only [Option.some.injEq] at h
    subst h
    have h1 : Reached 1
        { result := Result.initial, tahsil := p.tahsil.select, village := p.village,
          trace := [.launch] } :=
      ⟨rfl, by simp [Result.initial], rfl, rfl⟩
    split
    · refine ⟨1, Reached.closeOrKeep ?_ _, Facts.early _ (by decide) (by decide)
        (fun hn => absurd hn (by decide)) (fun hn => absurd hn (by decide))
        (fun hn => absurd hn (by decide))
        ⟨fun hn => absurd hn (by decide), fun hn => absurd hn (by decide),
          fun hn => absurd hn (by decide), fun hn => absurd hn (by decide),
          fun hn => absurd hn (by decide), fun hn => absurd hn (by decide)⟩⟩
      exact h1.congr rfl rfl rfl rfl
    · rename_i hload
      obtain ⟨n, hn, hf⟩ :=
        innerTry_reached lower fd p _ (by simpa using hload)
          (h1.log .openForm rfl (by decide) rfl)
      exact ⟨n, hn.closeOrKeep _, hf.closed _⟩

/-! ## Consequences of the shape of a run -/

theorem mem_skeleton {t : List Step} {e e' : Step} (h : e ∈ t) (he : e.erase = some e') :
    e' ∈ skeleton t :=
  List.mem_filterMap.mpr ⟨e, h, he⟩

theorem Reached.mem_fullPath {n : Nat} {st : St} (h : Reached n st) {e e' : Step}
    (hmem : e ∈ st.trace) (he : e.erase = some e') : e' ∈ fullPath.take n := by
  have := mem_skeleton hmem he
  rw [h.1] at this
  exact this

theorem Reached.le_of_mem {n k : Nat} {st : St} (h : Reached n st) {e e' : Step}
    (hmem : e ∈ st.trace) (he : e.erase = some e') (hk : e' ∉ fullPath.take k) : k < n := by
  by_contra hcon
  have hle : n ≤ k := Nat.le_of_not_lt hcon
  exact hk (List.take_subset_take_left fullPath hle (h.mem_fullPath hmem he))

theorem filter_level_skeleton (t : List Step) :
    (skeleton t).filter Step.isLevelStep = t.filter Step.isLevelStep := by
  induction t with
  | nil => rfl
  | cons e t ih =>
    have ih' : List.filter Step.isLevelStep (List.filterMap Step.erase t) =
        List.filter Step.isLevelStep t := ih
    cases e <;> simp [skeleton, List.filterMap_cons, Step.erase, Step.isLevelStep, ih']

theorem Reached.mem_of_le {n : Nat} {st : St} (h : Reached n st) (hn : 15 ≤ n) {e : Step}
    (he : e ∈ fullPath) : ∃ e' ∈ st.trace, e'.erase = some e := by
  have hfull : skeleton st.trace = fullPath := by
    rw [h.1]
    exact List.take_of_length_le hn
  rw [← hfull] at he
  exact List.mem_filterMap.mp he

theorem Reached.mem_of_lt {n k : Nat} {st : St} (h : Reached n st) (hk : k ≤ n) {e : Step}
    (he : e ∈ fullPath.take k) : ∃ e' ∈ st.trace, e'.erase = some e := by
  have hmem : e ∈ skeleton st.trace := by
    rw [h.1]
    exact List.take_subset_take_left fullPath hk he
  exact List.mem_filterMap.mp hmem

/-! ## Claims on the session start -/

/-- C7, as stated, fails: for a taluka dropdown whose raw values carry surrounding
white space the returned `talukas` are not the dropdown's non-placeholder options,
because every value is trimmed. -/
theorem taluka_scenario_counterexample :
    (automateForm asciiLower districtOnly (samplePortal samplePadded sampleVillages)).map
        (fun st => st.result.talukas) =
      some [⟨"12", "Haveli"⟩, ⟨"7", "Mulshi"⟩] ∧
    samplePadded.options.filter (fun o => o.value != tahsilPlaceholder) =
      [⟨"12 ", "Haveli"⟩, ⟨" 7", "Mulshi"⟩] ∧
    (automateForm asciiLower districtOnly (samplePortal samplePadded sampleVillages)).map
        (fun st => st.result.talukas) ≠
      some (samplePadded.options.filter (fun o => o.value != tahsilPlaceholder)) := by
  decide

/-- C7, amended.  On a page whose year, district and taluka dropdowns are populated,
`automateForm` called with a district and with empty taluka and village returns early
with `success = true`, `talukas` equal to the dropdown's non-placeholder options in
order with every value trimmed, no villages, `propertyData` null,
`captchaRequired = false` and no session; nothing is selected below the district. -/
theorem taluka_scenario (lower : String → String) (fd : FormData) (p : Portal)
    (hd : fd.district ≠ "") (ht : fd.taluka = "") (hl : p.launches = true)
    (hf : p.formLoads = true) (hy : p.year.options ≠ [])
    (hdist : p.district.populated = true) (htah : p.tahsil.populated = true) :
    ∃ st, automateForm lower fd p = some st ∧ st.result.success = true ∧
      st.result.talukas =
        (p.tahsil.select.options.filter (fun o => o.value != tahsilPlaceholder)).map
          (fun o => { value := jsTrim o.value, text := o.text }) ∧
      st.result.villages = [] ∧ st.result.propertyData = none ∧
      st.result.captchaRequired = false ∧ st.result.session = false ∧
      st.trace.filter Step.isLevelStep =
        [.enumerate .year, .choose .year, .enumerate .district, .choose .district,
          .enumerate .taluka] := by
  have hy' : ¬p.year.options.length = 0 := fun h => hy (List.length_eq_zero.mp h)
  have hrun : automateForm lower fd p =
      some (closeOrKeep fd.keepBrowserOpen (innerTry lower fd p
        (St.log { result := Result.initial, tahsil := p.tahsil.select, village := p.village,
                  trace := [.launch] } .openForm))) := by
    simp only [automateForm, hl, Bool.not_true, Bool.false_eq_true, if_false, hf]
  refine ⟨_, hrun, ?_⟩
  simp only [innerTry, hy', if_false, hdist, htah, Bool.not_true, Bool.false_eq_true, hd, ht,
    true_or, if_true, returnOptions]
  cases hk : fd.keepBrowserOpen <;>
    simp [closeOrKeep, St.log, Result.initial, tahsilOptions, Step.isLevelStep]

theorem taluka_scenario_witness :
    (districtOnly.district ≠ "") ∧ (districtOnly.taluka = "") ∧
    ((samplePortal samplePadded sampleVillages).tahsil.populated = true) ∧
    ∃ st, automateForm asciiLower districtOnly (samplePortal samplePadded sampleVillages) =
        some st ∧ st.result.success = true ∧
      st.result.talukas =
        ((samplePortal samplePadded sampleVillages).tahsil.select.options.filter
          (fun o => o.value != tahsilPlaceholder)).map
          (fun o => { value := jsTrim o.value, text := o.text }) ∧
      st.result.villages = [] ∧ st.result.propertyData = none ∧
      st.result.captchaRequired = false ∧ st.result.session = false ∧
      st.trace.filter Step.isLevelStep =
        [.enumerate .year, .choose .year, .enumerate .district, .choose .district,
          .enumerate .taluka] :=
  ⟨by decide, by decide, by decide,
    taluka_scenario asciiLower districtOnly (samplePortal samplePadded sampleVillages)
      (by decide) (by decide) (by decide) (by decide) (by decide) (by decide) (by decide)⟩

/-- A run that returns `captchaRequired = true` was given a village and a property
number, and its village selection reported success: a village selection that finds
nothing leaves the control without a selection, and the read-back that follows throws. -/
theorem handoff_requires_village (lower : String → String) (fd : FormData) (p : Portal)
    (st : St) (h : automateForm lower fd p = some st)
    (hc : st.result.captchaRequired = true) :
    fd.village ≠ "" ∧ fd.propertyNo ≠ "" ∧ Step.villageOutcome true ∈ st.trace := by
  obtain ⟨n, hn, hfacts⟩ := automateForm_reached lower fd p st h
  have h15 : 15 ≤ n := hn.2.1.mp hc
  exact ⟨(hfacts.2.2.1 (by omega)).1, (hfacts.2.2.1 (by omega)).2, hfacts.2.2.2.1 (by omega)⟩

/-- C8 at the failing input: with the placeholder `---Select Village----` sent as the
village, `automateForm` returns `captchaRequired = true` with a session although the
village selection reported success on the placeholder option and the village control
shows the placeholder. -/
theorem handoff_with_placeholder_village :
    (automateForm asciiLower (fullSearch "1" "---Select Village----")
        (samplePortal sampleTalukas sampleVillages)).map
      (fun st => (st.result.captchaRequired, st.result.session, st.village.value,
        decide (Step.villageOutcome true ∈ st.trace))) =
      some (true, true, villagePlaceholder, true) := by
  decide

/-- C9, as stated, fails: with a taluka that matches no option the matcher reports not
found and the verification fails, and `automateForm` still enumerates the villages;
`getVillages` does the same. -/
theorem village_after_failed_taluka :
    (automateForm asciiLower (fullSearch "zzz" "")
        (samplePortal sampleTalukas sampleVillages)).map (fun st => st.trace) =
      some [.launch, .openForm, .enumerate .year, .choose .year, .enumerate .district,
        .choose .district, .enumerate .taluka, .choose .taluka, .talukaOutcome false,
        .forceIndex, .verifyTaluka false, .enumerate .village] ∧
    (getVillages sampleTalukas sampleVillages "zzz").2.2 =
      [.choose .taluka, .talukaOutcome false, .enumerate .village] := by
  decide

/-- C9, amended.  In every run of `automateForm` the level steps occur in dependency
order (year, district, taluka, village, each enumerated before it is selected), a
level is selected only when its value was supplied, and the villages are enumerated
only in runs in which the taluka matcher and the taluka verification have run,
whatever they returned; `getVillages` enumerates the villages after running the taluka
matcher, whatever the matcher returned. -/
theorem levels_in_dependency_order (lower : String → String) (fd : FormData) (p : Portal)
    (st : St) (h : automateForm lower fd p = some st) :
    st.trace.filter Step.isLevelStep <+: levelOrder ∧
    (Step.choose .district ∈ st.trace → fd.district ≠ "") ∧
    (Step.choose .taluka ∈ st.trace → fd.taluka ≠ "" ∧ fd.taluka ≠ tahsilPlaceholder) ∧
    (Step.choose .village ∈ st.trace → fd.village ≠ "" ∧ fd.propertyNo ≠ "") ∧
    (Step.enumerate .village ∈ st.trace →
      (∃ found, Step.talukaOutcome found ∈ st.trace) ∧
        ∃ ok, Step.verifyTaluka ok ∈ st.trace) ∧
    ∀ (tahsil village : Select) (taluka : String),
      (getVillages tahsil village taluka).2.2 =
        [.choose .taluka, .talukaOutcome (talukaMatcher tahsil taluka).2.success,
          .enumerate .village] := by
  obtain ⟨n, hn, hfacts⟩ := automateForm_reached lower fd p st h
  refine ⟨?_, ?_, ?_, ?_, ?_, fun _ _ _ => rfl⟩
  · rw [← filter_level_skeleton, hn.1]
    exact (List.take_prefix n fullPath).filter _
  · intro hmem
    exact hfacts.1 (hn.le_of_mem hmem rfl (by decide))
  · intro hmem
    exact hfacts.2.1 (hn.le_of_mem hmem rfl (by decide))
  · intro hmem
    exact hfacts.2.2.1 (hn.le_of_mem hmem rfl (by decide))
  · intro hmem
    have h10 : 10 < n := hn.le_of_mem hmem rfl (by decide)
    constructor
    · obtain ⟨e, he, herase⟩ :=
        hn.mem_of_lt (k := 11) h10 (e := .talukaOutcome true) (by decide)
      cases e <;> simp [Step.erase] at herase
      exact ⟨_, he⟩
    · obtain ⟨e, he, herase⟩ :=
        hn.mem_of_lt (k := 11) h10 (e := .verifyTaluka true) (by decide)
      cases e <;> simp [Step.erase] at herase
      exact ⟨_, he⟩

theorem levels_in_dependency_order_witness :
    automateForm asciiLower (fullSearch "1" "5") (samplePortal sampleTalukas sampleVillages) =
      some sampleHandOff ∧
    (sampleHandOff.trace.filter Step.isLevelStep <+: levelOrder ∧
    (Step.choose .district ∈ sampleHandOff.trace → (fullSearch "1" "5").district ≠ "") ∧
    (Step.choose .taluka ∈ sampleHandOff.trace →
      (fullSearch "1" "5").taluka ≠ "" ∧ (fullSearch "1" "5").taluka ≠ tahsilPlaceholder) ∧
    (Step.choose .village ∈ sampleHandOff.trace →
      (fullSearch "1" "5").village ≠ "" ∧ (fullSearch "1" "5").propertyNo ≠ "") ∧
    (Step.enumerate .village ∈ sampleHandOff.trace →
      (∃ found, Step.talukaOutcome found ∈ sampleHandOff.trace) ∧
        ∃ ok, Step.verifyTaluka ok ∈ sampleHandOff.trace) ∧
    ∀ (tahsil village : Select) (taluka : String),
      (getVillages tahsil village taluka).2.2 =
        [.choose .taluka, .talukaOutcome (talukaMatcher tahsil taluka).2.success,
          .enumerate .village]) :=
  ⟨by decide,
    levels_in_dependency_order asciiLower (fullSearch "1" "5")
      (samplePortal sampleTalukas sampleVillages) sampleHandOff (by decide)⟩

/-- C10, as stated, fails: a property number supplied without a village makes
`automateForm` return the village list with `success = true` and
`captchaRequired = false`. -/
theorem handoff_counterexample :
    (fullSearch "1" "").propertyNo ≠ "" ∧
    (automateForm asciiLower (fullSearch "1" "")
        (samplePortal sampleTalukas sampleVillages)).map
      (fun st => (st.result.captchaRequired, st.result.success, st.result.villages)) =
      some (false, true, [⟨"5", "Alpha"⟩]) := by
  decide

/-- C10, amended.  No run of `automateForm` submits a CAPTCHA value or extracts
records.  A run returns `captchaRequired = true` exactly when it gets as far as typing
the property number and the CAPTCHA image becomes visible; every other run returns
without it.  The property number is typed only when district, taluka, village and
property number were supplied, the village selection reported success and left an
option selected, and no wait failed on the way.  A result with
`captchaRequired = true` carries the session and ends at the acquisition of the
challenge.  Extraction runs in `session.submitCaptcha`, on every submission that is
not classified as rejected. -/
theorem extraction_only_in_submitCaptcha (lower : String → String) (fd : FormData)
    (p : Portal) (st : St) (h : automateForm lower fd p = some st) :
    Step.extractRecords ∉ st.trace ∧ Step.submitChallenge ∉ st.trace ∧
    (Step.typeProperty ∈ st.trace → p.captchaVisible = true →
      st.result.captchaRequired = true) ∧
    (st.result.captchaRequired = true →
      st.result.session = true ∧ fd.propertyNo ≠ "" ∧ Step.typeProperty ∈ st.trace ∧
        Step.acquireChallenge ∈ st.trace) ∧
    (∀ pg : CaptchaPage,
      Step.extractRecords ∈ (submitCaptcha pg).2 ↔
        (pg.inputPresent = true ∧ pg.searchButton = true ∧ invalidCaptcha pg = false)) ∧
    (st.result.captchaRequired = true ↔
      (Step.typeProperty ∈ st.trace ∧ p.captchaVisible = true)) ∧
    (Step.typeProperty ∈ st.trace →
      fd.district ≠ "" ∧ fd.taluka ≠ "" ∧ fd.taluka ≠ tahsilPlaceholder ∧
      fd.village ≠ "" ∧ fd.propertyNo ≠ "" ∧
      Step.villageOutcome true ∈ st.trace ∧ st.village.selectedOption ≠ none ∧
      p.formLoads = true ∧ p.year.options ≠ [] ∧ p.district.populated = true ∧
      p.tahsil.populated = true ∧ p.villageClickable = true ∧
      p.propertyFieldTypable = true) := by
  obtain ⟨n, hn, hfacts⟩ := automateForm_reached lower fd p st h
  have hreq : Step.typeProperty ∈ st.trace → p.captchaVisible = true →
      st.result.captchaRequired = true := by
    intro hmem hvis
    have h13 : 13 < n := hn.le_of_mem hmem rfl (by decide)
    refine hn.2.1.mpr ?_
    by_contra hlt
    have h14 : n = 14 := by omega
    rw [hfacts.2.2.2.2.1 h14] at hvis
    exact Bool.noConfusion hvis
  have htyped : st.result.captchaRequired = true → Step.typeProperty ∈ st.trace := by
    intro hc
    have h15 : 15 ≤ n := hn.2.1.mp hc
    obtain ⟨e, he, herase⟩ := hn.mem_of_le h15 (e := .typeProperty) (by decide)
    cases e <;> simp [Step.erase] at herase
    exact he
  refine ⟨?_, ?_, hreq, ?_, ?_, ?_, ?_⟩
  · intro hmem
    have := hn.mem_fullPath hmem rfl
    exact absurd ((List.take_prefix n fullPath).subset this) (by decide)
  · intro hmem
    have := hn.mem_fullPath hmem rfl
    exact absurd ((List.take_prefix n fullPath).subset this) (by decide)
  · intro hc
    have h15 : 15 ≤ n := hn.2.1.mp hc
    refine ⟨by rw [hn.2.2.1, hc], (hfacts.2.2.1 (by omega)).2, htyped hc, ?_⟩
    obtain ⟨e, he, herase⟩ := hn.mem_of_le h15 (e := .acquireChallenge) (by decide)
    cases e <;> simp [Step.erase] at herase
    exact he
  · intro pg
    unfold submitCaptcha
    cases pg.inputPresent <;> cases pg.searchButton <;> cases invalidCaptcha pg <;>
      cases pg.scraped <;> simp
  · constructor
    · intro hc
      have h15 : 15 ≤ n := hn.2.1.mp hc
      exact ⟨htyped hc, hfacts.2.2.2.2.2.2.1.2.2.2.2.2 (by omega)⟩
    · rintro ⟨hmem, hvis⟩
      exact hreq hmem hvis
  · intro hmem
    have h13 : 13 < n := hn.le_of_mem hmem rfl (by decide)
    have hw := hfacts.2.2.2.2.2.2.1
    exact ⟨hfacts.1 (by omega), (hfacts.2.1 (by omega)).1, (hfacts.2.1 (by omega)).2,
      (hfacts.2.2.1 (by omega)).1, (hfacts.2.2.1 (by omega)).2, hfacts.2.2.2.1 h13,
      hfacts.2.2.2.2.2.2.2 h13, hw.1 (by omega), hw.2.1 (by omega), hw.2.2.1 (by omega),
      hw.2.2.2.1 (by omega), (hw.2.2.2.2.1 h13).1, (hw.2.2.2.2.1 h13).2⟩

theorem extraction_only_in_submitCaptcha_witness :
    automateForm asciiLower (fullSearch "1" "5") (samplePortal sampleTalukas sampleVillages) =
      some sampleHandOff ∧
    Step.typeProperty ∈ sampleHandOff.trace ∧
    (samplePortal sampleTalukas sampleVillages).captchaVisible = true ∧
    sampleHandOff.result.captchaRequired = true ∧
    sampleHandOff.result.session = true ∧
    Step.acquireChallenge ∈ sampleHandOff.trace ∧
    Step.extractRecords ∉ sampleHandOff.trace ∧
    sampleHandOff.village.selectedOption ≠ none :=
  ⟨by decide, by decide, by decide,
    (extraction_only_in_submitCaptcha asciiLower (fullSearch "1" "5")
      (samplePortal sampleTalukas sampleVillages) sampleHandOff (by decide)).2.2.1
        (by decide) (by decide),
    ((extraction_only_in_submitCaptcha asciiLower (fullSearch "1" "5")
      (samplePortal sampleTalukas sampleVillages) sampleHandOff (by decide)).2.2.2.1
        (by decide)).1,
    ((extraction_only_in_submitCaptcha asciiLower (fullSearch "1" "5")
      (samplePortal sampleTalukas sampleVillages) sampleHandOff (by decide)).2.2.2.1
        (by decide)).2.2.2,
    (extraction_only_in_submitCaptcha asciiLower (fullSearch "1" "5")
      (samplePortal sampleTalukas sampleVillages) sampleHandOff (by decide)).1,
    ((extraction_only_in_submitCaptcha asciiLower (fullSearch "1" "5")
      (samplePortal sampleTalukas sampleVillages) sampleHandOff (by decide)).2.2.2.2.2.2
        (by decide)).2.2.2.2.2.2.1⟩

/-! ## The village folder -/

theorem mem_data_of_mem_jsTrim {s : String} {c : Char} (h : c ∈ (jsTrim s).data) :
    c ∈ s.data := by
  have h1 : c ∈ trimStart s.data :=
    (List.rdropWhile_prefix isJsSpace (trimStart s.data)).subset h
  exact (List.dropWhile_suffix isJsSpace).subset h1

/-- The sanitiser's result is never empty and holds none of the characters it
replaces. -/
theorem villageFolderName_clean (v : String) :
    villageFolderName v ≠ "" ∧ ∀ c ∈ (villageFolderName v).data, isForbiddenChar c = false := by
  unfold villageFolderName
  dsimp only
  split
  · exact ⟨by decide, by decide⟩
  · rename_i hne
    refine ⟨hne, fun c hc => ?_⟩
    have hc' := mem_data_of_mem_jsTrim hc
    simp only [List.mem_map] at hc'
    obtain ⟨a, _, rfl⟩ := hc'
    split
    · decide
    · rename_i hf
      simpa using hf

/-- C30.  For the village strings `..` and `.` the sanitiser returns the string as it
is, and the folder joined to `documents` is the parent of `documents` and `documents`
itself; the document of the `targetcreated` listener is then written outside any
village folder. -/
theorem village_folder_not_a_child :
    villageFolderName ".." = ".." ∧ villageFolder ".." = "." ∧
    villageFolderName "." = "." ∧ villageFolder "." = "documents" ∧
    autoPdfPath ".." "2025-01-02T03:04:05.678Z" =
      "document-auto-2025-01-02T03-04-05-678Z.pdf" ∧
    autoPdfPath "." "2025-01-02T03:04:05.678Z" =
      "documents/document-auto-2025-01-02T03-04-05-678Z.pdf" ∧
    villageFolder "Alpha" = "documents/Alpha" := by
  decide

/-! ## Claims on the artifact log -/

theorem existingData_of_array {parse : String → Option Json} {text : String}
    {items : List Json} (hparse : parse text = some (.arr items)) (hblank : jsTrim text ≠ "") :
    existingData parse (some (some text)) = items := by
  have hne : text ≠ "" := by
    rintro rfl
    exact hblank (by decide)
  simp [existingData, hne, hblank, hparse]

theorem existingData_of_malformed {parse : String → Option Json}
    {file : Option (Option String)}
    (hbad : ∀ text, file = some (some text) → ∀ items, parse text ≠ some (.arr items)) :
    existingData parse file = [] := by
  unfold existingData
  split
  · rfl
  · rfl
  · rename_i fileContent
    split
    · split
      · rfl
      · rename_i items hp
        exact absurd hp (hbad fileContent rfl items)
      · rfl
    · rfl

/-- C21.  When `data.json` holds text that parses as a JSON array of `n` entries and
the write succeeds, `saveUrlToJson u` writes an array of `n + 1` entries whose first
`n` entries are the existing ones in order and whose last entry is the object with
`url = u` and the current timestamp, and it returns `true`. -/
theorem log_is_append_only (parse : String → Option Json) (env : LogEnv) (text : String)
    (items : List Json) (u : String)
    (hfile : env.file = some (some text)) (hparse : parse text = some (.arr items))
    (hblank : jsTrim text ≠ "") (hw : env.writable = true) :
    ∃ written, saveUrlToJson parse env u = (some (.arr written), true) ∧
      written.length = items.length + 1 ∧ written.take items.length = items ∧
      written.getLast? = some (logEntry u env.now) ∧
      logEntry u env.now = .obj [("url", .str u), ("timestamp", .str env.now)] := by
  refine ⟨items ++ [logEntry u env.now], ?_, by simp, by simp, by simp, rfl⟩
  simp [saveUrlToJson, hfile, existingData_of_array hparse hblank, hw]

theorem log_is_append_only_witness :
    ∃ written,
      saveUrlToJson (fun _ => some (.arr [.num 1]))
          { file := some (some "[1]"), now := "2025-01-02T03:04:05.678Z",
            writable := true } "u" =
        (some (.arr written), true) ∧
      written.length = [Json.num 1].length + 1 ∧
      written.take [Json.num 1].length = [Json.num 1] ∧
      written.getLast? = some (logEntry "u" "2025-01-02T03:04:05.678Z") ∧
      logEntry "u" "2025-01-02T03:04:05.678Z" =
        .obj [("url", .str "u"), ("timestamp", .str "2025-01-02T03:04:05.678Z")] :=
  log_is_append_only (fun _ => some (.arr [.num 1]))
    { file := some (some "[1]"), now := "2025-01-02T03:04:05.678Z", writable := true }
    "[1]" [.num 1] "u" rfl rfl (by decide) rfl

/-- C22.  When the text of `data.json` does not parse, or parses to something that is
not an array, `saveUrlToJson u` writes a log holding exactly the new entry for `u` and
returns `true`; whatever the file holds, a failing write makes it return `false`, and
no call of it raises an exception (it is a total function of what it finds). -/
theorem malformed_log_is_replaced (parse : String → Option Json) (env : LogEnv) (u : String) :
    ((∀ text, env.file = some (some text) →
        parse text = none ∨ ∃ j, parse text = some j ∧ j.isArray = false) →
      env.writable = true →
      saveUrlToJson parse env u = (some (.arr [logEntry u env.now]), true)) ∧
    (env.writable = false → saveUrlToJson parse env u = (none, false)) ∧
    ((saveUrlToJson parse env u).2 = env.writable) := by
  refine ⟨fun hbad hw => ?_, fun hw => by simp [saveUrlToJson, hw], ?_⟩
  · have hbad' : ∀ text, env.file = some (some text) →
        ∀ items, parse text ≠ some (.arr items) := by
      intro text hf items hp
      rcases hbad text hf with hnone | ⟨j, hj, harr⟩
      · rw [hnone] at hp
        exact Option.noConfusion hp
      · rw [hj] at hp
        cases Option.some.inj hp
        simp [Json.isArray] at harr
    simp [saveUrlToJson, existingData_of_malformed hbad', hw]
  · cases hw : env.writable <;> simp [saveUrlToJson, hw]

theorem malformed_log_is_replaced_witness :
    saveUrlToJson (fun _ => none)
        { file := some (some "oops"), now := "2025-01-02T03:04:05.678Z", writable := true }
        "u" =
      (some (.arr [logEntry "u" "2025-01-02T03:04:05.678Z"]), true) ∧
    saveUrlToJson (fun _ => some (.num 42))
        { file := some (some "42"), now := "2025-01-02T03:04:05.678Z", writable := true }
        "u" =
      (some (.arr [logEntry "u" "2025-01-02T03:04:05.678Z"]), true) :=
  ⟨(malformed_log_is_replaced (fun _ => none)
      { file := some (some "oops"), now := "2025-01-02T03:04:05.678Z", writable := true }
      "u").1 (fun _ _ => Or.inl rfl) rfl,
   (malformed_log_is_replaced (fun _ => some (.num 42))
      { file := some (some "42"), now := "2025-01-02T03:04:05.678Z", writable := true }
      "u").1 (fun _ _ => Or.inr ⟨_, rfl, rfl⟩) rfl⟩

/-! ## Enumerate, then select -/

theorem jsTrim_data_fixed (s : String) :
    trimStart (jsTrim s).data = (jsTrim s).data ∧ trimEnd (jsTrim s).data = (jsTrim s).data := by
  have h1 : trimStart (trimStart s.data) = trimStart s.data := List.dropWhile_idempotent _ _
  exact ⟨trimStart_trimEnd_of_fixed h1, List.rdropWhile_idempotent _ _⟩

theorem head_not_space_of_fixed {a : Char} {t : List Char} (h : trimStart (a :: t) = a :: t) :
    isJsSpace a = false := by
  by_contra hcon
  simp only [Bool.not_eq_false] at hcon
  have hlen : (trimStart (a :: t)).length ≤ t.length := by
    simp only [trimStart, List.dropWhile_cons, hcon, if_true]
    exact (List.dropWhile_suffix isJsSpace).length_le
  rw [h] at hlen
  simp at hlen

/-- Appending one space to a trimmed string and trimming again gives the string back. -/
theorem jsTrim_append_space (s : String) : jsTrim (jsTrim s ++ " ") = jsTrim s := by
  obtain ⟨hs, he⟩ := jsTrim_data_fixed s
  have hdata : (jsTrim s ++ " ").data = (jsTrim s).data ++ [' '] := by
    simp [String.data_append]
  have hsp : isJsSpace ' ' = true := by decide
  apply String.ext
  show trimEnd (trimStart (jsTrim s ++ " ").data) = (jsTrim s).data
  rw [hdata]
  cases hm : (jsTrim s).data with
  | nil => simp [trimStart, trimEnd, hsp]
  | cons a t =>
    rw [hm] at hs he
    have ha := head_not_space_of_fixed hs
    have hstart : trimStart (a :: t ++ [' ']) = a :: t ++ [' '] := by
      simp [trimStart, List.dropWhile_cons, ha]
    rw [hstart]
    have hend : trimEnd (a :: t ++ [' ']) = trimEnd (a :: t) := by
      unfold trimEnd
      exact List.rdropWhile_concat_pos _ _ _ hsp
    rw [hend, he]

/-- C29.  For every taluka dropdown and every option `o` in it other than the
placeholder, the taluka matcher called with the trimmed value that the enumeration
returns for `o` succeeds, and the option it reports and leaves selected in the control
has that trimmed value; when no two options of the list are equal after trimming, the
reported and the selected option is `o` itself. -/
theorem enumerate_then_select (s : Select) (o : DomOption) (hmem : o ∈ s.options)
    (hph : o.value ≠ tahsilPlaceholder) :
    (⟨jsTrim o.value, o.text⟩ : DomOption) ∈ tahsilOptions s.options ∧
    (∃ i o', s.options[i]? = some o' ∧
      (talukaMatcher s (jsTrim o.value)).2 = .found o'.value o'.text i ∧
      (talukaMatcher s (jsTrim o.value)).2.success = true ∧
      (talukaMatcher s (jsTrim o.value)).1.value = o'.value ∧
      jsTrim o'.value = jsTrim o.value ∧
      ((s.options.map (fun x => jsTrim x.value)).Nodup →
        o' = o ∧ (talukaMatcher s (jsTrim o.value)).1.selectedOption = some o)) := by
  constructor
  · simp only [tahsilOptions, List.mem_map, List.mem_filter]
    exact ⟨o, ⟨hmem, by simpa using hph⟩, rfl⟩
  have hsome : talukaTarget s.options (jsTrim o.value) ≠ none := by
    intro hnone
    have := (talukaTarget_eq_none_iff.mp hnone o hmem).2.2
    simp [trimPred] at this
  rcases talukaTarget_cases s.options (jsTrim o.value) with ⟨st, i, o', ht, hfirst, _⟩ | ⟨hn, _⟩
  · have htrim : jsTrim o'.value = jsTrim o.value := by
      have hp := hfirst.2.1
      cases st with
      | exact =>
        have : o'.value = jsTrim o.value := by simpa [TalukaStrategy.pred, exactPred] using hp
        rw [this, jsTrim_idem]
      | spacePadded =>
        have : o'.value = jsTrim o.value ++ " " := by
          simpa [TalukaStrategy.pred, spacePred] using hp
        rw [this, jsTrim_append_space]
      | trimmed => simpa [TalukaStrategy.pred, trimPred] using hp
    have hm := talukaMatcher_of_target ht hfirst.1
    refine ⟨i, o', hfirst.1, by rw [hm], by rw [hm]; rfl,
      talukaMatcher_control_value ht hfirst.1, htrim, fun hnd => ?_⟩
    have hinj := List.inj_on_of_nodup_map hnd
    have ho' : o' = o := hinj hfirst.mem hmem htrim
    refine ⟨ho', ?_⟩
    rw [hm]
    obtain ⟨k, o₁, hk⟩ :=
      exists_isFirst_of_mem (p := exactPred o'.value) hfirst.mem (by simp [exactPred])
    have hk' : IsFirst (exactPred o'.value)
        ((s.setSelectedIndex 0).setSelectedIndex i).options k o₁ := hk
    rw [(setValue_selected hk').2.1]
    have hv : o₁.value = o'.value := by simpa [exactPred] using hk.2.1
    have : o₁ = o' := hinj hk.mem hfirst.mem (by rw [hv])
    rw [this, ho']
  · exact absurd hn hsome

theorem enumerate_then_select_witness :
    (⟨jsTrim "12 ", "Haveli"⟩ : DomOption) ∈ tahsilOptions samplePadded.options ∧
    (∃ i o', samplePadded.options[i]? = some o' ∧
      (talukaMatcher samplePadded (jsTrim "12 ")).2 = .found o'.value o'.text i ∧
      (talukaMatcher samplePadded (jsTrim "12 ")).2.success = true ∧
      (talukaMatcher samplePadded (jsTrim "12 ")).1.value = o'.value ∧
      jsTrim o'.value = jsTrim "12 " ∧
      ((samplePadded.options.map (fun x => jsTrim x.value)).Nodup →
        o' = ⟨"12 ", "Haveli"⟩ ∧
        (talukaMatcher samplePadded (jsTrim "12 ")).1.selectedOption =
          some ⟨"12 ", "Haveli"⟩)) :=
  enumerate_then_select samplePadded ⟨"12 ", "Haveli"⟩ (by decide) (by decide)

/-! ## The extraction loop -/

/-- The helper does nothing but navigate backward. -/
theorem backToResultsPage_goBack (e : BackEnv) : ∀ a ∈ backToResultsPage e, a = .goBack := by
  unfold backToResultsPage
  cases e.onResults <;> cases e.firstBack <;> cases e.backOnResults <;> simp

theorem backToResultsPage_length (e : BackEnv) : (backToResultsPage e).length ≤ 2 := by
  unfold backToResultsPage
  cases e.onResults <;> cases e.firstBack <;> cases e.backOnResults <;> simp

theorem clicks_backToResultsPage (e : BackEnv) :
    (backToResultsPage e).filterMap Action.clickIndex = [] := by
  unfold backToResultsPage
  cases e.onResults <;> cases e.firstBack <;> cases e.backOnResults <;>
    simp [Action.clickIndex]

theorem clicks_processRecord (i : Nat) (e : RecordEnv) :
    (processRecord i e).1.filterMap Action.clickIndex = [i] := by
  unfold processRecord
  cases e.click <;>
    simp [List.filterMap_append, clicks_backToResultsPage, Action.clickIndex]

theorem processRecord_ok (i : Nat) (e : RecordEnv) :
    (processRecord i e).2 = true ↔ e.click ≠ .rejects := by
  unfold processRecord
  cases e.click <;> simp

/-- Every action of an iteration is a backward navigation or a click on record `i`. -/
theorem mem_processRecord (i : Nat) (e : RecordEnv) :
    ∀ a ∈ (processRecord i e).1, a = .goBack ∨ a = .clickRecord i ∨ a = .clickDirect i := by
  intro a ha
  unfold processRecord at ha
  cases hc : e.click <;> simp only [hc, List.mem_append, List.mem_singleton] at ha
  · rcases ha with (h | h) | h
    · exact Or.inl (backToResultsPage_goBack _ a h)
    · exact Or.inr (Or.inl h)
    · exact Or.inl (backToResultsPage_goBack _ a h)
  · rcases ha with ((h | h) | h) | h
    · exact Or.inl (backToResultsPage_goBack _ a h)
    · exact Or.inr (Or.inl h)
    · exact Or.inr (Or.inr h)
    · exact Or.inl (backToResultsPage_goBack _ a h)
  · rcases ha with h | h
    · exact Or.inl (backToResultsPage_goBack _ a h)
    · exact Or.inr (Or.inl h)

theorem mem_processRecords (records : Nat → RecordEnv) (n i : Nat) :
    ∀ a ∈ (processRecords records n i).1,
      a = .goBack ∨ ∃ j, a = .clickRecord j ∨ a = .clickDirect j := by
  induction n generalizing i with
  | zero => simp [processRecords]
  | succ n ih =>
    intro a ha
    simp only [processRecords] at ha
    split at ha
    · simp only [List.mem_append] at ha
      rcases ha with h | h
      · rcases mem_processRecord _ _ a h with h | h | h
        · exact Or.inl h
        · exact Or.inr ⟨i, Or.inl h⟩
        · exact Or.inr ⟨i, Or.inr h⟩
      · exact ih (i + 1) a h
    · rcases mem_processRecord _ _ a ha with h | h | h
      · exact Or.inl h
      · exact Or.inr ⟨i, Or.inl h⟩
      · exact Or.inr ⟨i, Or.inr h⟩

/-- The indices clicked by the loop are an initial stretch of the detected ones, in
ascending order. -/
theorem clicks_processRecords (records : Nat → RecordEnv) (n i : Nat) :
    ∃ m, m ≤ n ∧
      (processRecords records n i).1.filterMap Action.clickIndex = List.range' i m := by
  induction n generalizing i with
  | zero => exact ⟨0, le_refl _, by simp [processRecords]⟩
  | succ n ih =>
    simp only [processRecords]
    split
    · obtain ⟨m, hm, hc⟩ := ih (i + 1)
      refine ⟨m + 1, by omega, ?_⟩
      simp [List.filterMap_append, clicks_processRecord, hc, List.range'_succ]
    · exact ⟨1, by omega, by simp [clicks_processRecord]⟩

/-- When no click by index is rejected the loop runs through all its iterations. -/
theorem clicks_processRecords_all (records : Nat → RecordEnv) (n i : Nat)
    (h : ∀ j, i ≤ j → j < i + n → (records j).click ≠ .rejects) :
    (processRecords records n i).2 = true ∧
      (processRecords records n i).1.filterMap Action.clickIndex = List.range' i n := by
  induction n generalizing i with
  | zero => simp [processRecords]
  | succ n ih =>
    have h0 : (processRecord i (records i)).2 = true :=
      (processRecord_ok _ _).mpr (h i (le_refl _) (by omega))
    obtain ⟨h1, h2⟩ := ih (i + 1) (fun j hj hj' => h j (by omega) (by omega))
    simp only [processRecords, h0, if_true]
    exact ⟨h1, by simp [List.filterMap_append, clicks_processRecord, h2, List.range'_succ]⟩

theorem indexButtonsFrom_length (i : Nat) (rows : List String) :
    (indexButtonsFrom i rows).length = rows.length := by
  induction rows generalizing i with
  | nil => rfl
  | cons r rest ih => simp [indexButtonsFrom, ih]

theorem indexButtonsFrom_found (i : Nat) (rows : List String) :
    ∀ b ∈ indexButtonsFrom i rows, b.found = true := by
  induction rows generalizing i with
  | nil => simp [indexButtonsFrom]
  | cons r rest ih =>
    intro b hb
    simp only [indexButtonsFrom, List.mem_cons] at hb
    rcases hb with rfl | hb
    · rfl
    · exact ih _ b hb

theorem scrapeCatch_actions (rp : ResultsPage) (acts : List Action) :
    (scrapeCatch rp acts).2 = acts ∨
      (scrapeCatch rp acts).2 = acts ++ [.snapshot "property-data-error.png"] := by
  unfold scrapeCatch
  split
  · exact Or.inr rfl
  · exact Or.inl rfl

/-- When no click is rejected and the table can be read and photographed, the
extraction of a page with at least one record returns the detected entries and clicks
every index once, in ascending order. -/
theorem scrape_all_records (rp : ResultsPage) (rows : List String)
    (hb : rp.buttons = some rows) (hn : rows ≠ [])
    (hclick : ∀ i, i < rows.length → (rp.records i).click ≠ .rejects)
    (ht : rp.table ≠ .throws) (hs : rp.resultShot = true) :
    (∃ shot, (scrapePropertyData rp).1 = some (.scraped (indexButtonsFrom 0 rows) [] [shot])) ∧
      (scrapePropertyData rp).2.filterMap Action.clickIndex = List.range rows.length := by
  have hpos : 0 < rows.length := List.length_pos.mpr hn
  obtain ⟨h1, h2⟩ := clicks_processRecords_all rp.records rows.length 0
    (fun j _ hj => hclick j (by omega))
  have hloop : scrapeRecords rp rows = processRecords rp.records rows.length 0 := by
    simp [scrapeRecords, hpos]
  cases htab : rp.table with
  | throws => exact absurd htab ht
  | yes =>
    simp only [scrapePropertyData, hb, hloop, h1, htab, hs]
    refine ⟨⟨_, rfl⟩, ?_⟩
    simp [List.filterMap_append, h2, Action.clickIndex, List.range_eq_range']
  | no =>
    simp only [scrapePropertyData, hb, hloop, h1, htab, hs]
    refine ⟨⟨_, rfl⟩, ?_⟩
    simp [List.filterMap_append, h2, Action.clickIndex, List.range_eq_range']

/-! ## Claims on the extraction -/

theorem scrape_no_document (rp : ResultsPage) (path : String) :
    Action.writeDocument path ∉ (scrapePropertyData rp).2 := by
  have hloop : ∀ rows, Action.writeDocument path ∉ (scrapeRecords rp rows).1 := by
    intro rows hmem
    unfold scrapeRecords at hmem
    split at hmem
    · rcases mem_processRecords _ _ _ _ hmem with h | ⟨j, h | h⟩ <;> cases h
    · cases hx : rp.indexInput <;> simp [hx] at hmem
  have hcatch : ∀ acts, Action.writeDocument path ∉ acts →
      Action.writeDocument path ∉ (scrapeCatch rp acts).2 := by
    intro acts hacts
    rcases scrapeCatch_actions rp acts with h | h <;> rw [h]
    · exact hacts
    · simpa using hacts
  unfold scrapePropertyData
  split
  · exact hcatch _ (by simp)
  · rename_i rows _
    have h0 := hloop rows
    dsimp only
    split
    · exact hcatch _ (by simpa using h0)
    · split
      · exact hcatch _ (by simpa using h0)
      · split
        · simpa using h0
        · exact hcatch _ (by simpa using h0)
      · split
        · simpa using h0
        · exact hcatch _ (by simpa using h0)

theorem scrape_reads_buttons_once (rp : ResultsPage) :
    (scrapePropertyData rp).2.count .readButtons = 1 := by
  have hloop : ∀ rows, (scrapeRecords rp rows).1.count .readButtons = 0 := by
    intro rows
    rw [List.count_eq_zero]
    intro hmem
    unfold scrapeRecords at hmem
    split at hmem
    · rcases mem_processRecords _ _ _ _ hmem with h | ⟨j, h | h⟩ <;> cases h
    · cases hx : rp.indexInput <;> simp [hx] at hmem
  have hcatch : ∀ acts, (scrapeCatch rp acts).2.count .readButtons = acts.count .readButtons := by
    intro acts
    rcases scrapeCatch_actions rp acts with h | h <;> rw [h]
    simp [List.count_append]
  unfold scrapePropertyData
  split
  · rw [hcatch]; simp
  · rename_i rows _
    have h0 := hloop rows
    dsimp only
    split
    · rw [hcatch]; simp [h0]
    · split
      · rw [hcatch]; simp [List.count_append, h0]
      · split
        · simp [List.count_append, h0]
        · rw [hcatch]; simp [List.count_append, h0]
      · split
        · simp [List.count_append, h0]
        · rw [hcatch]; simp [List.count_append, h0]

/-- C18, as stated, fails.  On a page with two records, the first record's button cannot
be clicked and nothing is rendered for it; the extraction returns the same two entries,
both `found: true`, that it returns when both clicks succeed.  No entry carries a
status. -/
theorem capture_status_counterexample :
    (scrapePropertyData (sampleResults ["r1", "r2"]
        (fun i => plainRecord (if i = 0 then .missed else .clicked)))).1 =
      some (.scraped [⟨0, "r1", true⟩, ⟨1, "r2", true⟩] []
        [⟨"search-results-table.png", "results_table"⟩]) ∧
    (scrapePropertyData (sampleResults ["r1", "r2"] (fun _ => plainRecord .clicked))).1 =
      some (.scraped [⟨0, "r1", true⟩, ⟨1, "r2", true⟩] []
        [⟨"search-results-table.png", "results_table"⟩]) := by
  decide

/-- C18, amended.  For every `N ≥ 1` record actions detected, when no click by index is
rejected and the result table can be read and photographed, the extraction returns
exactly `N` entries, one per detected action in order and each `found: true` whatever
happened to its document, and every index `0..N-1` is clicked once in ascending order:
a record that fails does not stop the ones after it. -/
theorem extraction_returns_all_entries (rp : ResultsPage) (rows : List String)
    (hb : rp.buttons = some rows) (hn : rows ≠ [])
    (hclick : ∀ i, i < rows.length → (rp.records i).click ≠ .rejects)
    (ht : rp.table ≠ .throws) (hs : rp.resultShot = true) :
    ∃ entries shot, (scrapePropertyData rp).1 = some (.scraped entries [] [shot]) ∧
      entries = indexButtonsFrom 0 rows ∧ entries.length = rows.length ∧
      (∀ b ∈ entries, b.found = true) ∧
      (scrapePropertyData rp).2.filterMap Action.clickIndex = List.range rows.length := by
  obtain ⟨⟨shot, h1⟩, h2⟩ := scrape_all_records rp rows hb hn hclick ht hs
  exact ⟨_, shot, h1, rfl, indexButtonsFrom_length 0 rows, indexButtonsFrom_found 0 rows, h2⟩

theorem extraction_returns_all_entries_witness :
    ∃ entries shot,
      (scrapePropertyData (sampleResults ["r1", "r2"]
        (fun i => plainRecord (if i = 0 then .missed else .clicked)))).1 =
        some (.scraped entries [] [shot]) ∧
      entries = indexButtonsFrom 0 ["r1", "r2"] ∧ entries.length = ["r1", "r2"].length ∧
      (∀ b ∈ entries, b.found = true) ∧
      (scrapePropertyData (sampleResults ["r1", "r2"]
        (fun i => plainRecord (if i = 0 then .missed else .clicked)))).2.filterMap
          Action.clickIndex = List.range ["r1", "r2"].length :=
  extraction_returns_all_entries
    (sampleResults ["r1", "r2"] (fun i => plainRecord (if i = 0 then .missed else .clicked)))
    ["r1", "r2"] rfl (by decide)
    (fun i _ => by
      show (plainRecord (if i = 0 then .missed else .clicked)).click ≠ .rejects
      split <;> decide)
    (by decide) rfl

/-- C19.  On a page with two records whose first click by index is rejected by the
browser, the loop of `scrapePropertyData` is left in its first iteration: index 1 is
never attempted and the error object is returned. -/
theorem loop_aborts_on_rejected_click :
    scrapePropertyData (sampleResults ["r1", "r2"]
        (fun i => plainRecord (if i = 0 then .rejects else .clicked))) =
      (some (.failed "Execution context was destroyed" "property-data-error.png"),
        [.readButtons, .clickRecord 0, .snapshot "property-data-error.png"]) ∧
    (scrapePropertyData (sampleResults ["r1", "r2"]
        (fun i => plainRecord (if i = 0 then .missed else .clicked)))).2 =
      [.readButtons, .clickRecord 0, .clickDirect 0, .clickRecord 1, .readTable,
        .snapshot "search-results-table.png"] := by
  decide

/-- C20.  No run of `scrapePropertyData` writes a document: the statements that build
`document-<i+1>-<stamp>.pdf` sit behind the read of the unbound name `browser`.  The one
document written for a tab that opens is the listener's `document-auto-<stamp>.pdf`,
not the `document-1-<stamp>.pdf` of the record loop. -/
theorem no_record_document_written :
    (∀ rp path, Action.writeDocument path ∉ (scrapePropertyData rp).2) ∧
    (scrapePropertyData (sampleResults ["r1"] (fun _ => plainRecord .clicked))).2 =
      [.readButtons, .clickRecord 0, .readTable, .snapshot "search-results-table.png"] ∧
    documentListener "Alpha" "https://freesearchigrservice.maharashtra.gov.in/x.aspx"
        "2025-01-02T03:04:05.678Z" =
      [.writeDocument "documents/Alpha/document-auto-2025-01-02T03-04-05-678Z.pdf"] ∧
    recordPdfPath "Alpha" 0 "2025-01-02T03:04:05.678Z" =
      "documents/Alpha/document-1-2025-01-02T03-04-05-678Z.pdf" :=
  ⟨scrape_no_document, by decide, by decide, by decide⟩

/-- C25, as stated, fails.  On a page whose results view is never displayed again, each
call of the helper navigates back twice, and the loop still goes on to click the
second record. -/
theorem lost_results_view_counterexample :
    backToResultsPage lostRecord.after = [.goBack, .goBack] ∧
    lostRecord.before.onResults = .no ∧
    (scrapePropertyData (sampleResults ["r1", "r2"] (fun _ => lostRecord))).2 =
      [.readButtons, .goBack, .goBack, .clickRecord 0, .goBack, .goBack,
        .goBack, .goBack, .clickRecord 1, .goBack, .goBack,
        .readTable, .snapshot "search-results-table.png"] := by
  decide

theorem processRecords_back (records : Nat → RecordEnv) (before after : Nat → BackEnv)
    (n i : Nat) :
    (processRecords (fun k => { records k with before := before k, after := after k }) n i).2 =
        (processRecords records n i).2 ∧
      (processRecords (fun k => { records k with before := before k, after := after k })
          n i).1.filterMap Action.clickIndex =
        (processRecords records n i).1.filterMap Action.clickIndex := by
  induction n generalizing i with
  | zero => simp [processRecords]
  | succ n ih =>
    have hok : (processRecord i { records i with before := before i, after := after i }).2 =
        (processRecord i (records i)).2 := by
      unfold processRecord
      cases (records i).click <;> rfl
    obtain ⟨ih1, ih2⟩ := ih (i + 1)
    simp only [processRecords, hok]
    split
    · exact ⟨ih1, by simp [List.filterMap_append, clicks_processRecord, ih2]⟩
    · exact ⟨rfl, by simp [clicks_processRecord]⟩

theorem scrapeCatch_result (rp : ResultsPage) (acts acts' : List Action) :
    (scrapeCatch rp acts).1 = (scrapeCatch rp acts').1 := by
  unfold scrapeCatch
  split <;> rfl

theorem clicks_scrapeCatch (rp : ResultsPage) (acts : List Action) :
    (scrapeCatch rp acts).2.filterMap Action.clickIndex = acts.filterMap Action.clickIndex := by
  rcases scrapeCatch_actions rp acts with h | h <;> rw [h]
  simp [List.filterMap_append, Action.clickIndex]

/-- The clicks by index of an extraction are those of its loop. -/
theorem clicks_scrape (rp : ResultsPage) :
    (scrapePropertyData rp).2.filterMap Action.clickIndex =
      match rp.buttons with
      | none => []
      | some rows => (scrapeRecords rp rows).1.filterMap Action.clickIndex := by
  unfold scrapePropertyData
  split
  · rw [clicks_scrapeCatch]
    simp [Action.clickIndex]
  · dsimp only
    split
    · rw [clicks_scrapeCatch]
      simp [Action.clickIndex]
    · split
      · rw [clicks_scrapeCatch]
        simp [List.filterMap_append, Action.clickIndex]
      · split
        · simp [List.filterMap_append, Action.clickIndex]
        · rw [clicks_scrapeCatch]
          simp [List.filterMap_append, Action.clickIndex]
      · split
        · simp [List.filterMap_append, Action.clickIndex]
        · rw [clicks_scrapeCatch]
          simp [List.filterMap_append, Action.clickIndex]

theorem scrapeRecords_back (rp : ResultsPage) (before after : Nat → BackEnv)
    (rows : List String) :
    (scrapeRecords (rp.withBack before after) rows).2 = (scrapeRecords rp rows).2 ∧
      (scrapeRecords (rp.withBack before after) rows).1.filterMap Action.clickIndex =
        (scrapeRecords rp rows).1.filterMap Action.clickIndex := by
  unfold scrapeRecords
  split
  · exact processRecords_back rp.records before after rows.length 0
  · exact ⟨rfl, rfl⟩

/-- What the helper finds changes neither what the extraction returns nor which records
it clicks. -/
theorem scrape_back (rp : ResultsPage) (before after : Nat → BackEnv) :
    (scrapePropertyData (rp.withBack before after)).1 = (scrapePropertyData rp).1 ∧
      (scrapePropertyData (rp.withBack before after)).2.filterMap Action.clickIndex =
        (scrapePropertyData rp).2.filterMap Action.clickIndex := by
  constructor
  · unfold scrapePropertyData
    have hb : (rp.withBack before after).buttons = rp.buttons := rfl
    rw [hb]
    split
    · exact scrapeCatch_result _ _ _
    · rename_i rows _
      dsimp only
      rw [(scrapeRecords_back rp before after rows).1]
      have ht : (rp.withBack before after).table = rp.table := rfl
      have hs : (rp.withBack before after).resultShot = rp.resultShot := rfl
      have hc : ∀ a a', (scrapeCatch (rp.withBack before after) a).1 = (scrapeCatch rp a').1 :=
        fun a a' => by
          unfold scrapeCatch
          have he : (rp.withBack before after).errorShot = rp.errorShot := rfl
          have hr : (rp.withBack before after).retryShot = rp.retryShot := rfl
          have hx : (rp.withBack before after).errorText = rp.errorText := rfl
          rw [he, hr, hx]
          split <;> rfl
      rw [ht, hs]
      split
      · exact hc _ _
      · split
        · exact hc _ _
        · split
          · rfl
          · exact hc _ _
        · split
          · rfl
          · exact hc _ _
  · rw [clicks_scrape, clicks_scrape]
    have hb : (rp.withBack before after).buttons = rp.buttons := rfl
    rw [hb]
    split
    · rfl
    · exact (scrapeRecords_back rp before after _).2

/-- C25, amended.  The helper `backToResultsPage` navigates nowhere when its check finds
the results view, and nowhere when the check itself is rejected; when the check finds
the view missing it navigates back once, checks again, and navigates back a second
time only if that navigation resolved and the second check finds the view missing as
well.  It takes no other action, never more than two navigations, and it cannot throw
(it is a total function).  It reports nothing to the loop: what the extraction returns
and which records it clicks are the same whatever the helper finds in any of its
calls. -/
theorem back_to_results_navigation (e : BackEnv) (rp : ResultsPage)
    (before after : Nat → BackEnv) :
    (e.onResults = .yes → backToResultsPage e = []) ∧
    (e.onResults = .throws → backToResultsPage e = []) ∧
    (e.onResults = .no →
      (backToResultsPage e = [.goBack, .goBack] ↔
        (e.firstBack = true ∧ e.backOnResults = .no)) ∧
      (backToResultsPage e = [.goBack] ↔ ¬(e.firstBack = true ∧ e.backOnResults = .no))) ∧
    (∀ a ∈ backToResultsPage e, a = .goBack) ∧ (backToResultsPage e).length ≤ 2 ∧
    (scrapePropertyData (rp.withBack before after)).1 = (scrapePropertyData rp).1 ∧
    (scrapePropertyData (rp.withBack before after)).2.filterMap Action.clickIndex =
      (scrapePropertyData rp).2.filterMap Action.clickIndex := by
  refine ⟨?_, ?_, ?_, backToResultsPage_goBack e, backToResultsPage_length e,
    (scrape_back rp before after).1, (scrape_back rp before after).2⟩
  · intro h
    simp [backToResultsPage, h]
  · intro h
    simp [backToResultsPage, h]
  · intro h
    unfold backToResultsPage
    cases hf : e.firstBack <;> cases hr : e.backOnResults <;> simp [h]

theorem back_to_results_navigation_witness :
    backToResultsPage lostRecord.before = [.goBack, .goBack] ∧
    backToResultsPage ⟨.throws, true, .no⟩ = [] ∧
    (scrapePropertyData
      ((sampleResults ["r1", "r2"] (fun _ => plainRecord .clicked)).withBack
        (fun _ => lostRecord.before) (fun _ => lostRecord.after))).1 =
      (scrapePropertyData (sampleResults ["r1", "r2"] (fun _ => plainRecord .clicked))).1 :=
  ⟨((back_to_results_navigation lostRecord.before
      (sampleResults ["r1", "r2"] (fun _ => plainRecord .clicked))
      (fun _ => lostRecord.before) (fun _ => lostRecord.after)).2.2.1 rfl).1.mpr
      ⟨rfl, rfl⟩,
   (back_to_results_navigation ⟨.throws, true, .no⟩
      (sampleResults ["r1", "r2"] (fun _ => plainRecord .clicked))
      (fun _ => lostRecord.before) (fun _ => lostRecord.after)).2.1 rfl,
   (back_to_results_navigation lostRecord.before
      (sampleResults ["r1", "r2"] (fun _ => plainRecord .clicked))
      (fun _ => lostRecord.before) (fun _ => lostRecord.after)).2.2.2.2.2.1⟩

/-! ## Claims on the CAPTCHA submission -/

/-- The method `session.submitCaptcha` on a results view, spelled out. -/
theorem submitCaptchaOn_eq (pg : CaptchaPage) (rp : ResultsPage) :
    submitCaptchaOn pg rp =
      if !pg.inputPresent then
        ({ success := false, captchaRequired := true, propertyData := none,
           message := "Error processing CAPTCHA: " ++ pg.errorText, browserKeptOpen := true }, [])
      else if !pg.searchButton then
        ({ success := false, captchaRequired := true, propertyData := none,
           message := "Error processing CAPTCHA: " ++ pg.errorText, browserKeptOpen := true }, [])
      else if invalidCaptcha pg then
        ({ success := false, captchaRequired := true, propertyData := none,
           message := "Invalid CAPTCHA. Please try again.", browserKeptOpen := true },
         [.submitChallenge, .acquireChallenge])
      else
        match (scrapePropertyData rp).1 with
        | none =>
          ({ success := false, captchaRequired := true, propertyData := none,
             message := "Error processing CAPTCHA: " ++ pg.errorText, browserKeptOpen := true },
           [.submitChallenge, .extractRecords])
        | some d =>
          ({ success := true, captchaRequired := false, propertyData := some d,
             message := "Search completed successfully", browserKeptOpen := true },
           [.submitChallenge, .extractRecords]) := rfl

/-- When the input and a search button exist and the error indicator element is
present with a text that contains `invalid` or `CAPTCHA`, `session.submitCaptcha` runs
`downloadCaptchaImage` after the submission, which is all that is written to
`current-captcha.png`, runs no extraction and returns `success = false` with
`captchaRequired = true`, whatever the results view holds. -/
theorem invalid_captcha_is_rejected (pg : CaptchaPage) (t : String)
    (hi : pg.inputPresent = true) (hb : pg.searchButton = true)
    (he : pg.errorIndicator = some t)
    (hm : jsIncludes t "invalid" = true ∨ jsIncludes t "CAPTCHA" = true) :
    (submitCaptcha pg).1.success = false ∧ (submitCaptcha pg).1.captchaRequired = true ∧
    (submitCaptcha pg).1.propertyData = none ∧
    (submitCaptcha pg).2 = [.submitChallenge, .acquireChallenge] ∧
    Step.extractRecords ∉ (submitCaptcha pg).2 ∧
    (∀ rp, submitCaptchaOn pg rp = submitCaptcha pg) ∧
    (∀ c, challengeWrites pg c = (downloadCaptchaImage c).2) ∧
    (∀ c, c.element = true → c.screenshotOk = true → challengeWrites pg c = [.screenshot]) := by
  have hinv : invalidCaptcha pg = true := by
    simp only [invalidCaptcha, he, Bool.or_eq_true]
    exact hm
  have hsteps : (submitCaptcha pg).2 = [.submitChallenge, .acquireChallenge] := by
    simp [submitCaptcha, hi, hb, hinv]
  have hwrites : ∀ c, challengeWrites pg c = (downloadCaptchaImage c).2 := by
    intro c
    simp [challengeWrites, hsteps]
  refine ⟨?_, ?_, ?_, hsteps, ?_, fun rp => ?_, hwrites, fun c h1 h2 => ?_⟩
  · simp [submitCaptcha, hi, hb, hinv]
  · simp [submitCaptcha, hi, hb, hinv]
  · simp [submitCaptcha, hi, hb, hinv]
  · simp [hsteps]
  · rw [submitCaptchaOn_eq]
    simp [submitCaptcha, hi, hb, hinv]
  · rw [hwrites]
    simp [downloadCaptchaImage, h1, h2]

/-- C13.  With the error indicator showing `Invalid Captcha entered`, a text that
mentions both the invalidity and the CAPTCHA, the case-sensitive test of
`session.submitCaptcha` finds neither `invalid` nor `CAPTCHA`: the attempt is treated
as accepted, nothing is re-acquired, extraction runs and the reply is
`success = true`.  With `invalid CAPTCHA` in the indicator the attempt is rejected and
the challenge image is written anew. -/
theorem invalid_text_not_recognised :
    invalidCaptcha { scrapedPage with errorIndicator := some "Invalid Captcha entered" } =
      false ∧
    submitCaptcha { scrapedPage with errorIndicator := some "Invalid Captcha entered" } =
      ({ success := true, captchaRequired := false,
         propertyData := some (.scraped [] [] [⟨"search-results-table.png", "results_table"⟩]),
         message := "Search completed successfully", browserKeptOpen := true },
       [.submitChallenge, .extractRecords]) ∧
    challengeWrites { scrapedPage with errorIndicator := some "Invalid Captcha entered" }
      (sampleChallenge true) = [] ∧
    submitCaptcha { scrapedPage with errorIndicator := some "invalid CAPTCHA" } =
      ({ success := false, captchaRequired := true, propertyData := none,
         message := "Invalid CAPTCHA. Please try again.", browserKeptOpen := true },
       [.submitChallenge, .acquireChallenge]) ∧
    challengeWrites { scrapedPage with errorIndicator := some "invalid CAPTCHA" }
      (sampleChallenge true) = [.screenshot] := by
  decide

/-- C14, as stated, fails.  No error indicator is detected after the submission, the
lookup of the IndexII buttons is rejected and so are the screenshots of both `catch`
blocks of `scrapePropertyData`: the exception reaches `submitCaptcha`, which returns
`success = false` with `captchaRequired = true`. -/
theorem accepted_counterexample :
    invalidCaptcha acceptedPage = false ∧
    (submitCaptchaOn acceptedPage
        { sampleResults [] (fun _ => plainRecord .clicked) with
          buttons := none, errorShot := false, retryShot := false }).1 =
      { success := false, captchaRequired := true, propertyData := none,
        message := "Error processing CAPTCHA: Target closed", browserKeptOpen := true } := by
  decide

/-- C14, amended.  When no error indicator is detected after a submission,
`session.submitCaptcha` returns `success = true` together with whatever
`scrapePropertyData` returns, be it the scraped data or its error object; that function
returns whenever one of the screenshots of its `catch` blocks can be taken.  Only when
it throws is the reply `success = false` with `captchaRequired = true`. -/
theorem accepted_unless_scrape_throws (pg : CaptchaPage) (rp : ResultsPage)
    (hi : pg.inputPresent = true) (hb : pg.searchButton = true)
    (hv : invalidCaptcha pg = false) :
    (∀ d, (scrapePropertyData rp).1 = some d →
      (submitCaptchaOn pg rp).1 =
        { success := true, captchaRequired := false, propertyData := some d,
          message := "Search completed successfully", browserKeptOpen := true }) ∧
    ((scrapePropertyData rp).1 = none →
      (submitCaptchaOn pg rp).1.success = false ∧
        (submitCaptchaOn pg rp).1.captchaRequired = true) ∧
    ((rp.errorShot = true ∨ rp.retryShot = true) → ∃ d, (scrapePropertyData rp).1 = some d) := by
  refine ⟨fun d hd => ?_, fun hd => ?_, fun hshot => ?_⟩
  · rw [submitCaptchaOn_eq]
    simp [hi, hb, hv, hd]
  · rw [submitCaptchaOn_eq]
    simp [hi, hb, hv, hd]
  · have hcatch : ∀ acts, ∃ d, (scrapeCatch rp acts).1 = some d := by
      intro acts
      have : (rp.errorShot || rp.retryShot) = true := by
        rcases hshot with h | h <;> simp [h]
      exact ⟨.failed rp.errorText "property-data-error.png", by simp [scrapeCatch, this]⟩
    unfold scrapePropertyData
    split
    · exact hcatch _
    · dsimp only
      split
      · exact hcatch _
      · split
        · exact hcatch _
        · split
          · exact ⟨_, rfl⟩
          · exact hcatch _
        · split
          · exact ⟨_, rfl⟩
          · exact hcatch _

theorem accepted_unless_scrape_throws_witness :
    (∀ d, (scrapePropertyData (sampleResults ["r1"] (fun _ => plainRecord .clicked))).1 =
        some d →
      (submitCaptchaOn acceptedPage (sampleResults ["r1"] (fun _ => plainRecord .clicked))).1 =
        { success := true, captchaRequired := false, propertyData := some d,
          message := "Search completed successfully", browserKeptOpen := true }) ∧
    ((sampleResults ["r1"] (fun _ => plainRecord .clicked)).errorShot = true ∨
        (sampleResults ["r1"] (fun _ => plainRecord .clicked)).retryShot = true) ∧
    ∃ d, (scrapePropertyData (sampleResults ["r1"] (fun _ => plainRecord .clicked))).1 =
      some d :=
  ⟨(accepted_unless_scrape_throws acceptedPage
      (sampleResults ["r1"] (fun _ => plainRecord .clicked)) rfl rfl rfl).1,
   Or.inl rfl,
   (accepted_unless_scrape_throws acceptedPage
      (sampleResults ["r1"] (fun _ => plainRecord .clicked)) rfl rfl rfl).2.2 (Or.inl rfl)⟩

/-- C15, as stated, fails.  When the input `#txtImg1` is missing, `submitCaptcha` returns
`success = false` with `captchaRequired = true` without acquiring anything; and when
the CAPTCHA is rejected but the image element is not found, `downloadCaptchaImage`
returns `false`, which nobody reads, and the file is left as it was. -/
theorem stale_challenge_counterexample :
    (submitCaptcha { acceptedPage with inputPresent := false }).1.success = false ∧
    (submitCaptcha { acceptedPage with inputPresent := false }).1.captchaRequired = true ∧
    (submitCaptcha { acceptedPage with inputPresent := false }).2 = [] ∧
    challengeWrites { acceptedPage with inputPresent := false } (sampleChallenge true) = [] ∧
    (submitCaptcha { acceptedPage with errorIndicator := some "invalid" }).1.captchaRequired =
      true ∧
    challengeWrites { acceptedPage with errorIndicator := some "invalid" }
      { sampleChallenge true with element := false } = [] := by
  decide

/-- C15, amended.  A reply of `session.submitCaptcha` with `success = false` carries
`captchaRequired = true` and is either the rejection, in which case `downloadCaptchaImage`
was run after the submission and has overwritten `current-captcha.png` with a
screenshot of the image element provided the element was found and the screenshot and
the write succeeded, or the error reply, which is returned without any acquisition. -/
theorem retry_reply_acquisition (pg : CaptchaPage) (c : ChallengeEnv)
    (hs : (submitCaptcha pg).1.success = false) :
    (submitCaptcha pg).1.captchaRequired = true ∧
    (((submitCaptcha pg).1.message = "Invalid CAPTCHA. Please try again." ∧
      (submitCaptcha pg).2 = [.submitChallenge, .acquireChallenge] ∧
      challengeWrites pg c = (downloadCaptchaImage c).2 ∧
      (c.element = true → c.screenshotOk = true → challengeWrites pg c = [.screenshot]) ∧
      ((c.element = false ∨ c.screenshotOk = false) → challengeWrites pg c = [])) ∨
    ((submitCaptcha pg).1.message = "Error processing CAPTCHA: " ++ pg.errorText ∧
      Step.acquireChallenge ∉ (submitCaptcha pg).2 ∧ challengeWrites pg c = [])) := by
  unfold challengeWrites
  unfold submitCaptcha at hs ⊢
  cases hi : pg.inputPresent <;> cases hb : pg.searchButton <;>
    cases hv : invalidCaptcha pg <;> cases hd : pg.scraped <;>
    simp [hi, hb, hv, hd] at hs ⊢
  all_goals
    refine ⟨fun h1 h2 => by simp [downloadCaptchaImage, h1, h2], fun h => ?_⟩
    rcases h with h | h <;> cases he : c.element <;> simp_all [downloadCaptchaImage]

theorem retry_reply_acquisition_witness :
    (submitCaptcha { acceptedPage with errorIndicator := some "invalid" }).1.captchaRequired =
      true ∧
    (((submitCaptcha { acceptedPage with errorIndicator := some "invalid" }).1.message =
        "Invalid CAPTCHA. Please try again." ∧
      (submitCaptcha { acceptedPage with errorIndicator := some "invalid" }).2 =
        [.submitChallenge, .acquireChallenge] ∧
      challengeWrites { acceptedPage with errorIndicator := some "invalid" }
          (sampleChallenge true) = (downloadCaptchaImage (sampleChallenge true)).2 ∧
      ((sampleChallenge true).element = true → (sampleChallenge true).screenshotOk = true →
        challengeWrites { acceptedPage with errorIndicator := some "invalid" }
          (sampleChallenge true) = [.screenshot]) ∧
      (((sampleChallenge true).element = false ∨ (sampleChallenge true).screenshotOk = false) →
        challengeWrites { acceptedPage with errorIndicator := some "invalid" }
          (sampleChallenge true) = [])) ∨
    ((submitCaptcha { acceptedPage with errorIndicator := some "invalid" }).1.message =
        "Error processing CAPTCHA: " ++
          ({ acceptedPage with errorIndicator := some "invalid" } : CaptchaPage).errorText ∧
      Step.acquireChallenge ∉
        (submitCaptcha { acceptedPage with errorIndicator := some "invalid" }).2 ∧
      challengeWrites { acceptedPage with errorIndicator := some "invalid" }
        (sampleChallenge true) = [])) :=
  retry_reply_acquisition { acceptedPage with errorIndicator := some "invalid" }
    (sampleChallenge true) (by decide)

/-- The module-level `handleCaptcha(page, browser)`, which nothing calls: with an image
source that carries `txt=` and a temporary page that loads without delivering the
image bytes it returns `true` and has written nothing; a fetch that throws, or a
source without `txt=`, falls back to the screenshot. -/
theorem handleCaptcha_true_without_write :
    handleCaptcha (sampleChallenge false) = (true, []) ∧
    handleCaptcha (sampleChallenge true) = (true, [.fetched]) ∧
    handleCaptcha { sampleChallenge false with gotoOk := false } = (true, [.screenshot]) ∧
    handleCaptcha { sampleChallenge false with src := "about:blank" } =
      (true, [.screenshot]) := by
  decide

/-- The function that the call `handleCaptcha(page, browser)` binds to makes the writes
of the module-level function and returns `false` on every path. -/
theorem handleCaptchaBlock_eq (c : ChallengeEnv) :
    handleCaptchaBlock c = (false, (handleCaptcha c).2) := by
  unfold handleCaptchaBlock handleCaptcha
  cases c.element <;> cases jsIncludes c.src "txt=" <;> cases c.screenshotOk <;>
    cases c.tempPage <;> cases c.gotoOk <;> cases c.imageBuffer <;> cases c.closeOk <;> rfl

/-- C16.  The call `handleCaptcha(page, browser)` of `automateForm` never returns
`true`: when the image bytes are fetched it writes them and returns `false`.  When the
temporary page loads without delivering the bytes it writes nothing, takes no
screenshot either, and `automateForm` still hands off with `captchaRequired = true`;
only a fetch that throws, or a source without `txt=`, leads to the screenshot. -/
theorem handleCaptcha_call_never_true :
    (∀ c, (handleCaptchaBlock c).1 = false) ∧
    handleCaptchaBlock (sampleChallenge true) = (false, [.fetched]) ∧
    handleCaptchaBlock (sampleChallenge false) = (false, []) ∧
    handleCaptchaBlock { sampleChallenge false with gotoOk := false } =
      (false, [.screenshot]) ∧
    handleCaptchaBlock { sampleChallenge false with src := "about:blank" } =
      (false, [.screenshot]) ∧
    (automateForm asciiLower (fullSearch "1" "5")
        (samplePortal sampleTalukas sampleVillages)).map
      (fun st => (st.result.captchaRequired, st.trace.getLast?)) =
      some (true, some .acquireChallenge) :=
  ⟨fun c => by rw [handleCaptchaBlock_eq], by decide, by decide, by decide, by decide,
    by decide⟩

/-- C17, as stated, fails.  The CAPTCHA is accepted and no IndexII button is found, but
the page holds an `#indexII` element whose click is rejected: `scrapePropertyData`
returns its error object, and `session.submitCaptcha` passes it on with
`success = true`; the reply carries no `indexButtons`, `details` or `screenshots`. -/
theorem zero_records_counterexample :
    (submitCaptchaOn acceptedPage
        { sampleResults [] (fun _ => plainRecord .clicked) with
          indexInput := .yes, indexInputClick := false }) =
      ({ success := true, captchaRequired := false,
         propertyData :=
           some (.failed "Execution context was destroyed" "property-data-error.png"),
         message := "Search completed successfully", browserKeptOpen := true },
       [.submitChallenge, .extractRecords]) := by
  decide

/-- C17, amended.  When the CAPTCHA is accepted, no IndexII button is found, the page
holds no `#indexII` element or the click on it succeeds, and the table lookup and the
screenshot of the results resolve, `session.submitCaptcha` returns `success = true`
with `indexButtons = []`, `details = []` and exactly one screenshot entry, of type
`results_table` or `error`. -/
theorem zero_records_reply (pg : CaptchaPage) (rp : ResultsPage)
    (hi : pg.inputPresent = true) (hb : pg.searchButton = true)
    (hv : invalidCaptcha pg = false) (hz : rp.buttons = some [])
    (hx : rp.indexInput = .no ∨ (rp.indexInput = .yes ∧ rp.indexInputClick = true))
    (ht : rp.table ≠ .throws) (hs : rp.resultShot = true) :
    ∃ shot, (submitCaptchaOn pg rp).1.success = true ∧
      (submitCaptchaOn pg rp).1.propertyData = some (.scraped [] [] [shot]) ∧
      (shot.kind = "results_table" ∨ shot.kind = "error") ∧
      Step.extractRecords ∈ (submitCaptchaOn pg rp).2 := by
  have hloop : (scrapeRecords rp []).2 = true := by
    rcases hx with h | ⟨h, h'⟩
    · simp [scrapeRecords, h]
    · simp [scrapeRecords, h, h']
  cases htab : rp.table with
  | throws => exact absurd htab ht
  | yes =>
    refine ⟨⟨"search-results-table.png", "results_table"⟩, ?_⟩
    rw [submitCaptchaOn_eq]
    simp [hi, hb, hv, scrapePropertyData, hz, hloop, htab, hs, indexButtonsFrom]
  | no =>
    refine ⟨⟨"search-results-error.png", "error"⟩, ?_⟩
    rw [submitCaptchaOn_eq]
    simp [hi, hb, hv, scrapePropertyData, hz, hloop, htab, hs, indexButtonsFrom]

theorem zero_records_reply_witness :
    ∃ shot,
      (submitCaptchaOn acceptedPage (sampleResults [] (fun _ => plainRecord .clicked))
        ).1.success = true ∧
      (submitCaptchaOn acceptedPage (sampleResults [] (fun _ => plainRecord .clicked))
        ).1.propertyData = some (.scraped [] [] [shot]) ∧
      (shot.kind = "results_table" ∨ shot.kind = "error") ∧
      Step.extractRecords ∈
        (submitCaptchaOn acceptedPage (sampleResults [] (fun _ => plainRecord .clicked))).2 :=
  zero_records_reply acceptedPage (sampleResults [] (fun _ => plainRecord .clicked))
    rfl rfl rfl rfl (Or.inl rfl) (by decide) rfl

/-- The retry loop of `automateForm` (automate.js 953-1010), which no run reaches: it
looks the buttons up at most three times, stops at the first lookup that finds one,
and after three empty lookups has taken its snapshot and leaves an empty list. -/
theorem pollIndexButtons_bounded (found : Nat → List String) :
    (pollIndexButtons found).2.count .readButtons ≤ 3 ∧
    (∀ k, k < 3 → (∀ j, j < k → found j = []) → found k ≠ [] →
      (pollIndexButtons found).1 = found k ∧
        (pollIndexButtons found).2.count .readButtons = k + 1) ∧
    ((∀ j, j < 3 → found j = []) →
      (pollIndexButtons found).1 = [] ∧
        (pollIndexButtons found).2.count .readButtons = 3 ∧
        Action.snapshot "before-final-indexii-check.png" ∈ (pollIndexButtons found).2) := by
  refine ⟨?_, ?_, ?_⟩
  · simp only [pollIndexButtons, pollLoop]
    split_ifs <;> simp
  · intro k hk hbefore hfound
    have hpos : 0 < (found k).length := List.length_pos.mpr hfound
    have h0 : ∀ j, j < k → ¬ 0 < (found j).length := by
      intro j hj
      simp [hbefore j hj]
    interval_cases k
    · simp [pollIndexButtons, pollLoop, hpos]
    · simp [pollIndexButtons, pollLoop, hpos, h0 0 (by omega)]
    · simp [pollIndexButtons, pollLoop, hpos, h0 0 (by omega), h0 1 (by omega)]
  · intro hall
    simp [pollIndexButtons, pollLoop, hall 0 (by omega), hall 1 (by omega), hall 2 (by omega)]

/-- C24, as stated, fails.  The lookup finds no button, the page holds an `#indexII`
element and the click on it is rejected: the extraction returns its error object, not
an empty record list, after a single lookup. -/
theorem empty_lookup_counterexample :
    scrapePropertyData
        { sampleResults [] (fun _ => plainRecord .clicked) with
          indexInput := .yes, indexInputClick := false } =
      (some (.failed "Execution context was destroyed" "property-data-error.png"),
        [.readButtons, .clickIndexInput, .snapshot "property-data-error.png"]) := by
  decide

/-- C24, amended.  No run of `automateForm` looks the record actions up, so its retry
loop is never entered; `scrapePropertyData` looks them up exactly once.  When that
lookup finds none, the page holds no `#indexII` element or the click on it succeeds,
and the table lookup and the screenshot of the results resolve, it returns the data
object with an empty record list and one snapshot, which it has taken; when the test
for `#indexII` or the click on it is rejected it returns no data object. -/
theorem record_lookup_runs_once (lower : String → String) (fd : FormData) (p : Portal)
    (rp : ResultsPage) :
    (∀ st, automateForm lower fd p = some st → Step.extractRecords ∉ st.trace) ∧
    (scrapePropertyData rp).2.count .readButtons = 1 ∧
    (rp.buttons = some [] →
      (rp.indexInput = .no ∨ (rp.indexInput = .yes ∧ rp.indexInputClick = true)) →
      rp.table ≠ .throws → rp.resultShot = true →
      ∃ shot, (scrapePropertyData rp).1 = some (.scraped [] [] [shot]) ∧
        Action.snapshot shot.path ∈ (scrapePropertyData rp).2) ∧
    (rp.buttons = some [] →
      (rp.indexInput = .throws ∨ (rp.indexInput = .yes ∧ rp.indexInputClick = false)) →
      ∀ entries details shots,
        (scrapePropertyData rp).1 ≠ some (.scraped entries details shots)) := by
  refine ⟨fun st h hmem => ?_, scrape_reads_buttons_once rp, ?_, ?_⟩
  · obtain ⟨n, hn, _⟩ := automateForm_reached lower fd p st h
    have := hn.mem_fullPath hmem rfl
    exact absurd ((List.take_prefix n fullPath).subset this) (by decide)
  · intro hz hx ht hs
    have hloop : scrapeRecords rp [] = ([], true) ∨
        scrapeRecords rp [] = ([.clickIndexInput], true) := by
      rcases hx with h | ⟨h, h'⟩
      · exact Or.inl (by simp [scrapeRecords, h])
      · exact Or.inr (by simp [scrapeRecords, h, h'])
    cases htab : rp.table with
    | throws => exact absurd htab ht
    | yes =>
      refine ⟨⟨"search-results-table.png", "results_table"⟩, ?_⟩
      rcases hloop with h | h <;> simp [scrapePropertyData, hz, h, htab, hs, indexButtonsFrom]
    | no =>
      refine ⟨⟨"search-results-error.png", "error"⟩, ?_⟩
      rcases hloop with h | h <;> simp [scrapePropertyData, hz, h, htab, hs, indexButtonsFrom]
  · intro hz hx entries details shots
    have hloop : (scrapeRecords rp []).2 = false := by
      rcases hx with h | ⟨h, h'⟩
      · simp [scrapeRecords, h]
      · simp [scrapeRecords, h, h']
    simp only [scrapePropertyData, hz, hloop, Bool.not_false, if_true]
    unfold scrapeCatch
    split <;> simp

theorem record_lookup_runs_once_witness :
    (∃ shot,
      (scrapePropertyData (sampleResults [] (fun _ => plainRecord .clicked))).1 =
        some (.scraped [] [] [shot]) ∧
      Action.snapshot shot.path ∈
        (scrapePropertyData (sampleResults [] (fun _ => plainRecord .clicked))).2) ∧
    Step.extractRecords ∉ sampleHandOff.trace :=
  ⟨(record_lookup_runs_once asciiLower (fullSearch "1" "5")
      (samplePortal sampleTalukas sampleVillages)
      (sampleResults [] (fun _ => plainRecord .clicked))).2.2.1 rfl (Or.inl rfl)
      (by decide) rfl,
   (record_lookup_runs_once asciiLower (fullSearch "1" "5")
      (samplePortal sampleTalukas sampleVillages)
      (sampleResults [] (fun _ => plainRecord .clicked))).1 sampleHandOff (by decide)⟩

/-! ## The browser of a run -/

theorem returnOptions_trace (k : Bool) (m : String) (s : St) :
    (returnOptions k m s).trace = if k then s.trace else s.trace ++ [.closeBrowser] := by
  unfold returnOptions
  rw [closeOrKeep_trace]

theorem terminalPath_trace (p : Portal) (s : St) :
    (terminalPath p s).trace = s.trace ++ [.acquireChallenge] := by
  simp [terminalPath, handleCaptchaInner]

theorem captchaHandOff_open (fd : FormData) (p : Portal) (s : St)
    (h : Step.closeBrowser ∉ s.trace) : Step.closeBrowser ∉ (captchaHandOff fd p s).trace := by
  unfold captchaHandOff
  split
  · simpa using h
  · split
    · simpa using h
    · split
      · simpa using h
      · split
        · dsimp only
          split
          · simpa using h
          · simpa [handleCaptchaInner] using h
        · rw [terminalPath_trace]
          simpa using h

theorem villageChoice_open (lower : String → String) (fd : FormData) (p : Portal) (s : St)
    (h : Step.closeBrowser ∉ s.trace) :
    Step.closeBrowser ∉ (villageChoice lower fd p s).trace := by
  unfold villageChoice
  split
  · simpa using h
  · exact captchaHandOff_open fd p _ (by simpa using h)

theorem villageLevel_open (lower : String → String) (fd : FormData) (p : Portal) (s : St)
    (hk : fd.keepBrowserOpen = true) (h : Step.closeBrowser ∉ s.trace) :
    Step.closeBrowser ∉ (villageLevel lower fd p s).trace := by
  unfold villageLevel
  dsimp only
  split
  · rw [returnOptions_trace, hk]
    simpa using h
  · exact villageChoice_open lower fd p _ (by simpa using h)

theorem talukaLevel_open (lower : String → String) (fd : FormData) (p : Portal) (s : St)
    (hk : fd.keepBrowserOpen = true) (h : Step.closeBrowser ∉ s.trace) :
    Step.closeBrowser ∉ (talukaLevel lower fd p s).trace := by
  unfold talukaLevel
  dsimp only
  split
  · simpa using h
  · split
    · split
      · simpa using h
      · exact villageLevel_open lower fd p _ hk (by simpa using h)
    · exact villageLevel_open lower fd p _ hk (by simpa using h)

theorem innerTry_open (lower : String → String) (fd : FormData) (p : Portal) (s : St)
    (hk : fd.keepBrowserOpen = true) (h : Step.closeBrowser ∉ s.trace) :
    Step.closeBrowser ∉ (innerTry lower fd p s).trace := by
  unfold innerTry
  dsimp only
  split
  · simpa using h
  · split
    · simpa using h
    · split
      · rw [returnOptions_trace, hk]
        simpa using h
      · split
        · simpa using h
        · split
          · rw [returnOptions_trace, hk]
            simpa using h
          · exact talukaLevel_open lower fd p _ hk (by simpa using h)

/-- A run with `keepBrowserOpen = true` never closes its browser and says so in
`browserKeptOpen`; a run with `keepBrowserOpen = false` ends by closing it. -/
theorem automateForm_browser (lower : String → String) (fd : FormData) (p : Portal) (st : St)
    (h : automateForm lower fd p = some st) :
    (fd.keepBrowserOpen = true →
      Step.closeBrowser ∉ st.trace ∧ st.result.browserKeptOpen = true) ∧
    (fd.keepBrowserOpen = false → st.trace.getLast? = some .closeBrowser) := by
  unfold automateForm at h
  split at h
  · exact Option.noConfusion h
  · simp only [Option.some.injEq] at h
    subst h
    constructor
    · intro hk
      rw [closeOrKeep_trace, hk]
      refine ⟨?_, by simp [closeOrKeep]⟩
      simp only [if_true]
      split
      · simp [outerCatch]
      · exact innerTry_open lower fd p _ hk (by simp)
    · intro hk
      rw [closeOrKeep_trace, hk]
      simp

/-! ## Claims on empty dropdowns and on the browser of a session -/

/-- C23, as stated, fails.  With a district selected and a taluka dropdown that holds
the placeholder only, the wait for the dropdown times out and `automateForm` returns
`success = false` with the message of the inner `catch`. -/
theorem empty_taluka_counterexample :
    (automateForm asciiLower districtOnly (samplePortal emptyTalukas sampleVillages)).map
      (fun st => (st.result.success, st.result.message, st.result.talukas)) =
      some (false, "Error: timeout", []) := by
  decide

/-- C23, amended.  A taluka dropdown with fewer than two options after a district was
selected makes `automateForm` return `success = false` with no talukas.  A run that
gets as far as enumerating the villages, with the village or the property number
withheld, returns `success = true`, and its village list is empty when the dropdown
holds no option other than the placeholder. -/
theorem empty_dependent_dropdown (lower : String → String) (fd : FormData) (p : Portal)
    (st : St) (h : automateForm lower fd p = some st) :
    (fd.district ≠ "" → p.formLoads = true → p.year.options ≠ [] →
      p.district.populated = true → p.tahsil.select.options.length ≤ 1 →
      st.result.success = false ∧ st.result.talukas = []) ∧
    (Step.enumerate .village ∈ st.trace → (fd.village = "" ∨ fd.propertyNo = "") →
      st.result.success = true ∧
      ((∀ o ∈ p.village.options, jsTrim o.value = villagePlaceholder) →
        st.result.villages = [])) := by
  constructor
  · intro hd hf hy hdist hlen
    have hy' : ¬p.year.options.length = 0 := fun h0 => hy (List.length_eq_zero.mp h0)
    have hpop : p.tahsil.populated = false := by
      have : ¬ 1 < p.tahsil.select.options.length := by omega
      simp [Dropdown.populated, this]
    unfold automateForm at h
    split at h
    · exact Option.noConfusion h
    · simp only [Option.some.injEq] at h
      subst h
      simp only [hf, Bool.not_true, Bool.false_eq_true, if_false, innerTry, hy', hdist, hd,
        hpop, Bool.not_false, if_true]
      rw [(closeOrKeep_result _ _).1, (closeOrKeep_result _ _).2.2.1]
      unfold innerCatch
      split <;> simp [St.log, Result.initial]
  · intro hmem hwith
    obtain ⟨n, hn, hfacts⟩ := automateForm_reached lower fd p st h
    have h10 : 10 < n := hn.le_of_mem hmem rfl (by decide)
    have h11 : n = 11 := by
      by_contra hne
      have hv := hfacts.2.2.1 (by omega)
      rcases hwith with hw | hw
      · exact hv.1 hw
      · exact hv.2 hw
    obtain ⟨hs, hvil⟩ := hfacts.2.2.2.2.2.1 h11
    refine ⟨hs, fun hall => ?_⟩
    rw [hvil]
    simp only [resultVillages, villageOptions, List.filter_eq_nil_iff, List.mem_map]
    rintro v ⟨o, ho, rfl⟩
    simp [hall o ho]

theorem empty_dependent_dropdown_witness :
    automateForm asciiLower talukaOnly (samplePortal sampleTalukas emptyVillages) =
      some sampleVillageListing ∧
    Step.enumerate .village ∈ sampleVillageListing.trace ∧
    (talukaOnly.village = "" ∨ talukaOnly.propertyNo = "") ∧
    sampleVillageListing.result.success = true ∧
    ((∀ o ∈ (samplePortal sampleTalukas emptyVillages).village.options,
        jsTrim o.value = villagePlaceholder) →
      sampleVillageListing.result.villages = []) :=
  ⟨by decide, by decide, Or.inl rfl,
    (empty_dependent_dropdown asciiLower talukaOnly (samplePortal sampleTalukas emptyVillages)
      sampleVillageListing (by decide)).2 (by decide) (Or.inl rfl)⟩

/-- C26.  Called with `keepBrowserOpen = false` and a full search, `automateForm`
returns `captchaRequired = true` with the session, and the last thing it did was to
close that session's browser. -/
theorem session_with_closed_browser :
    (automateForm asciiLower { fullSearch "1" "5" with keepBrowserOpen := false }
        (samplePortal sampleTalukas sampleVillages)).map
      (fun st => (st.result.captchaRequired, st.result.session, st.trace.getLast?,
        st.result.browserKeptOpen)) =
      some (true, true, some .closeBrowser, false) := by
  decide

/-! ## Claims on the session endpoints -/

theorem cancelActive_live (srv : Server) (h : ServerInv srv) :
    (∀ b ∈ srv.cancelActive.live, b ∈ srv.live) ∧
    (∀ b ∈ srv.cancelActive.live, b ∉ srv.sessions) ∧
    (∀ a, srv.activeSession = some a → a ∉ srv.cancelActive.live) := by
  obtain ⟨_, _, _, h4⟩ := h
  unfold Server.cancelActive
  cases ha : srv.activeSession with
  | none =>
    refine ⟨fun b hb => hb, fun b hb hs => ?_, fun a h' => Option.noConfusion h'⟩
    have := h4 b hb hs
    rw [ha] at this
    exact Option.noConfusion this
  | some a =>
    refine ⟨fun b hb => (List.mem_filter.mp hb).1, fun b hb hs => ?_, fun a' h' => ?_⟩
    · obtain ⟨hb1, hb2⟩ := List.mem_filter.mp hb
      have := h4 b hb1 hs
      rw [ha] at this
      have hba : a = b := Option.some.inj this
      subst hba
      simp at hb2
    · cases h'
      simp

theorem afterRun_live (srv : Server) (st : St) :
    ∀ b ∈ (srv.afterRun st).live, b ∈ srv.live ∨ b = srv.launched := by
  intro b hb
  unfold Server.afterRun at hb
  dsimp only at hb
  split at hb
  · exact Or.inl hb
  · rcases List.mem_append.mp hb with h | h
    · exact Or.inl h
    · exact Or.inr (by simpa using h)

theorem handleSearch_inv (lower : String → String) (srv : Server) (fd : FormData) (p : Portal)
    (h : ServerInv srv) : ServerInv (handleSearch lower srv fd p).1 := by
  obtain ⟨hc1, hc2, hc3⟩ := cancelActive_live srv h
  obtain ⟨h1, h2, h3, h4⟩ := h
  have hl : srv.cancelActive.launched = srv.launched := by
    unfold Server.cancelActive
    split <;> rfl
  have hs : srv.cancelActive.sessions = srv.sessions := by
    unfold Server.cancelActive
    split <;> rfl
  have ha : srv.cancelActive.activeSession = srv.activeSession := by
    unfold Server.cancelActive
    split
    · rfl
    · rename_i a heq
      exact heq.symm ▸ rfl
  unfold handleSearch
  dsimp only
  split
  · refine ⟨fun b hb => ?_, fun b hb => ?_, fun a h' => ?_, fun b hb hbs => ?_⟩
    · rw [hl]; exact h1 b (hc1 b hb)
    · rw [hl]; rw [hs] at hb; exact h2 b hb
    · rw [hl]; rw [ha] at h'; exact h3 a h'
    · rw [hs] at hbs; exact absurd hbs (hc2 b hb)
  · rename_i st _
    have hlive : ∀ b ∈ (srv.cancelActive.afterRun st).live,
        (b ∈ srv.cancelActive.live ∧ b < srv.launched) ∨ b = srv.launched := by
      intro b hb
      rcases afterRun_live _ _ b hb with h' | h'
      · exact Or.inl ⟨h', h1 b (hc1 b h')⟩
      · exact Or.inr (by rw [h', hl])
    have hlaunched : (srv.cancelActive.afterRun st).launched = srv.launched + 1 := by
      simp [Server.afterRun, hl]
    have hsess : (srv.cancelActive.afterRun st).sessions = srv.sessions := by
      simp [Server.afterRun, hs]
    have hact : (srv.cancelActive.afterRun st).activeSession = srv.activeSession := by
      simp [Server.afterRun, ha]
    split
    · refine ⟨fun b hb => ?_, fun b hb => ?_, fun a h' => ?_, fun b hb hbs => ?_⟩
      · show b < (srv.cancelActive.afterRun st).launched
        rw [hlaunched]
        rcases hlive b hb with ⟨_, h'⟩ | h' <;> omega
      · show b < (srv.cancelActive.afterRun st).launched
        rw [hlaunched]
        rcases List.mem_append.mp hb with h' | h'
        · have := h2 b h'
          omega
        · have : b = srv.launched := by simpa using h'
          omega
      · show a < (srv.cancelActive.afterRun st).launched
        rw [hlaunched]
        have : a = srv.launched := (Option.some.inj h').symm
        omega
      · show some srv.launched = some b
        rcases hlive b hb with ⟨h', hlt⟩ | h'
        · rcases List.mem_append.mp hbs with h'' | h''
          · exact absurd h'' (hc2 b h')
          · have : b = srv.launched := by simpa using h''
            omega
        · rw [h']
    · refine ⟨fun b hb => ?_, fun b hb => ?_, fun a h' => ?_, fun b hb hbs => ?_⟩
      · rw [hlaunched]
        rcases hlive b hb with ⟨_, h'⟩ | h' <;> omega
      · rw [hlaunched]
        rw [hsess] at hb
        have := h2 b hb
        omega
      · rw [hlaunched]
        rw [hact] at h'
        have := h3 a h'
        omega
      · rw [hsess] at hbs
        rcases hlive b hb with ⟨h', _⟩ | h'
        · exact absurd hbs (hc2 b h')
        · have := h2 b hbs
          omega

theorem handleSubmit_state (srv : Server) (captcha : String) (pg : CaptchaPage) :
    (handleSubmit srv captcha pg).1 = srv := by
  unfold handleSubmit
  split
  · rfl
  · split
    · rfl
    · split <;> rfl

theorem serve_inv (lower : String → String) (reqs : List Request) (srv : Server)
    (h : ServerInv srv) : ServerInv (serve lower srv reqs).1 := by
  induction reqs generalizing srv with
  | nil => exact h
  | cons r rest ih =>
    simp only [serve]
    apply ih
    cases r with
    | search fd p => exact handleSearch_inv lower srv fd p h
    | submitCaptcha c pg =>
      show ServerInv (handleSubmit srv c pg).1
      rw [handleSubmit_state]
      exact h

theorem initial_inv : ServerInv Server.initial :=
  ⟨fun _ hb => by simp [Server.initial] at hb, fun _ hb => by simp [Server.initial] at hb,
    fun _ h => by simp [Server.initial] at h, fun _ hb => by simp [Server.initial] at hb⟩

/-- A search closes the browser of the session that was stored when it came in. -/
theorem handleSearch_closes_active (lower : String → String) (srv : Server) (fd : FormData)
    (p : Portal) (h : ServerInv srv) (a : Nat) (ha : srv.activeSession = some a) :
    a ∉ (handleSearch lower srv fd p).1.live := by
  have hcancel := (cancelActive_live srv h).2.2 a ha
  have hlt := h.2.2.1 a ha
  have hl : srv.cancelActive.launched = srv.launched := by
    unfold Server.cancelActive
    split <;> rfl
  intro hmem
  unfold handleSearch at hmem
  dsimp only at hmem
  split at hmem
  · exact hcancel hmem
  · split at hmem
    · rcases afterRun_live _ _ a hmem with h' | h'
      · exact hcancel h'
      · omega
    · rcases afterRun_live _ _ a hmem with h' | h'
      · exact hcancel h'
      · omega

/-- C11, as stated, fails.  After a search that ends awaiting a CAPTCHA and a submission
that was accepted, a second submission is dispatched to the same session, drives its
page again and returns `success = true`. -/
theorem submit_after_accept_counterexample :
    (serve asciiLower Server.initial
        [.search (fullSearch "1" "5") (samplePortal sampleTalukas sampleVillages),
         .submitCaptcha "abc" scrapedPage, .submitCaptcha "abc" scrapedPage]).2.map
      (fun h => (h.dispatchedTo, h.drive, h.response.success)) =
      [(none, [], false),
       (some 0, [.submitChallenge, .extractRecords], true),
       (some 0, [.submitChallenge, .extractRecords], true)] := by
  decide

/-- C11, amended.  `POST /submit-captcha` answers `success = false` without driving a
browser when the value is blank, when no session is stored, and when the stored
session's browser is closed (the session was cancelled); to a stored session with an
open browser the submission is passed on, whether that session is still awaiting a
CAPTCHA or was accepted before. -/
theorem submit_without_session (srv : Server) (captcha : String) (pg : CaptchaPage) :
    ((captcha = "" ∨ jsTrim captcha = "") →
      (handleSubmit srv captcha pg).2.response.success = false ∧
        (handleSubmit srv captcha pg).2.drive = [] ∧
        (handleSubmit srv captcha pg).2.dispatchedTo = none) ∧
    (srv.activeSession = none →
      (handleSubmit srv captcha pg).2.response.success = false ∧
        (handleSubmit srv captcha pg).2.drive = [] ∧
        (handleSubmit srv captcha pg).2.dispatchedTo = none) ∧
    (∀ a, srv.activeSession = some a → a ∉ srv.live →
      (handleSubmit srv captcha pg).2.response.success = false ∧
        (handleSubmit srv captcha pg).2.drive = []) ∧
    (∀ a, srv.activeSession = some a → a ∈ srv.live → captcha ≠ "" → jsTrim captcha ≠ "" →
      (handleSubmit srv captcha pg).2.dispatchedTo = some a ∧
        (handleSubmit srv captcha pg).2.drive = (submitCaptcha pg).2 ∧
        (handleSubmit srv captcha pg).2.response.success = (submitCaptcha pg).1.success) ∧
    (handleSubmit srv captcha pg).1 = srv := by
  refine ⟨fun hb => ?_, fun hn => ?_, fun a ha hl => ?_, fun a ha hl h1 h2 => ?_,
    handleSubmit_state srv captcha pg⟩
  · simp [handleSubmit, hb]
  · unfold handleSubmit
    split
    · exact ⟨rfl, rfl, rfl⟩
    · simp [hn]
  · unfold handleSubmit
    split
    · exact ⟨rfl, rfl⟩
    · simp [ha, hl]
  · have hnb : ¬(captcha = "" ∨ jsTrim captcha = "") := fun h => h.elim h1 h2
    simp [handleSubmit, hnb, ha, hl]

theorem submit_without_session_witness :
    (handleSubmit Server.initial "abc" scrapedPage).2.response.success = false ∧
    (handleSubmit Server.initial "abc" scrapedPage).2.drive = [] ∧
    (handleSubmit Server.initial "abc" scrapedPage).2.dispatchedTo = none ∧
    (handleSubmit { activeSession := some 0, launched := 2, live := [1], sessions := [0] }
      "abc" scrapedPage).2.response.success = false ∧
    (handleSubmit { activeSession := some 0, launched := 2, live := [1], sessions := [0] }
      "abc" scrapedPage).2.drive = [] :=
  ⟨((submit_without_session Server.initial "abc" scrapedPage).2.1 rfl).1,
   ((submit_without_session Server.initial "abc" scrapedPage).2.1 rfl).2.1,
   ((submit_without_session Server.initial "abc" scrapedPage).2.1 rfl).2.2,
   ((submit_without_session
      { activeSession := some 0, launched := 2, live := [1], sessions := [0] }
      "abc" scrapedPage).2.2.1 0 rfl (by decide)).1,
   ((submit_without_session
      { activeSession := some 0, launched := 2, live := [1], sessions := [0] }
      "abc" scrapedPage).2.2.1 0 rfl (by decide)).2⟩

/-- C12, as stated, fails.  Two searches that end without requiring a CAPTCHA leave two
browsers open, and neither is cancelled by anything; `POST /automate` adds a third
next to them. -/
theorem open_browsers_counterexample :
    (serve asciiLower Server.initial
        [.search districtOnly (samplePortal sampleTalukas sampleVillages),
         .search districtOnly (samplePortal sampleTalukas sampleVillages)]).1 =
      { activeSession := none, launched := 2, live := [0, 1], sessions := [] } ∧
    (handleAutomate asciiLower
        { activeSession := none, launched := 2, live := [0, 1], sessions := [] }
        (fullSearch "1" "5") (samplePortal sampleTalukas sampleVillages)).1 =
      { activeSession := none, launched := 3, live := [0, 1, 2], sessions := [] } := by
  decide

theorem cancelActive_fields (srv : Server) :
    srv.cancelActive.launched = srv.launched ∧ srv.cancelActive.sessions = srv.sessions ∧
      srv.cancelActive.activeSession = srv.activeSession := by
  unfold Server.cancelActive
  split
  · exact ⟨rfl, rfl, rfl⟩
  · rename_i a heq
    exact ⟨rfl, rfl, heq.symm ▸ rfl⟩

theorem mem_afterRun_live (srv : Server) (st : St) {b : Nat} (h : b ∈ srv.live) :
    b ∈ (srv.afterRun st).live := by
  unfold Server.afterRun
  dsimp only
  split
  · exact h
  · exact List.mem_append_left _ h

theorem handleSearch_activeIsSession (lower : String → String) (srv : Server) (fd : FormData)
    (p : Portal) (h : ActiveIsSession srv) : ActiveIsSession (handleSearch lower srv fd p).1 := by
  obtain ⟨_, hs, ha⟩ := cancelActive_fields srv
  unfold handleSearch
  dsimp only
  split
  · intro a hact
    rw [ha] at hact
    rw [hs]
    exact h a hact
  · split
    · intro a hact
      have : srv.launched = a := Option.some.inj hact
      show a ∈ srv.sessions ++ [srv.launched]
      simp [this]
    · intro a hact
      have hact' : srv.cancelActive.activeSession = some a := hact
      rw [ha] at hact'
      show a ∈ srv.cancelActive.sessions
      rw [hs]
      exact h a hact'

theorem serve_activeIsSession (lower : String → String) (reqs : List Request) (srv : Server)
    (h : ActiveIsSession srv) : ActiveIsSession (serve lower srv reqs).1 := by
  induction reqs generalizing srv with
  | nil => exact h
  | cons r rest ih =>
    simp only [serve]
    apply ih
    cases r with
    | search fd p => exact handleSearch_activeIsSession lower srv fd p h
    | submitCaptcha c pg =>
      show ActiveIsSession (handleSubmit srv c pg).1
      rw [handleSubmit_state]
      exact h

/-- A search answers with the stored session as the one it cancelled. -/
theorem handleSearch_cancelled (lower : String → String) (srv : Server) (fd : FormData)
    (p : Portal) : (handleSearch lower srv fd p).2.cancelled = srv.activeSession := by
  unfold handleSearch
  dsimp only
  split
  · rfl
  · split <;> rfl

/-- The browser that a search launches is open when the search returns, whatever
`keepBrowserOpen` the request carried. -/
theorem handleSearch_launched_open (lower : String → String) (srv : Server) (fd : FormData)
    (p : Portal) (b : Nat) (h : (handleSearch lower srv fd p).2.launchedBrowser = some b) :
    b ∈ (handleSearch lower srv fd p).1.live := by
  obtain ⟨hl, _, _⟩ := cancelActive_fields srv
  unfold handleSearch at h ⊢
  dsimp only at h ⊢
  generalize hrun : automateForm lower _ p = r at h ⊢
  cases r with
  | none => exact Option.noConfusion h
  | some st =>
    dsimp only at h ⊢
    have hopen : Step.closeBrowser ∉ st.trace :=
      ((automateForm_browser lower _ p st hrun).1 rfl).1
    have hb : srv.launched = b := by
      split at h <;> exact Option.some.inj h
    have hmem : b ∈ (srv.cancelActive.afterRun st).live := by
      simp [Server.afterRun, hopen, hl, hb]
    split <;> exact hmem

/-- A search leaves open every browser that does not belong to a session. -/
theorem handleSearch_keeps_others (lower : String → String) (srv : Server) (fd : FormData)
    (p : Portal) (h : ActiveIsSession srv) (b : Nat) (hb : b ∈ srv.live)
    (hs : b ∉ srv.sessions) : b ∈ (handleSearch lower srv fd p).1.live := by
  have hc : b ∈ srv.cancelActive.live := by
    unfold Server.cancelActive
    split
    · exact hb
    · rename_i a ha
      refine List.mem_filter.mpr ⟨hb, ?_⟩
      have : b ≠ a := fun hba => hs (hba ▸ h a ha)
      simpa using this
  unfold handleSearch
  dsimp only
  split
  · exact hc
  · split <;> exact mem_afterRun_live _ _ hc

/-- The handler of `/automate` cancels nothing, leaves the stored session and every
open browser as they are, and leaves its own browser open exactly when the request
carries `keepBrowserOpen = true`. -/
theorem handleAutomate_effect (lower : String → String) (srv : Server) (fd : FormData)
    (p : Portal) (hinv : ServerInv srv) :
    (handleAutomate lower srv fd p).2.cancelled = none ∧
    (handleAutomate lower srv fd p).1.activeSession = srv.activeSession ∧
    (∀ b ∈ srv.live, b ∈ (handleAutomate lower srv fd p).1.live) ∧
    (∀ b, (handleAutomate lower srv fd p).2.launchedBrowser = some b →
      (b ∈ (handleAutomate lower srv fd p).1.live ↔ fd.keepBrowserOpen = true)) := by
  unfold handleAutomate
  split
  · exact ⟨rfl, rfl, fun b hb => hb, fun b hb => Option.noConfusion hb⟩
  · rename_i st hst
    refine ⟨rfl, rfl, fun b hb => mem_afterRun_live _ _ hb, fun b hb => ?_⟩
    have hbl : srv.launched = b := Option.some.inj hb
    have hnot : b ∉ srv.live := fun hmem => by
      have := hinv.1 b hmem
      omega
    obtain ⟨hkeep, hclose⟩ := automateForm_browser lower fd p st hst
    cases hk : fd.keepBrowserOpen with
    | true =>
      have hopen := (hkeep hk).1
      simp [Server.afterRun, hopen, hbl]
    | false =>
      have hlast := hclose hk
      have hmem : Step.closeBrowser ∈ st.trace := List.mem_of_mem_getLast? hlast
      simp [Server.afterRun, hmem, hnot]

/-- C12, amended.  After any sequence of `/search` and `/submit-captcha` requests, an
open browser that belongs to a run which returned a session is the browser of the
stored session.  A further `/search` cancels the stored session and closes its
browser; the browser it launches itself is open when it returns, whatever
`keepBrowserOpen` the request carried, and every open browser that belongs to no
session stays open.  `/automate` cancels nothing, leaves the stored session and every
open browser as they are, and leaves its own browser open exactly when the request
carries `keepBrowserOpen = true`. -/
theorem one_session_browser (lower : String → String) (reqs : List Request) (fd : FormData)
    (p : Portal) :
    (∀ b ∈ (serve lower Server.initial reqs).1.live,
      b ∈ (serve lower Server.initial reqs).1.sessions →
      (serve lower Server.initial reqs).1.activeSession = some b) ∧
    (handleSearch lower (serve lower Server.initial reqs).1 fd p).2.cancelled =
      (serve lower Server.initial reqs).1.activeSession ∧
    (∀ a, (serve lower Server.initial reqs).1.activeSession = some a →
      a ∉ (handleSearch lower (serve lower Server.initial reqs).1 fd p).1.live) ∧
    (∀ b, (handleSearch lower (serve lower Server.initial reqs).1 fd p).2.launchedBrowser =
        some b →
      b ∈ (handleSearch lower (serve lower Server.initial reqs).1 fd p).1.live) ∧
    (∀ b ∈ (serve lower Server.initial reqs).1.live,
      b ∉ (serve lower Server.initial reqs).1.sessions →
      b ∈ (handleSearch lower (serve lower Server.initial reqs).1 fd p).1.live) ∧
    (handleAutomate lower (serve lower Server.initial reqs).1 fd p).2.cancelled = none ∧
    (handleAutomate lower (serve lower Server.initial reqs).1 fd p).1.activeSession =
      (serve lower Server.initial reqs).1.activeSession ∧
    (∀ b ∈ (serve lower Server.initial reqs).1.live,
      b ∈ (handleAutomate lower (serve lower Server.initial reqs).1 fd p).1.live) ∧
    (∀ b, (handleAutomate lower (serve lower Server.initial reqs).1 fd p).2.launchedBrowser =
        some b →
      (b ∈ (handleAutomate lower (serve lower Server.initial reqs).1 fd p).1.live ↔
        fd.keepBrowserOpen = true)) := by
  have hinv := serve_inv lower reqs Server.initial initial_inv
  have hact : ActiveIsSession (serve lower Server.initial reqs).1 :=
    serve_activeIsSession lower reqs Server.initial
      (fun a h => by simp [Server.initial] at h)
  obtain ⟨h1, h2, h3, h4⟩ := handleAutomate_effect lower _ fd p hinv
  exact ⟨hinv.2.2.2, handleSearch_cancelled lower _ fd p,
    fun a ha => handleSearch_closes_active lower _ fd p hinv a ha,
    handleSearch_launched_open lower _ fd p,
    fun b hb hs => handleSearch_keeps_others lower _ fd p hact b hb hs, h1, h2, h3, h4⟩

theorem one_session_browser_witness :
    (serve asciiLower Server.initial
      [.search (fullSearch "1" "5") (samplePortal sampleTalukas sampleVillages)]
      ).1.activeSession = some 0 ∧
    0 ∉ (handleSearch asciiLower
      (serve asciiLower Server.initial
        [.search (fullSearch "1" "5") (samplePortal sampleTalukas sampleVillages)]).1
      { districtOnly with keepBrowserOpen := false }
      (samplePortal sampleTalukas sampleVillages)).1.live ∧
    1 ∈ (handleSearch asciiLower
      (serve asciiLower Server.initial
        [.search (fullSearch "1" "5") (samplePortal sampleTalukas sampleVillages)]).1
      { districtOnly with keepBrowserOpen := false }
      (samplePortal sampleTalukas sampleVillages)).1.live :=
  ⟨(one_session_browser asciiLower
      [.search (fullSearch "1" "5") (samplePortal sampleTalukas sampleVillages)]
      { districtOnly with keepBrowserOpen := false }
      (samplePortal sampleTalukas sampleVillages)).1 0 (by decide) (by decide),
   (one_session_browser asciiLower
      [.search (fullSearch "1" "5") (samplePortal sampleTalukas sampleVillages)]
      { districtOnly with keepBrowserOpen := false }
      (samplePortal sampleTalukas sampleVillages)).2.2.1 0 (by decide),
   (one_session_browser asciiLower
      [.search (fullSearch "1" "5") (samplePortal sampleTalukas sampleVillages)]
      { districtOnly with keepBrowserOpen := false }
      (samplePortal sampleTalukas sampleVillages)).2.2.2.1 1 (by decide)⟩

/-- C27.  After a search that ends awaiting a CAPTCHA and a second search that ends
without requiring one, `activeSession` is still the first session, which the second
search cancelled, and `/submit-captcha` is dispatched to it. -/
theorem stale_active_session :
    serve asciiLower Server.initial
        [.search (fullSearch "1" "5") (samplePortal sampleTalukas sampleVillages),
         .search districtOnly (samplePortal sampleTalukas sampleVillages),
         .submitCaptcha "abc" scrapedPage] =
      ({ activeSession := some 0, launched := 2, live := [1], sessions := [0] },
       [{ cancelled := none, launchedBrowser := some 0, dispatchedTo := none, drive := [],
          response := ⟨false, true, "Please enter the CAPTCHA to continue", none⟩ },
        { cancelled := some 0, launchedBrowser := some 1, dispatchedTo := none, drive := [],
          response := ⟨true, false, "Retrieved available talukas", none⟩ },
        { cancelled := none, launchedBrowser := none, dispatchedTo := some 0, drive := [],
          response := ⟨false, true, "Error processing CAPTCHA: Target closed", none⟩ }]) := by
  decide

/-! ## Claims on the dropdown cache -/

/-- C28.  After the talukas of district 1 were fetched and the browser was closed,
`formState.district` is still `1`; the next `/villages/1/1` skips the district
selection and runs `getVillages` on a fresh page whose district control holds nothing,
answers with an empty village list, and leaves a page that does not show the cached
district.  Without the closing the same request reads the page that shows district 1. -/
theorem stale_district_after_close :
    serveCache sampleSite Cache.initial [.talukas "1", .closeBrowser, .villages "1" "1"] =
      ({ page := some "", district := "1", taluka := "1", talukas := [⟨"1", "Pune"⟩],
         villages := [], initialized := false },
       [⟨false, none, false⟩, ⟨false, none, false⟩, ⟨false, some "", false⟩]) ∧
    serveCache sampleSite Cache.initial [.talukas "1", .disconnected, .villages "1" "1"] =
      ({ page := some "", district := "1", taluka := "1", talukas := [⟨"1", "Pune"⟩],
         villages := [], initialized := false },
       [⟨false, none, false⟩, ⟨false, none, false⟩, ⟨false, some "", false⟩]) ∧
    serveCache sampleSite Cache.initial [.talukas "1", .villages "1" "1"] =
      ({ page := some "1", district := "1", taluka := "1", talukas := [⟨"1", "Pune"⟩],
         villages := [⟨"5", "Alpha"⟩], initialized := false },
       [⟨false, none, false⟩, ⟨false, some "1", false⟩]) := by
  decide

end IGR
